import Mathlib

/-!
# Vaccination schedule calculator: embedding and verified properties

Shallow embedding of `src/vaccineData.js` and `src/script.js`.

Modelling conventions

* A JavaScript `Date` is modelled at day granularity, as an `Int`: the number of
  the local calendar day counted from 1970-01-01 (day 0).  Time of day, time
  zones and the finite range of the platform clock are not modelled, so two
  instants of the same calendar day are the same value.
* The calendar accessors and mutators of the platform (`getFullYear`,
  `getMonth`, `getDate`, `setDate`, `setMonth`, `setFullYear`, the
  `new Date(y, m, d)` constructor) follow the ECMAScript definitions
  `DayFromYear`, `YearFromTime`, `MonthFromTime`, `DateFromTime`, `MakeDay`.
* `new Date()` (the clock) is an explicit parameter `today`, read once.  A
  clock reading lies after the midnight that starts its day, so against a
  date `d` (a midnight) the tests `new Date() < d` and `new Date() >= d` are
  `today < d` and `today ≥ d`, and the test `new Date() > d` of the `rv`
  rules holds from day `d` on: it is `today ≥ d`.  The reading taken at the
  instant of midnight itself is left out.
* `null` / `undefined` are `Option.none`; the truthiness test of a number is
  `truthy` (present and non-zero).
-/

namespace VaccinationSchedule

/-! ## Platform calendar (ECMAScript date algorithms, day granularity) -/

/-- ECMAScript leap-year test (`DaysInYear y = 366`). -/
def inLeapYear (y : Int) : Bool :=
  y % 4 == 0 && (y % 100 != 0 || y % 400 == 0)

/-- ECMAScript `DayFromYear`: day number of January 1 of year `y`. -/
def dayFromYear (y : Int) : Int :=
  365 * (y - 1970) + (y - 1969) / 4 - (y - 1901) / 100 + (y - 1601) / 400

/-- ECMAScript `YearFromTime`: the year whose January 1 is the latest one not
after day `n`.  Computed from an estimate that is off by at most one. -/
def yearFromDay (n : Int) : Int :=
  let y := 1970 + (400 * n) / 146097
  if dayFromYear (y + 1) ≤ n then y + 1
  else if dayFromYear y ≤ n then y
  else y - 1

/-- Extra day of a leap year: 1 in a leap year, 0 otherwise. -/
def leapDay (y : Int) : Int := if inLeapYear y then 1 else 0

/-- Number of days of the year before the first day of month `m` (0-based), for
a year with `l` extra days. -/
def monthStart (l : Int) (m : Int) : Int :=
  if m ≤ 0 then 0
  else if m = 1 then 31
  else if m = 2 then 59 + l
  else if m = 3 then 90 + l
  else if m = 4 then 120 + l
  else if m = 5 then 151 + l
  else if m = 6 then 181 + l
  else if m = 7 then 212 + l
  else if m = 8 then 243 + l
  else if m = 9 then 273 + l
  else if m = 10 then 304 + l
  else if m = 11 then 334 + l
  else 365 + l

/-- Number of days of month `m` (0-based) of year `y`. -/
def daysInMonth (y m : Int) : Int :=
  monthStart (leapDay y) (m + 1) - monthStart (leapDay y) m

/-- Method `Date.prototype.getFullYear`. -/
def getFullYear (d : Int) : Int := yearFromDay d

/-- ECMAScript `DayWithinYear`. -/
def dayWithinYear (d : Int) : Int := d - dayFromYear (yearFromDay d)

/-- ECMAScript `MonthFromTime` on the day within the year `k` of a year with
`l` extra days. -/
def monthFromDayInYear (l k : Int) : Int :=
  if k < 31 then 0
  else if k < 59 + l then 1
  else if k < 90 + l then 2
  else if k < 120 + l then 3
  else if k < 151 + l then 4
  else if k < 181 + l then 5
  else if k < 212 + l then 6
  else if k < 243 + l then 7
  else if k < 273 + l then 8
  else if k < 304 + l then 9
  else if k < 334 + l then 10
  else 11

/-- Method `Date.prototype.getMonth`, 0-based. -/
def getMonth (d : Int) : Int :=
  monthFromDayInYear (leapDay (yearFromDay d)) (dayWithinYear d)

/-- Method `Date.prototype.getDate` (ECMAScript `DateFromTime`), 1-based. -/
def getDate (d : Int) : Int :=
  dayWithinYear d - monthStart (leapDay (yearFromDay d)) (getMonth d) + 1

/-- ECMAScript `MakeDay`: month and day may lie outside their ranges and are
carried over (month overflow into the year, day overflow into later months). -/
def makeDay (y m d : Int) : Int :=
  let ym := y + m / 12
  let mn := m % 12
  dayFromYear ym + monthStart (leapDay ym) mn + d - 1

/-- Constructor `new Date(y, m, d)`: a year from 0 to 99 means 1900 + y. -/
def newDateYMD (y m d : Int) : Int :=
  makeDay (if 0 ≤ y ∧ y ≤ 99 then 1900 + y else y) m d

/-- Constructor `new Date(value)` on a `Date` or `null`; `null` converts to the
time value 0. -/
def newDate (d : Option Int) : Int := d.getD 0

/-- Method `Date.prototype.setDate`. -/
def setDate (d : Int) (v : Int) : Int := makeDay (getFullYear d) (getMonth d) v

/-- Method `Date.prototype.setMonth` (one argument). -/
def setMonth (d : Int) (v : Int) : Int := makeDay (getFullYear d) v (getDate d)

/-- Method `Date.prototype.setFullYear` (one argument). -/
def setFullYear (d : Int) (v : Int) : Int := makeDay v (getMonth d) (getDate d)

/-- Truthiness of an optional number: present and not zero. -/
def truthy (x : Option Int) : Bool :=
  match x with
  | some n => n != 0
  | none => false

/-! ## Calendar helpers of the program -/

/-- Age snapshot `{ years, months, days, totalMonths, totalWeeks, birthDate }`. -/
structure AgeInfo where
  years : Int
  months : Int
  days : Int
  totalMonths : Int
  totalWeeks : Int
  birthDate : Option Int
deriving DecidableEq, Repr

/-- Function `calculateAgeAtDate` of `vaccineData.js`. -/
def calculateAgeAtDate (birthDate atDate : Option Int) : AgeInfo :=
  match birthDate, atDate with
  | some b, some a =>
    let years := getFullYear a - getFullYear b
    let months := getMonth a - getMonth b
    let days := getDate a - getDate b
    let months1 := if days < 0 then months - 1 else months
    let days1 :=
      if days < 0 then days + getDate (newDateYMD (getFullYear a) (getMonth a) 0) else days
    let years1 := if months1 < 0 then years - 1 else years
    let months2 := if months1 < 0 then months1 + 12 else months1
    { years := years1, months := months2, days := days1,
      totalMonths := years1 * 12 + months2,
      totalWeeks := (a - b) / 7,
      birthDate := some b }
  | _, _ =>
    { years := 0, months := 0, days := 0, totalMonths := 0, totalWeeks := 0,
      birthDate := birthDate }

/-- Object returned by `calculateAge`.  When the birth-date string yields an
Invalid Date every numeric field of the object is NaN (`allNaN`). -/
inductive AgeObject where
  | snapshot (a : AgeInfo)
  | allNaN
deriving DecidableEq, Repr

/-- Function `calculateAge` of `script.js`.  `parse` is the platform's
`new Date(string)` (`none` is an Invalid Date) and `today` the clock.  The
result `none` is `null`. -/
def calculateAge (parse : String → Option Int) (today : Int) (dobString : String) :
    Option AgeObject :=
  if dobString = "" then none
  else
    match parse dobString with
    | none => some AgeObject.allNaN
    | some birthDate =>
      if birthDate > today then none
      else
        let years := getFullYear today - getFullYear birthDate
        let months := getMonth today - getMonth birthDate
        let days := getDate today - getDate birthDate
        let months1 := if days < 0 then months - 1 else months
        let days1 :=
          if days < 0 then
            days + getDate (newDateYMD (getFullYear today) (getMonth today) 0)
          else days
        let years1 := if months1 < 0 then years - 1 else years
        let months2 := if months1 < 0 then months1 + 12 else months1
        some (AgeObject.snapshot
          { years := years1, months := months2, days := days1,
            totalMonths := years1 * 12 + months2,
            totalWeeks := (today - birthDate) / 7,
            birthDate := some birthDate })

/-- Function `diffInMonths` of `vaccineData.js`. -/
def diffInMonths (date1 date2 : Option Int) : Int :=
  match date1, date2 with
  | some d1, some d2 =>
    let months := (getFullYear d2 - getFullYear d1) * 12
    let months := months - getMonth d1
    let months := months + getMonth d2
    let months := if getDate d2 < getDate d1 then months - 1 else months
    if months ≤ 0 then 0 else months
  | _, _ => 0

/-- Units accepted by `addTimeToDate`. -/
inductive TimeUnit where
  | days | weeks | months | years
deriving DecidableEq, Repr

/-- Function `addTimeToDate` of `script.js`. -/
def addTimeToDate (date : Int) (unit : TimeUnit) (value : Int) : Int :=
  match unit with
  | .days => setDate date (getDate date + value)
  | .weeks => setDate date (getDate date + value * 7)
  | .months => setMonth date (getMonth date + value)
  | .years => setFullYear date (getFullYear date + value)

/-- Left padding to two characters with the digit zero (`padStart(2, '0')`). -/
def pad2 (n : Int) : String :=
  let s := toString n
  if s.length < 2 then "0" ++ s else s

/-- Function `formatDate` of `script.js`: `YYYY-MM-DD` from the local fields.
Both source files declare a global `formatDate`; this one is used throughout
(the two agree, at day granularity, on every date of the years 1000 to 9999). -/
def formatDate (date : Int) : String :=
  toString (getFullYear date) ++ "-" ++ pad2 (getMonth date + 1) ++ "-" ++ pad2 (getDate date)

/-! ## Data model of the regimen catalog -/

/-- Dose history of one regimen: slot `i` holds the date of dose `i + 1` or `null`. -/
abbrev History := List (Option Int)

/-- Array read `history[i]`; out of range reads are `undefined`. -/
def slot (history : History) (i : Nat) : Option Int := history.getD i none

/-- Expression `history.filter(d => d).length`. -/
def countDoses (history : History) : Nat := (history.filter Option.isSome).length

/-- Expression `history.filter(d => d).pop()`: the last recorded date. -/
def lastDose (history : History) : Option Int := (history.filterMap id).getLast?

/-- Expression `history.find(d => d)`: the first recorded date. -/
def firstDose (history : History) : Option Int := (history.filterMap id).head?

/-- Keys of `VACCINE_DATA`. -/
inductive VaccineId where
  | bcg | hepB | dtap | tdap | td | ipv | hib | pcv | ppsv23 | rv | mmr | var
  | hepA | ijev | liev | hpv | iiv
deriving DecidableEq, Repr

/-- Object `allVaccineHistories`: a missing key is `none`. -/
abbrev AllHistories := VaccineId → Option History

/-- Timing descriptor objects of `standardIntervals`, `minIntervals` and of the
interval overrides; an absent property is `none` (or `false`). -/
structure IntervalConfig where
  months : Option Int := none
  weeks : Option Int := none
  yearsInterval : Option Int := none
  minMonths : Option Int := none
  monthsInterval : Option Int := none
  weeksInterval : Option Int := none
  ageYears : Option Int := none
  ageMonths : Option Int := none
  recommendedAgeMonths : Option Int := none
  isAnnual : Bool := false
  startMonth : Option Int := none
  endMonth : Option Int := none
  fromToday : Bool := false
deriving DecidableEq, Repr

/-- Values of the `action` property occurring in the rule functions. -/
inductive Action where
  | completed | skip | wait | consult | error | recommendNext | checkTd
deriving DecidableEq, Repr

/-- String value of an action tag. -/
def Action.name : Action → String
  | .completed => "completed"
  | .skip => "skip"
  | .wait => "wait"
  | .consult => "consult"
  | .error => "error"
  | .recommendNext => "recommendNext"
  | .checkTd => "checkTd"

/-- Object returned by a rule function; absent properties are `none`. -/
structure RuleAction where
  action : Action
  message : Option String := none
  nextDoseNumber : Option Nat := none
  minDateOverride : Option Int := none
  recommendedDateOverride : Option Int := none
  minAgeOverride : Option Int := none
  minIntervalOverride : Option IntervalConfig := none
  messageOverride : Option String := none
deriving DecidableEq, Repr

/-- Signature of a `rules` function; the last argument is the clock `new Date()`. -/
abbrev Rules := AgeInfo → History → AllHistories → Int → RuleAction

/-- One entry of `VACCINE_DATA`. -/
structure Vaccine where
  id : VaccineId
  name : String
  doses : Nat
  standardIntervals : List IntervalConfig
  minIntervals : List IntervalConfig
  rules : Option Rules

/-- Helper `d + n days`, written `x.setDate(x.getDate() + n)` in the rules. -/
def plusDays (d : Int) (n : Int) : Int := setDate d (getDate d + n)

/-- Helper `x.setMonth(x.getMonth() + n)`. -/
def plusMonths (d : Int) (n : Int) : Int := setMonth d (getMonth d + n)

/-- Helper `x.setFullYear(x.getFullYear() + n)`. -/
def plusYears (d : Int) (n : Int) : Int := setFullYear d (getFullYear d + n)

/-! ## Rule functions of `VACCINE_DATA` -/

/-- Rules of `bcg`. -/
def bcgRules : Rules := fun ageInfo history _ _ =>
  if (slot history 0).isSome then { action := .completed, message := some "완료" }
  else if ageInfo.totalWeeks ≤ 4 then { action := .recommendNext, nextDoseNumber := some 1 }
  else { action := .consult, message := some "4주 이내 접종 권장. 의사 상담 필요." }

/-- Rules of `hepB`. -/
def hepBRules : Rules := fun ageInfo history _ _ =>
  let numAdministered := countDoses history
  if numAdministered = 3 then { action := .completed, message := some "완료" }
  else if numAdministered = 2 then
    match slot history 0, slot history 1 with
    | some firstDoseDate, some secondDoseDate =>
      let minAgeFor3rd := plusDays (newDate ageInfo.birthDate) (24 * 7)
      let minDateFrom1st := plusDays firstDoseDate (16 * 7)
      let minDateFrom2nd := plusDays secondDoseDate (8 * 7)
      let earliest3rdDose := max minAgeFor3rd (max minDateFrom1st minDateFrom2nd)
      { action := .recommendNext, nextDoseNumber := some 3,
        minDateOverride := some earliest3rdDose }
    | _, _ => { action := .error, message := some "이전 기록 오류" }
  else { action := .recommendNext, nextDoseNumber := some (numAdministered + 1) }

/-- Rules of `dtap`. -/
def dtapRules : Rules := fun ageInfo history _ _ =>
  let numAdministered := countDoses history
  if numAdministered = 5 then { action := .completed, message := some "완료" }
  else if numAdministered = 4 ∧ (slot history 3).isSome ∧
      (calculateAgeAtDate ageInfo.birthDate (slot history 3)).years ≥ 4 then
    { action := .completed, message := some "4차를 만 4세 이후 접종하여 5차 생략" }
  else { action := .recommendNext, nextDoseNumber := some (numAdministered + 1) }

/-- Rules of `tdap`. -/
def tdapRules : Rules := fun ageInfo history allVaccineHistories today =>
  let numAdministered := countDoses history
  if numAdministered ≥ 1 then
    { action := .checkTd, message := some "Tdap 완료. Td 접종 고려." }
  else if ageInfo.years ≥ 11 then
    let dtapHistory := (allVaccineHistories .dtap).getD [none, none, none, none, none]
    match lastDose dtapHistory with
    | some lastDtapDoseDate =>
      let minTdapDate := plusYears lastDtapDoseDate 5
      if today < minTdapDate then
        { action := .wait,
          message := some ("DTaP 최종 접종 후 5년 경과 필요 (" ++ formatDate minTdapDate ++
            " 이후)") }
      else { action := .recommendNext, nextDoseNumber := some 1 }
    | none => { action := .recommendNext, nextDoseNumber := some 1 }
  else { action := .wait, message := some "만 11세 이후 권장" }

/-- Rules of `td`. -/
def tdRules : Rules := fun _ history allVaccineHistories today =>
  let tdapHistory := (allVaccineHistories .tdap).getD [none]
  let lastTdapDate := lastDose tdapHistory
  let lastTdDate := lastDose history
  let lastTetanusContainingDoseDate :=
    match lastTdDate with
    | some d => some d
    | none => lastTdapDate
  match lastTetanusContainingDoseDate with
  | none => { action := .consult, message := some "Tdap 접종력이 확인되지 않음. 의사 상담 필요." }
  | some last =>
    let nextTdDate := plusYears last 10
    if today ≥ nextTdDate then
      { action := .recommendNext, nextDoseNumber := some (countDoses history + 1),
        recommendedDateOverride := some nextTdDate }
    else { action := .wait, message := some ("다음 Td 권장일: " ++ formatDate nextTdDate) }

/-- Rules of `ipv`. -/
def ipvRules : Rules := fun ageInfo history _ _ =>
  let numAdministered := countDoses history
  if numAdministered = 4 then { action := .completed, message := some "완료" }
  else if numAdministered = 3 ∧ (slot history 2).isSome ∧
      (calculateAgeAtDate ageInfo.birthDate (slot history 2)).years ≥ 4 ∧
      (slot history 1).isSome ∧ diffInMonths (slot history 1) (slot history 2) ≥ 6 then
    { action := .completed,
      message := some "3차를 만 4세 이후, 2-3차 6개월 이상 간격으로 접종하여 완료" }
  else { action := .recommendNext, nextDoseNumber := some (numAdministered + 1) }

/-- Required dose count of `hib` from the total months of age at the first dose. -/
def hibRequiredDoses (totalMonths : Int) : Nat :=
  if totalMonths ≥ 7 ∧ totalMonths < 12 then 3
  else if totalMonths ≥ 12 ∧ totalMonths < 15 then 2
  else if totalMonths ≥ 15 ∧ totalMonths < 60 then 1
  else 4

/-- Rules of `hib`. -/
def hibRules : Rules := fun ageInfo history _ _ =>
  if ageInfo.years ≥ 5 then
    { action := .skip, message := some "만 5세 이상 건강한 소아는 일반적으로 권장하지 않음" }
  else
    let numAdministered := countDoses history
    let requiredDoses :=
      match slot history 0 with
      | some firstDoseDate =>
        hibRequiredDoses (calculateAgeAtDate ageInfo.birthDate (some firstDoseDate)).totalMonths
      | none => hibRequiredDoses ageInfo.totalMonths
    if numAdministered ≥ requiredDoses then
      { action := .completed,
        message := some ("연령 고려 " ++ toString requiredDoses ++ "회 완료") }
    else if numAdministered = 3 ∧ requiredDoses = 4 then
      let minAgeForBooster := plusMonths (newDate ageInfo.birthDate) 12
      { action := .recommendNext, nextDoseNumber := some 4,
        minAgeOverride := some minAgeForBooster }
    else { action := .recommendNext, nextDoseNumber := some (numAdministered + 1) }

/-- Required dose count of `pcv` from the total months of age at the first dose. -/
def pcvRequiredDoses (totalMonths : Int) : Nat :=
  if totalMonths ≥ 7 ∧ totalMonths < 12 then 3
  else if totalMonths ≥ 12 ∧ totalMonths < 24 then 2
  else if totalMonths ≥ 24 ∧ totalMonths < 60 then 1
  else 4

/-- Rules of `pcv`. -/
def pcvRules : Rules := fun ageInfo history _ _ =>
  if ageInfo.years ≥ 5 then
    { action := .skip, message := some "만 5세 이상 건강한 소아는 일반적으로 권장하지 않음" }
  else
    let numAdministered := countDoses history
    let requiredDoses :=
      match slot history 0 with
      | some firstDoseDate =>
        pcvRequiredDoses (calculateAgeAtDate ageInfo.birthDate (some firstDoseDate)).totalMonths
      | none => pcvRequiredDoses ageInfo.totalMonths
    if numAdministered ≥ requiredDoses then
      { action := .completed,
        message := some ("연령 고려 " ++ toString requiredDoses ++ "회 완료") }
    else if numAdministered = requiredDoses - 1 ∧ requiredDoses > 1 then
      let minAgeForBooster := plusMonths (newDate ageInfo.birthDate) 12
      { action := .recommendNext, nextDoseNumber := some (numAdministered + 1),
        minAgeOverride := some minAgeForBooster }
    else { action := .recommendNext, nextDoseNumber := some (numAdministered + 1) }

/-- Rules of `ppsv23`. -/
def ppsv23Rules : Rules := fun ageInfo history allVaccineHistories today =>
  let numAdministered := countDoses history
  if numAdministered ≥ 1 ∧ ageInfo.years ≥ 2 then
    { action := .completed, message := some "1차 완료. 2차는 고위험군 해당 시 의사 상담." }
  else if ageInfo.years < 2 then
    { action := .wait, message := some "고위험군 만 2세 이상 권장" }
  else
    let pcvHistory := (allVaccineHistories .pcv).getD [none, none, none, none]
    match lastDose pcvHistory with
    | none => { action := .consult, message := some "PCV 접종력 확인 필요. 의사 상담." }
    | some lastPcvDoseDate =>
      let minPpsvDate := plusDays lastPcvDoseDate (8 * 7)
      let minAgeDate := plusYears (newDate ageInfo.birthDate) 2
      let earliestDate := max minPpsvDate minAgeDate
      if today < earliestDate then
        { action := .wait,
          message := some ("PCV 최종 접종 후 8주 경과 및 만 2세 이후 권장 (" ++
            formatDate earliestDate ++ " 이후)") }
      else
        { action := .recommendNext, nextDoseNumber := some 1,
          recommendedDateOverride := some earliestDate }

/-- Rules of `rv`.  The tests `new Date() > maxFirstDoseDate` and
`new Date() > maxCompletionDate` compare the running clock with the midnight
that starts the day named: they hold on that day already, hence `today ≥ _`. -/
def rvRules : Rules := fun ageInfo history _ today =>
  let numAdministered := countDoses history
  let maxCompletionAgeInWeeks : Int := 8 * 4 + 0
  let maxCompletionDate := plusDays (newDate ageInfo.birthDate) (maxCompletionAgeInWeeks * 7)
  if ageInfo.totalWeeks > maxCompletionAgeInWeeks then
    if numAdministered > 0 then
      { action := .completed, message := some "접종 완료 가능 시기 지남" }
    else { action := .skip, message := some "접종 완료 가능 시기(생후 8개월 0일) 지남" }
  else
    let maxFirstDoseAgeInWeeks : Int := 14 * 7 + 6
    let maxFirstDoseDate := plusDays (newDate ageInfo.birthDate) maxFirstDoseAgeInWeeks
    let minFirstDoseAgeInWeeks : Int := 6 * 7
    let minFirstDoseDate := plusDays (newDate ageInfo.birthDate) minFirstDoseAgeInWeeks
    if numAdministered = 0 ∧ today ≥ maxFirstDoseDate then
      { action := .skip, message := some "첫 접종 가능 시기(생후 14주 6일) 지남" }
    else if numAdministered = 0 ∧ today < minFirstDoseDate then
      { action := .wait,
        message := some ("첫 접종은 생후 6주 이후 (" ++ formatDate minFirstDoseDate ++
          ")부터, 14주 6일 이내 시작") }
    else if numAdministered = 2 ∧ (today ≥ maxCompletionDate ∨ ageInfo.totalWeeks > 8 * 4) then
      { action := .completed,
        message := some "2회 접종 후 접종 완료 가능 시기 도달 (RV1의 경우 완료)" }
    else if numAdministered = 3 then { action := .completed, message := some "완료 (RV5 기준)" }
    else { action := .recommendNext, nextDoseNumber := some (numAdministered + 1) }

/-- Rules of `mmr`. -/
def mmrRules : Rules := fun ageInfo history _ today =>
  let numAdministered := countDoses history
  if numAdministered = 2 then { action := .completed, message := some "완료" }
  else
    let minAgeFor1st := plusMonths (newDate ageInfo.birthDate) 12
    if numAdministered = 0 ∧ today < minAgeFor1st then
      { action := .wait,
        message := some ("생후 12개월 이후 권장 (" ++ formatDate minAgeFor1st ++ " 이후)") }
    else
      match slot history 0 with
      | some first =>
        if numAdministered = 1 then
          let minAgeFor2ndStd := plusYears (newDate ageInfo.birthDate) 4
          let minDateAfter1st := plusDays first (4 * 7)
          let recommendedDate := max minAgeFor2ndStd minDateAfter1st
          if today < recommendedDate ∧ today < minAgeFor2ndStd then
            { action := .wait,
              message := some ("2차는 통상 만 4-6세 권장. 최소 1차 접종 4주 후부터 가능. (" ++
                formatDate minDateAfter1st ++ " 이후, 권장시작: " ++
                formatDate minAgeFor2ndStd ++ ")") }
          else if ageInfo.years ≥ 4 ∧ today ≥ minDateAfter1st then
            { action := .recommendNext, nextDoseNumber := some 2,
              recommendedDateOverride :=
                some (if today > minDateAfter1st then today else minDateAfter1st) }
          else { action := .recommendNext, nextDoseNumber := some (numAdministered + 1) }
        else { action := .recommendNext, nextDoseNumber := some (numAdministered + 1) }
      | none => { action := .recommendNext, nextDoseNumber := some (numAdministered + 1) }

/-- Rules of `var`. -/
def varRules : Rules := fun ageInfo history _ today =>
  let numAdministered := countDoses history
  if ageInfo.years < 13 then
    if numAdministered = 1 then { action := .completed, message := some "완료 (13세 미만 1회)" }
    else if numAdministered = 0 then
      let minAgeForDose := plusMonths (newDate ageInfo.birthDate) 12
      if today < minAgeForDose then
        { action := .wait,
          message := some ("생후 12개월 이후 권장 (" ++ formatDate minAgeForDose ++ " 이후)") }
      else { action := .recommendNext, nextDoseNumber := some 1 }
    else { action := .error, message := some "상태 확인 불가" }
  else
    if numAdministered = 2 then { action := .completed, message := some "완료 (13세 이상 2회)" }
    else if numAdministered = 0 then { action := .recommendNext, nextDoseNumber := some 1 }
    else if numAdministered = 1 then
      if (slot history 0).isNone then { action := .error, message := some "1차 접종일 누락" }
      else
        { action := .recommendNext, nextDoseNumber := some 2,
          minIntervalOverride := some { weeks := some 4 } }
    else { action := .error, message := some "상태 확인 불가" }

/-- Rules of `hepA`. -/
def hepARules : Rules := fun ageInfo history _ today =>
  let numAdministered := countDoses history
  if numAdministered = 2 then { action := .completed, message := some "완료" }
  else
    let minAgeFor1st := plusMonths (newDate ageInfo.birthDate) 12
    if numAdministered = 0 ∧ today < minAgeFor1st ∧ ageInfo.totalMonths < 12 then
      { action := .wait,
        message := some ("생후 12개월 이후 권장 (" ++ formatDate minAgeFor1st ++ " 이후)") }
    else { action := .recommendNext, nextDoseNumber := some (numAdministered + 1) }

/-- Rules of `ijev`. -/
def ijevRules : Rules := fun ageInfo history _ today =>
  let numAdministered := countDoses history
  if (slot history 2).isSome ∧
      (calculateAgeAtDate ageInfo.birthDate (slot history 2)).years ≥ 10 then
    { action := .completed, message := some "3차를 만 10세 이후 접종하여 완료" }
  else if (slot history 3).isSome ∧
      (calculateAgeAtDate ageInfo.birthDate (slot history 3)).years ≥ 10 then
    { action := .completed, message := some "4차를 만 10세 이후 접종하여 완료" }
  else if numAdministered = 5 then { action := .completed, message := some "5회 완료" }
  else if numAdministered < 3 ∧ (firstDose history).isSome ∧
      (calculateAgeAtDate ageInfo.birthDate (firstDose history)).years ≥ 11 ∧
      numAdministered = 3 then
    { action := .completed, message := some "만 11세 이후 시작하여 3회 완료" }
  else
    let minAgeFor1st := plusMonths (newDate ageInfo.birthDate) 12
    if numAdministered = 0 ∧ today < minAgeFor1st ∧ ageInfo.totalMonths < 12 then
      { action := .wait,
        message := some ("생후 12개월 이후 권장 (" ++ formatDate minAgeFor1st ++ " 이후)") }
    else
      let nextDoseNumber := numAdministered + 1
      let minIntervalOverride : Option IntervalConfig :=
        if nextDoseNumber = 2 ∧ (slot history 0).isSome then some { weeks := some 4 } else none
      let recommendedDateOverride4 : Option Int :=
        if nextDoseNumber = 4 ∧ (slot history 2).isSome then
          some (plusYears (newDate ageInfo.birthDate) 6)
        else none
      let recommendedDateOverride : Option Int :=
        if nextDoseNumber = 5 ∧ (slot history 3).isSome then
          some (plusYears (newDate ageInfo.birthDate) 12)
        else recommendedDateOverride4
      if nextDoseNumber = 5 ∧ (slot history 3).isSome ∧ (slot history 2).isSome ∧
          (calculateAgeAtDate ageInfo.birthDate (slot history 2)).years ≥ 4 ∧
          (calculateAgeAtDate ageInfo.birthDate (slot history 2)).years ≤ 9 ∧
          nextDoseNumber = 4 then
        { action := .recommendNext, nextDoseNumber := some 4,
          recommendedDateOverride := some (plusYears (newDate ageInfo.birthDate) 12),
          messageOverride := some "3차를 4-9세에 접종하여 다음 접종(4차)은 만 12세 이후 실시 후 종료" }
      else
        let ageAtFirstDoseYears : Int :=
          match firstDose history with
          | some firstDoseDate =>
            (calculateAgeAtDate ageInfo.birthDate (some firstDoseDate)).years
          | none => ageInfo.years
        if ageInfo.years ≥ 11 ∧ ageAtFirstDoseYears ≥ 11 ∧ numAdministered = 2 then
          { action := .recommendNext, nextDoseNumber := some 3,
            messageOverride := some "만 11세 이후 시작, 3회로 완료" }
        else if ageInfo.years ≥ 11 ∧ ageAtFirstDoseYears ≥ 11 ∧ numAdministered ≥ 3 then
          { action := .completed, message := some "만 11세 이후 시작하여 3회 완료됨" }
        else
          { action := .recommendNext, nextDoseNumber := some nextDoseNumber,
            recommendedDateOverride := recommendedDateOverride,
            minIntervalOverride := minIntervalOverride }

/-- Rules of `liev`. -/
def lievRules : Rules := fun ageInfo history _ today =>
  let numAdministered := countDoses history
  if numAdministered = 2 then { action := .completed, message := some "완료" }
  else
    let minAgeFor1st := plusMonths (newDate ageInfo.birthDate) 12
    if numAdministered = 0 ∧ today < minAgeFor1st ∧ ageInfo.totalMonths < 12 then
      { action := .wait,
        message := some ("생후 12개월 이후 권장 (" ++ formatDate minAgeFor1st ++ " 이후)") }
    else { action := .recommendNext, nextDoseNumber := some (numAdministered + 1) }

/-- Rules of `hpv`. -/
def hpvRules : Rules := fun ageInfo history _ _ =>
  let numAdministered := countDoses history
  let firstDoseDate := slot history 0
  if firstDoseDate.isNone ∧ ageInfo.years < 9 then
    { action := .wait, message := some "만 9세 이후 권장" }
  else
    let ageAtFirstDoseYears : Int :=
      match firstDoseDate with
      | some d => (calculateAgeAtDate ageInfo.birthDate (some d)).years
      | none => ageInfo.years
    let isTwoDoseRegimen : Bool := ageAtFirstDoseYears ≥ 9 ∧ ageAtFirstDoseYears ≤ 14
    let requiredDoses : Nat := if isTwoDoseRegimen then 2 else 3
    if numAdministered ≥ requiredDoses then
      { action := .completed, message := some (toString requiredDoses ++ "회 완료") }
    else
      let nextDoseNumber := numAdministered + 1
      if isTwoDoseRegimen then
        { action := .recommendNext, nextDoseNumber := some nextDoseNumber,
          minIntervalOverride :=
            if nextDoseNumber = 2 then some { months := some 6, minMonths := some 5 } else none,
          messageOverride := some "2회 접종 대상" }
      else
        match (if nextDoseNumber = 3 then slot history 0 else none) with
        | some first =>
          { action := .recommendNext, nextDoseNumber := some nextDoseNumber,
            minIntervalOverride := some { weeks := some 12 },
            minDateOverride := some (plusMonths first 5),
            messageOverride := some "3회 접종 대상" }
        | none =>
          { action := .recommendNext, nextDoseNumber := some nextDoseNumber,
            minIntervalOverride :=
              if nextDoseNumber = 3 then some { weeks := some 12 }
              else if nextDoseNumber = 2 then some { weeks := some 4 }
              else none,
            messageOverride := some "3회 접종 대상" }

/-- Rules of `iiv`. -/
def iivRules : Rules := fun ageInfo history _ today =>
  if ageInfo.totalMonths < 6 then { action := .wait, message := some "생후 6개월 이후 권장" }
  else
    let currentYear := getFullYear today
    let lastDoseThisSeason :=
      (history.filterMap id).find? (fun d => getFullYear d == currentYear)
    if lastDoseThisSeason.isSome then
      if ageInfo.years < 9 then
        { action := .completed,
          message := some "올해 접종. 만 9세 미만 첫 해 접종 시 2회 필요할 수 있음(의사 상담)." }
      else { action := .completed, message := some "올해 접종 완료" }
    else
      let isLikelyFirstTime : Bool := ageInfo.years < 9 ∧ countDoses history = 0
      let dosesNeededThisYear : Nat := if isLikelyFirstTime then 2 else 1
      let message : String :=
        if isLikelyFirstTime then "생애 첫 접종(만 9세 미만): 4주 간격 2회 권장" else "매년 1회 권장"
      if dosesNeededThisYear = 2 then
        { action := .recommendNext, nextDoseNumber := some 1,
          messageOverride := some (message ++ " (1차)") }
      else
        { action := .recommendNext, nextDoseNumber := some 1, messageOverride := some message }

/-! ## The catalog `VACCINE_DATA` -/

/-- Entry `bcg`. -/
def bcg : Vaccine :=
  { id := .bcg, name := "결핵 (BCG)", doses := 1,
    standardIntervals := [{ months := some 0, recommendedAgeMonths := some 1 }],
    minIntervals := [], rules := some bcgRules }

/-- Entry `hepB`. -/
def hepB : Vaccine :=
  { id := .hepB, name := "B형 간염 (HepB)", doses := 3,
    standardIntervals := [{ months := some 0 }, { months := some 1 }, { months := some 6 }],
    minIntervals := [{ weeks := some 4 }, { weeks := some 8 }], rules := some hepBRules }

/-- Entry `dtap`. -/
def dtap : Vaccine :=
  { id := .dtap, name := "디프테리아·파상풍·백일해 (DTaP)", doses := 5,
    standardIntervals := [{ months := some 2 }, { months := some 4 }, { months := some 6 },
      { months := some 15 }, { ageYears := some 4 }],
    minIntervals := [{ weeks := some 4 }, { weeks := some 4 }, { months := some 6 },
      { months := some 6 }],
    rules := some dtapRules }

/-- Entry `tdap`. -/
def tdap : Vaccine :=
  { id := .tdap, name := "파상풍·디프테리아·백일해 (Tdap)", doses := 1,
    standardIntervals := [{ ageYears := some 11 }], minIntervals := [],
    rules := some tdapRules }

/-- Entry `td`. -/
def td : Vaccine :=
  { id := .td, name := "파상풍·디프테리아 (Td)", doses := 1,
    standardIntervals := [{ yearsInterval := some 10 }], minIntervals := [],
    rules := some tdRules }

/-- Entry `ipv`. -/
def ipv : Vaccine :=
  { id := .ipv, name := "폴리오 (IPV)", doses := 4,
    standardIntervals := [{ months := some 2 }, { months := some 4 }, { months := some 6 },
      { ageYears := some 4 }],
    minIntervals := [{ weeks := some 4 }, { weeks := some 4 }, { months := some 6 }],
    rules := some ipvRules }

/-- Entry `hib`. -/
def hib : Vaccine :=
  { id := .hib, name := "b형헤모필루스인플루엔자 (Hib)", doses := 4,
    standardIntervals := [{ months := some 2 }, { months := some 4 }, { months := some 6 },
      { months := some 12 }],
    minIntervals := [{ weeks := some 4 }, { weeks := some 4 }, { weeks := some 8 }],
    rules := some hibRules }

/-- Entry `pcv`. -/
def pcv : Vaccine :=
  { id := .pcv, name := "폐렴구균 단백결합 (PCV)", doses := 4,
    standardIntervals := [{ months := some 2 }, { months := some 4 }, { months := some 6 },
      { months := some 12 }],
    minIntervals := [{ weeks := some 4 }, { weeks := some 4 }, { weeks := some 8 }],
    rules := some pcvRules }

/-- Entry `ppsv23`. -/
def ppsv23 : Vaccine :=
  { id := .ppsv23, name := "폐렴구균 23가 다당 (PPSV23)", doses := 1,
    standardIntervals := [{ ageYears := some 2 }], minIntervals := [],
    rules := some ppsv23Rules }

/-- Entry `rv`. -/
def rv : Vaccine :=
  { id := .rv, name := "로타바이러스 (RV)", doses := 3,
    standardIntervals := [{ months := some 2 }, { months := some 4 }, { months := some 6 }],
    minIntervals := [{ weeks := some 4 }, { weeks := some 4 }], rules := some rvRules }

/-- Entry `mmr`. -/
def mmr : Vaccine :=
  { id := .mmr, name := "홍역·유행성이하선염·풍진 (MMR)", doses := 2,
    standardIntervals := [{ months := some 12 }, { ageYears := some 4 }],
    minIntervals := [{ weeks := some 4 }], rules := some mmrRules }

/-- Entry `var`. -/
def var : Vaccine :=
  { id := .var, name := "수두 (VAR)", doses := 1,
    standardIntervals := [{ months := some 12 }], minIntervals := [],
    rules := some varRules }

/-- Entry `hepA`. -/
def hepA : Vaccine :=
  { id := .hepA, name := "A형 간염 (HepA)", doses := 2,
    standardIntervals := [{ months := some 12 }, { monthsInterval := some 6 }],
    minIntervals := [{ months := some 6 }], rules := some hepARules }

/-- Entry `ijev`. -/
def ijev : Vaccine :=
  { id := .ijev, name := "일본뇌염 불활성화 (IJEV)", doses := 5,
    standardIntervals := [{ months := some 12 }, { monthsInterval := some 1 },
      { monthsInterval := some 11 }, { ageYears := some 6 }, { ageYears := some 12 }],
    minIntervals := [{ weeks := some 4 }, { months := some 11 }, { yearsInterval := some 3 },
      { yearsInterval := some 3 }],
    rules := some ijevRules }

/-- Entry `liev`. -/
def liev : Vaccine :=
  { id := .liev, name := "일본뇌염 생백신 (LIEV)", doses := 2,
    standardIntervals := [{ months := some 12 }, { monthsInterval := some 12 }],
    minIntervals := [{ months := some 12 }], rules := some lievRules }

/-- Entry `hpv`. -/
def hpv : Vaccine :=
  { id := .hpv, name := "사람유두종바이러스 (HPV)", doses := 3,
    standardIntervals := [{ ageYears := some 12 }], minIntervals := [],
    rules := some hpvRules }

/-- Entry `iiv`. -/
def iiv : Vaccine :=
  { id := .iiv, name := "인플루엔자 (IIV)", doses := 1,
    standardIntervals := [{ isAnnual := true, startMonth := some 9, endMonth := some 12 }],
    minIntervals := [{ weeks := some 4 }], rules := some iivRules }

/-- The catalog, in the key order of the object literal (`Object.keys`). -/
def VACCINE_DATA : List Vaccine :=
  [bcg, hepB, dtap, tdap, td, ipv, hib, pcv, ppsv23, rv, mmr, var, hepA, ijev, liev, hpv, iiv]

/-! ## Schedule generator (`generateSchedule` of `script.js`) -/

/-- Second argument `type` of `generateSchedule`. -/
inductive Policy where
  | standard | minimum
deriving DecidableEq, Repr

/-- Cell `nextDoseNumber` of a row: a number or the placeholder `'-'`. -/
inductive DoseCell where
  | dash
  | number (n : Nat)
deriving DecidableEq, Repr, Inhabited

/-- Cell `recommendedDate` of a row: the placeholder `'-'` or the text
`formatDate(d)` of a date `d`, kept here as the date itself. -/
inductive DateCell where
  | dash
  | formatted (d : Int)
deriving DecidableEq, Repr, Inhabited

/-- Text shown in the cell. -/
def DateCell.text : DateCell → String
  | .dash => "-"
  | .formatted d => formatDate d

/-- Row pushed on `schedule`. -/
structure ScheduleRow where
  vaccineName : String
  nextDoseNumber : DoseCell
  recommendedDate : DateCell
  remarks : String
deriving DecidableEq, Repr, Inhabited

/-- Array read with a numeric index; negative and out of range reads are `undefined`. -/
def arrayGet {α : Type} (l : List α) (i : Int) : Option α :=
  if i < 0 then none else l.get? i.toNat

/-- Expression `s || alt` on an optional string (the empty string is falsy). -/
def orString (s : Option String) (alt : String) : String :=
  match s with
  | some m => if m = "" then alt else m
  | none => alt

/-- Expression `n || alt` on an optional dose number (zero is falsy). -/
def orNat (n : Option Nat) (alt : Nat) : Nat :=
  match n with
  | some k => if k = 0 then alt else k
  | none => alt

/-- Expression `x || alt` on an optional number (zero is falsy). -/
def orInt (x : Option Int) (alt : Int) : Int :=
  match x with
  | some k => if k = 0 then alt else k
  | none => alt

/-- Substring test on character lists. -/
def includesChars (s pat : List Char) : Bool :=
  match s with
  | [] => pat.isEmpty
  | c :: cs => pat.isPrefixOf (c :: cs) || includesChars cs pat

/-- Method `String.prototype.includes`. -/
def includes (s pat : String) : Bool := includesChars s.data pat.data

/-- The five actions that end the processing of a regimen with a dateless row. -/
def isTerminal (a : Action) : Bool :=
  a == .completed || a == .skip || a == .wait || a == .consult || a == .error

/-- Backward scan of the history for the last filled slot: `rev` is the part of
the array still to visit, last slot first, and `k` is its length.  Returns
`lastDoseDate` and `numAdministered`. -/
def scanLast (rev : List (Option Int)) (k : Nat) : Option Int × Nat :=
  match rev with
  | [] => (none, 0)
  | some d :: _ => (some d, k)
  | none :: rest => scanLast rest (k - 1)

/-- The loop `for (let i = specificHistory.length - 1; i >= 0; i--)`. -/
def lastRecorded (specificHistory : History) : Option Int × Nat :=
  scanLast specificHistory.reverse specificHistory.length

/-- Projection of a date from an interval descriptor and a base date. -/
def applyInterval (base : Int) (intervalConfig : Option IntervalConfig) : Int :=
  match intervalConfig with
  | some c =>
    if truthy c.weeks then addTimeToDate base .weeks (c.weeks.getD 0)
    else if truthy c.months then addTimeToDate base .months (c.months.getD 0)
    else if truthy c.yearsInterval then addTimeToDate base .years (c.yearsInterval.getD 0)
    else base
  | none => base

/-- Interval descriptor chosen after a previous dose. -/
def chooseInterval (vaccine : Vaccine) (type : Policy) (ruleAction : RuleAction)
    (numAdministered : Nat) : Option IntervalConfig :=
  let fromMin : Option IntervalConfig :=
    (arrayGet vaccine.minIntervals ((numAdministered : Int) - 1)).or
      (arrayGet vaccine.minIntervals ((vaccine.minIntervals.length : Int) - 1))
  let intervalConfig : Option IntervalConfig :=
    match type with
    | .standard =>
      match arrayGet vaccine.standardIntervals numAdministered with
      | some stdInt =>
        if truthy stdInt.monthsInterval then
          some { months := stdInt.monthsInterval }
        else if truthy stdInt.weeksInterval then
          some { weeks := stdInt.weeksInterval }
        else fromMin
      | none => fromMin
    | .minimum => fromMin
  match ruleAction.minIntervalOverride with
  | some o => some o
  | none => intervalConfig

/-- First-dose date projected from the birth date. -/
def firstDoseDate (vaccine : Vaccine) (ageInfo : AgeInfo) (type : Policy) (today : Int) :
    Int :=
  let baseDateForInterval := newDate ageInfo.birthDate
  let firstDoseConfig : IntervalConfig :=
    match type, arrayGet vaccine.standardIntervals 0, arrayGet vaccine.minIntervals 0 with
    | .standard, some c, _ => c
    | .minimum, _, some c => c
    | _, _, _ => { fromToday := true }
  if truthy firstDoseConfig.months then
    addTimeToDate baseDateForInterval .months (firstDoseConfig.months.getD 0)
  else if truthy firstDoseConfig.ageYears then
    setFullYear baseDateForInterval
      (getFullYear baseDateForInterval + firstDoseConfig.ageYears.getD 0)
  else if truthy firstDoseConfig.ageMonths then
    setMonth baseDateForInterval
      (getMonth baseDateForInterval + firstDoseConfig.ageMonths.getD 0)
  else if firstDoseConfig.isAnnual then
    let recommendedDate := newDateYMD (getFullYear today) (orInt firstDoseConfig.startMonth 8) 1
    if today > recommendedDate ∧ getMonth today > orInt firstDoseConfig.endMonth 11 then
      setFullYear recommendedDate (getFullYear today + 1)
    else recommendedDate
  else today

/-- Base date selection: returns `recommendedDate`, `baseDateForInterval` and
`intervalConfig` (the last two stay `undefined` on the override paths). -/
def baseSelection (vaccine : Vaccine) (ageInfo : AgeInfo) (type : Policy) (today : Int)
    (ruleAction : RuleAction) (lastDoseDate : Option Int) (numAdministered : Nat) :
    Int × Option Int × Option IntervalConfig :=
  match ruleAction.recommendedDateOverride with
  | some r => (r, none, none)
  | none =>
    match ruleAction.minDateOverride with
    | some r => (r, none, none)
    | none =>
      match lastDoseDate with
      | some last =>
        let intervalConfig := chooseInterval vaccine type ruleAction numAdministered
        (applyInterval last intervalConfig, some last, intervalConfig)
      | none =>
        (firstDoseDate vaccine ageInfo type today, some (newDate ageInfo.birthDate), none)

/-- Age-based floor taken from `standardIntervals[numAdministered]`. -/
def ageFloor (vaccine : Vaccine) (ageInfo : AgeInfo) (type : Policy) (numAdministered : Nat)
    (recommendedDate : Int) : Int :=
  match arrayGet vaccine.standardIntervals numAdministered with
  | some stdTiming =>
    if truthy stdTiming.ageYears then
      let ageBasedMinDate :=
        setFullYear (newDate ageInfo.birthDate)
          (getFullYear (newDate ageInfo.birthDate) + stdTiming.ageYears.getD 0)
      if recommendedDate < ageBasedMinDate then ageBasedMinDate else recommendedDate
    else if truthy stdTiming.ageMonths then
      let ageBasedMinDate :=
        setMonth (newDate ageInfo.birthDate)
          (getMonth (newDate ageInfo.birthDate) + stdTiming.ageMonths.getD 0)
      if recommendedDate < ageBasedMinDate then ageBasedMinDate else recommendedDate
    else if truthy stdTiming.months ∧ numAdministered = 0 then
      let ageBasedMinDate :=
        setMonth (newDate ageInfo.birthDate)
          (getMonth (newDate ageInfo.birthDate) + stdTiming.months.getD 0)
      let recommendedDate1 :=
        if truthy stdTiming.recommendedAgeMonths then
          let recMaxAge :=
            setMonth (newDate ageInfo.birthDate)
              (getMonth (newDate ageInfo.birthDate) + stdTiming.recommendedAgeMonths.getD 0)
          if recommendedDate > recMaxAge ∧ type = .standard then recMaxAge else recommendedDate
        else recommendedDate
      if recommendedDate1 < ageBasedMinDate then ageBasedMinDate else recommendedDate1
    else recommendedDate
  | none => recommendedDate

/-- Floor from the `minAgeOverride` of the rule outcome. -/
def minAgeFloor (ruleAction : RuleAction) (recommendedDate : Int) : Int :=
  match ruleAction.minAgeOverride with
  | some minAgeDate => if recommendedDate < minAgeDate then minAgeDate else recommendedDate
  | none => recommendedDate

/-- Floor at today: `if (recommendedDate < today) recommendedDate = new Date(today)`. -/
def todayFloor (today recommendedDate : Int) : Int :=
  if recommendedDate < today then today else recommendedDate

/-- The two HPV adjustments made after the today floor.  `intervalConfig` is
only ever set together with `baseDateForInterval`. -/
def hpvAdjust (vaccine : Vaccine) (type : Policy) (today : Int) (ruleAction : RuleAction)
    (numAdministered : Nat) (baseDateForInterval : Option Int)
    (intervalConfig : Option IntervalConfig) (recommendedDate : Int) : Int :=
  let recommendedDate1 :=
    match intervalConfig, baseDateForInterval with
    | some c, some base =>
      if vaccine.id = .hpv ∧ numAdministered = 1 ∧ c.months = some 6 ∧ c.minMonths = some 5 ∧
          type = .minimum then
        todayFloor today (addTimeToDate base .months (c.minMonths.getD 0))
      else recommendedDate
    | _, _ => recommendedDate
  match ruleAction.minDateOverride with
  | some minDate =>
    if vaccine.id = .hpv ∧ numAdministered = 2 ∧ type = .minimum then
      todayFloor today (if recommendedDate1 < minDate then minDate else recommendedDate1)
    else recommendedDate1
  | none => recommendedDate1

/-- Expression `allVaccineHistories[vaccineId] || Array(vaccine.doses).fill(null)`. -/
def specificHistoryOf (allVaccineHistories : AllHistories) (vaccine : Vaccine) : History :=
  (allVaccineHistories vaccine.id).getD (List.replicate vaccine.doses none)

/-- Outcome `ruleAction` of the regimen: the default, replaced by the result of
`vaccine.rules` when the regimen has a rule function. -/
def ruleActionOf (ageInfo : AgeInfo) (allVaccineHistories : AllHistories) (today : Int)
    (vaccine : Vaccine) : RuleAction :=
  match vaccine.rules with
  | some rules =>
    rules ageInfo (specificHistoryOf allVaccineHistories vaccine) allVaccineHistories today
  | none => { action := .recommendNext, nextDoseNumber := some 1 }

/-- Body of the `forEach` callback of `generateSchedule`: processes one regimen
and returns the schedule array after the pushes made for it. -/
def scheduleStep (ageInfo : AgeInfo) (allVaccineHistories : AllHistories) (type : Policy)
    (today : Int) (schedule : List ScheduleRow) (vaccine : Vaccine) : List ScheduleRow :=
  let vaccineId := vaccine.id
  let specificHistory : History := specificHistoryOf allVaccineHistories vaccine
  let ruleAction : RuleAction := ruleActionOf ageInfo allVaccineHistories today vaccine
  if isTerminal ruleAction.action then
    schedule ++ [{ vaccineName := vaccine.name,
                   nextDoseNumber :=
                     (match ruleAction.nextDoseNumber with
                      | some n => if n = 0 then DoseCell.dash else DoseCell.number n
                      | none => DoseCell.dash),
                   recommendedDate := DateCell.dash,
                   remarks := orString ruleAction.message ruleAction.action.name }]
  else
    let nextDoseNumber0 := orNat ruleAction.nextDoseNumber (countDoses specificHistory + 1)
    let hpvTwoDoseDone : Bool :=
      vaccineId == .hpv &&
        (match ruleAction.messageOverride with
         | some m => m != "" && includes m "2회 접종"
         | none => false)
    if nextDoseNumber0 > vaccine.doses ∧ ¬ (vaccineId = .td ∨ vaccineId = .iiv) ∧
        hpvTwoDoseDone = false then
      schedule ++ [{ vaccineName := vaccine.name, nextDoseNumber := DoseCell.dash,
                     recommendedDate := DateCell.dash,
                     remarks := "모든 차수 완료 또는 확인 필요" }]
    else
      let lastDoseDate := (lastRecorded specificHistory).1
      let numAdministered := (lastRecorded specificHistory).2
      let nextDoseNumber := orNat ruleAction.nextDoseNumber (numAdministered + 1)
      let sel := baseSelection vaccine ageInfo type today ruleAction lastDoseDate numAdministered
      let recommendedDate := sel.1
      let baseDateForInterval := sel.2.1
      let intervalConfig := sel.2.2
      let recommendedDate := ageFloor vaccine ageInfo type numAdministered recommendedDate
      let recommendedDate := minAgeFloor ruleAction recommendedDate
      let recommendedDate := todayFloor today recommendedDate
      let recommendedDate :=
        hpvAdjust vaccine type today ruleAction numAdministered baseDateForInterval
          intervalConfig recommendedDate
      schedule ++ [{ vaccineName := vaccine.name,
                     nextDoseNumber := DoseCell.number nextDoseNumber,
                     recommendedDate := DateCell.formatted recommendedDate,
                     remarks :=
                       orString ruleAction.messageOverride
                         (if vaccineId = .td then "10년마다"
                          else if vaccineId = .iiv ∧ nextDoseNumber = 1 then "매년"
                          else "") }]

/-- Function `generateSchedule`: the rows pushed while iterating over the
catalog in key order, starting from the empty array. -/
def generateSchedule (ageInfo : AgeInfo) (allVaccineHistories : AllHistories) (type : Policy)
    (today : Int) : List ScheduleRow :=
  VACCINE_DATA.foldl (scheduleStep ageInfo allVaccineHistories type today) []

/-- The row of one regimen: the element that `scheduleStep` pushes for it
(`scheduleStep` pushes exactly one, see `scheduleStep_push`). -/
def regimenRow (ageInfo : AgeInfo) (allVaccineHistories : AllHistories) (type : Policy)
    (today : Int) (vaccine : Vaccine) : ScheduleRow :=
  (scheduleStep ageInfo allVaccineHistories type today [] vaccine).headD default

/-- Re-adding an age to the birth date: `years` years, then `months` months,
then `days` days, each with `addTimeToDate`. -/
def reAdd (birthDate : Int) (age : AgeInfo) : Int :=
  addTimeToDate (addTimeToDate (addTimeToDate birthDate .years age.years) .months age.months)
    .days age.days

/-- Shape of a rule outcome as the schedule generator relies on it: a terminal
outcome carries a non-empty message and no dose number, and the tag `checkTd`
is only produced by `tdap`, without a dose number, once a dose is recorded. -/
def OutcomeShape (id : VaccineId) (doses count : Nat) (ra : RuleAction) : Prop :=
  (isTerminal ra.action = true →
      (∃ m, ra.message = some m ∧ m ≠ "") ∧ ra.nextDoseNumber = none) ∧
    (ra.action = Action.checkTd →
      id = VaccineId.tdap ∧ ra.nextDoseNumber = none ∧ doses < count + 1)

/-- Shape of the overrides of a rule outcome: a minimum-date override never
comes with a recommended-date override, and HPV supplies no minimum-age
override. -/
def OverrideShape (id : VaccineId) (ra : RuleAction) : Prop :=
  (ra.minDateOverride ≠ none → ra.recommendedDateOverride = none) ∧
    (id = VaccineId.hpv → ra.minAgeOverride = none)

/-- Effective required dose count of a regimen: the value `requiredDoses` that the
rule functions of `hib`, `pcv` and `hpv` compute from the age at the first dose
(the present age when the first slot is empty), and the nominal `doses` for the
other regimens. -/
def effectiveRequiredDoses (vaccine : Vaccine) (ageInfo : AgeInfo) (history : History) : Nat :=
  match vaccine.id with
  | .hib =>
    match slot history 0 with
    | some firstDoseDate =>
      hibRequiredDoses (calculateAgeAtDate ageInfo.birthDate (some firstDoseDate)).totalMonths
    | none => hibRequiredDoses ageInfo.totalMonths
  | .pcv =>
    match slot history 0 with
    | some firstDoseDate =>
      pcvRequiredDoses (calculateAgeAtDate ageInfo.birthDate (some firstDoseDate)).totalMonths
    | none => pcvRequiredDoses ageInfo.totalMonths
  | .hpv =>
    let ageAtFirstDoseYears : Int :=
      match slot history 0 with
      | some d => (calculateAgeAtDate ageInfo.birthDate (some d)).years
      | none => ageInfo.years
    if ageAtFirstDoseYears ≥ 9 ∧ ageAtFirstDoseYears ≤ 14 then 2 else 3
  | _ => vaccine.doses

/-- Outcomes that reach a dateless row with a dash in the dose column. -/
def Dateless (doses count : Nat) (ra : RuleAction) : Prop :=
  (isTerminal ra.action = true ∧ ra.nextDoseNumber = none) ∨
    (isTerminal ra.action = false ∧ orNat ra.nextDoseNumber (count + 1) > doses ∧
      ra.messageOverride = none)

/-- Dose number of a recommendation: every rule other than the one of IIV
recommends the dose after the recorded ones, IIV always dose 1, and HPV never
goes beyond its third dose. -/
def NextDoseShape (id : VaccineId) (count : Nat) (ra : RuleAction) : Prop :=
  ra.action = Action.recommendNext →
    (id ≠ VaccineId.iiv → ra.nextDoseNumber = some (count + 1)) ∧
      (id = VaccineId.iiv → ra.nextDoseNumber = some 1) ∧
      (id = VaccineId.hpv → count + 1 ≤ 3)

/-- Date of a dated row: the base selection followed by the age floor, the
minimum-age floor, the floor at today and the HPV adjustments, in the order of
`generateSchedule`. -/
def projectedDate (vaccine : Vaccine) (ageInfo : AgeInfo) (type : Policy) (today : Int)
    (ruleAction : RuleAction) (lastDoseDate : Option Int) (numAdministered : Nat) : Int :=
  hpvAdjust vaccine type today ruleAction numAdministered
    (baseSelection vaccine ageInfo type today ruleAction lastDoseDate numAdministered).2.1
    (baseSelection vaccine ageInfo type today ruleAction lastDoseDate numAdministered).2.2
    (todayFloor today
      (minAgeFloor ruleAction
        (ageFloor vaccine ageInfo type numAdministered
          (baseSelection vaccine ageInfo type today ruleAction lastDoseDate
            numAdministered).1)))

/-! ## Calendar lemmas -/

theorem yearFromDay_spec (n : Int) :
    dayFromYear (yearFromDay n) ≤ n ∧ n < dayFromYear (yearFromDay n + 1) := by
  unfold yearFromDay
  simp only
  split
  · constructor
    · assumption
    · unfold dayFromYear at *; omega
  · split
    · constructor
      · assumption
      · omega
    · constructor
      · unfold dayFromYear at *; omega
      · simp only [Int.sub_add_cancel]; omega

theorem dayFromYear_mono {a b : Int} (h : a ≤ b) : dayFromYear a ≤ dayFromYear b := by
  unfold dayFromYear; omega

theorem leapDay_range (y : Int) : 0 ≤ leapDay y ∧ leapDay y ≤ 1 := by
  unfold leapDay; split <;> omega

theorem dayFromYear_succ (y : Int) :
    dayFromYear (y + 1) = dayFromYear y + 365 + leapDay y := by
  unfold dayFromYear leapDay inLeapYear
  split <;> simp at * <;> omega

theorem yearFromDay_unique {n y : Int} (h1 : dayFromYear y ≤ n) (h2 : n < dayFromYear (y + 1)) :
    yearFromDay n = y := by
  have hs := yearFromDay_spec n
  by_contra hne
  rcases lt_or_gt_of_ne hne with hlt | hgt
  · have : dayFromYear (yearFromDay n + 1) ≤ dayFromYear y := dayFromYear_mono (by omega)
    omega
  · have : dayFromYear (y + 1) ≤ dayFromYear (yearFromDay n) := dayFromYear_mono (by omega)
    omega

theorem yearFromDay_mono {a b : Int} (h : a ≤ b) : yearFromDay a ≤ yearFromDay b := by
  have ha := yearFromDay_spec a
  have hb := yearFromDay_spec b
  by_contra hlt
  have : dayFromYear (yearFromDay b + 1) ≤ dayFromYear (yearFromDay a) :=
    dayFromYear_mono (by omega)
  omega

theorem dayWithinYear_bounds (n : Int) :
    0 ≤ dayWithinYear n ∧ dayWithinYear n < 365 + leapDay (yearFromDay n) := by
  have hs := yearFromDay_spec n
  have hy := dayFromYear_succ (yearFromDay n)
  unfold dayWithinYear
  omega

/-- Characterisation of the month table: the month found for day `k` brackets `k`. -/
theorem monthFromDayInYear_cases (l k : Int) :
    (k < 31 ∧ monthFromDayInYear l k = 0) ∨
    (31 ≤ k ∧ k < 59 + l ∧ monthFromDayInYear l k = 1) ∨
    (59 + l ≤ k ∧ k < 90 + l ∧ monthFromDayInYear l k = 2) ∨
    (90 + l ≤ k ∧ k < 120 + l ∧ monthFromDayInYear l k = 3) ∨
    (120 + l ≤ k ∧ k < 151 + l ∧ monthFromDayInYear l k = 4) ∨
    (151 + l ≤ k ∧ k < 181 + l ∧ monthFromDayInYear l k = 5) ∨
    (181 + l ≤ k ∧ k < 212 + l ∧ monthFromDayInYear l k = 6) ∨
    (212 + l ≤ k ∧ k < 243 + l ∧ monthFromDayInYear l k = 7) ∨
    (243 + l ≤ k ∧ k < 273 + l ∧ monthFromDayInYear l k = 8) ∨
    (273 + l ≤ k ∧ k < 304 + l ∧ monthFromDayInYear l k = 9) ∨
    (304 + l ≤ k ∧ k < 334 + l ∧ monthFromDayInYear l k = 10) ∨
    (334 + l ≤ k ∧ monthFromDayInYear l k = 11) := by
  unfold monthFromDayInYear
  by_cases h0 : k < 31
  · left; exact ⟨h0, if_pos h0⟩
  rw [if_neg h0]
  by_cases h1 : k < 59 + l
  · right; left; exact ⟨by omega, h1, if_pos h1⟩
  rw [if_neg h1]
  by_cases h2 : k < 90 + l
  · right; right; left; exact ⟨by omega, h2, if_pos h2⟩
  rw [if_neg h2]
  by_cases h3 : k < 120 + l
  · right; right; right; left; exact ⟨by omega, h3, if_pos h3⟩
  rw [if_neg h3]
  by_cases h4 : k < 151 + l
  · right; right; right; right; left; exact ⟨by omega, h4, if_pos h4⟩
  rw [if_neg h4]
  by_cases h5 : k < 181 + l
  · right; right; right; right; right; left; exact ⟨by omega, h5, if_pos h5⟩
  rw [if_neg h5]
  by_cases h6 : k < 212 + l
  · right; right; right; right; right; right; left; exact ⟨by omega, h6, if_pos h6⟩
  rw [if_neg h6]
  by_cases h7 : k < 243 + l
  · right; right; right; right; right; right; right; left; exact ⟨by omega, h7, if_pos h7⟩
  rw [if_neg h7]
  by_cases h8 : k < 273 + l
  · right; right; right; right; right; right; right; right; left
    exact ⟨by omega, h8, if_pos h8⟩
  rw [if_neg h8]
  by_cases h9 : k < 304 + l
  · right; right; right; right; right; right; right; right; right; left
    exact ⟨by omega, h9, if_pos h9⟩
  rw [if_neg h9]
  by_cases h10 : k < 334 + l
  · right; right; right; right; right; right; right; right; right; right; left
    exact ⟨by omega, h10, if_pos h10⟩
  rw [if_neg h10]
  right; right; right; right; right; right; right; right; right; right; right
  exact ⟨by omega, rfl⟩

theorem monthStart_zero (l : Int) : monthStart l 0 = 0 := by simp [monthStart]
theorem monthStart_one (l : Int) : monthStart l 1 = 31 := by simp [monthStart]
theorem monthStart_two (l : Int) : monthStart l 2 = 59 + l := by simp [monthStart]
theorem monthStart_three (l : Int) : monthStart l 3 = 90 + l := by simp [monthStart]
theorem monthStart_four (l : Int) : monthStart l 4 = 120 + l := by simp [monthStart]
theorem monthStart_five (l : Int) : monthStart l 5 = 151 + l := by simp [monthStart]
theorem monthStart_six (l : Int) : monthStart l 6 = 181 + l := by simp [monthStart]
theorem monthStart_seven (l : Int) : monthStart l 7 = 212 + l := by simp [monthStart]
theorem monthStart_eight (l : Int) : monthStart l 8 = 243 + l := by simp [monthStart]
theorem monthStart_nine (l : Int) : monthStart l 9 = 273 + l := by simp [monthStart]
theorem monthStart_ten (l : Int) : monthStart l 10 = 304 + l := by simp [monthStart]
theorem monthStart_eleven (l : Int) : monthStart l 11 = 334 + l := by simp [monthStart]
theorem monthStart_twelve (l : Int) : monthStart l 12 = 365 + l := by simp [monthStart]


theorem monthFromDayInYear_range (l k : Int) :
    0 ≤ monthFromDayInYear l k ∧ monthFromDayInYear l k ≤ 11 := by
  rcases monthFromDayInYear_cases l k with h | h | h | h | h | h | h | h | h | h | h | h <;>
    omega

theorem getMonth_range (n : Int) : 0 ≤ getMonth n ∧ getMonth n ≤ 11 :=
  monthFromDayInYear_range _ _

theorem makeDay_of_range {m : Int} (y d : Int) (h0 : 0 ≤ m) (h1 : m ≤ 11) :
    makeDay y m d = dayFromYear y + monthStart (leapDay y) m + d - 1 := by
  unfold makeDay
  have e1 : m / 12 = 0 := by omega
  have e2 : m % 12 = m := by omega
  simp only [e1, e2, add_zero]

theorem makeDay_fields (n v : Int) :
    makeDay (getFullYear n) (getMonth n) v = n + (v - getDate n) := by
  have hr := getMonth_range n
  rw [makeDay_of_range _ _ hr.1 hr.2]
  simp only [getDate, dayWithinYear, getFullYear]
  omega

theorem setDate_add (n k : Int) : setDate n (getDate n + k) = n + k := by
  unfold setDate
  rw [makeDay_fields]; omega

theorem plusDays_eq (n k : Int) : plusDays n k = n + k := setDate_add n k

/-- A day of the year lies within the month the table finds for it. -/
theorem month_tables {l k : Int} (hk0 : 0 ≤ k) (hk1 : k < 365 + l) :
    monthStart l (monthFromDayInYear l k) ≤ k ∧
      k < monthStart l (monthFromDayInYear l k + 1) := by
  rcases monthFromDayInYear_cases l k with h | h | h | h | h | h | h | h | h | h | h | h
  all_goals
    obtain ⟨h1, h2⟩ := h
    first | rw [h2.2] | rw [h2]
    simp only [Int.reduceAdd, monthStart_zero, monthStart_one, monthStart_two,
      monthStart_three, monthStart_four, monthStart_five, monthStart_six, monthStart_seven,
      monthStart_eight, monthStart_nine, monthStart_ten, monthStart_eleven, monthStart_twelve]
    omega

theorem getDate_range (n : Int) :
    1 ≤ getDate n ∧ getDate n ≤ daysInMonth (getFullYear n) (getMonth n) := by
  have hb := dayWithinYear_bounds n
  have ht := month_tables hb.1 hb.2
  simp only [getDate, daysInMonth, getFullYear, getMonth]
  omega

theorem month_cases {m : Int} (h0 : 0 ≤ m) (h1 : m ≤ 11) :
    m = 0 ∨ m = 1 ∨ m = 2 ∨ m = 3 ∨ m = 4 ∨ m = 5 ∨ m = 6 ∨ m = 7 ∨ m = 8 ∨ m = 9 ∨
      m = 10 ∨ m = 11 := by omega

theorem month_tables_inv {l m k : Int} (hl0 : 0 ≤ l) (h0 : 0 ≤ m) (h1 : m ≤ 11)
    (hk0 : monthStart l m ≤ k) (hk1 : k < monthStart l (m + 1)) :
    monthFromDayInYear l k = m := by
  rcases month_cases h0 h1 with h | h | h | h | h | h | h | h | h | h | h | h <;> subst h <;>
    simp only [Int.reduceAdd, monthStart_zero, monthStart_one, monthStart_two,
      monthStart_three, monthStart_four, monthStart_five, monthStart_six, monthStart_seven,
      monthStart_eight, monthStart_nine, monthStart_ten, monthStart_eleven, monthStart_twelve]
      at hk0 hk1 <;>
    rcases monthFromDayInYear_cases l k with c | c | c | c | c | c | c | c | c | c | c | c <;>
    omega

theorem monthStart_bounds {l m : Int} (hl0 : 0 ≤ l) (h0 : 0 ≤ m) (h1 : m ≤ 11) :
    0 ≤ monthStart l m ∧ monthStart l m < monthStart l (m + 1) ∧
      monthStart l (m + 1) ≤ 365 + l := by
  rcases month_cases h0 h1 with h | h | h | h | h | h | h | h | h | h | h | h <;> subst h <;>
    simp only [Int.reduceAdd, monthStart_zero, monthStart_one, monthStart_two,
      monthStart_three, monthStart_four, monthStart_five, monthStart_six, monthStart_seven,
      monthStart_eight, monthStart_nine, monthStart_ten, monthStart_eleven, monthStart_twelve]
      <;> omega

theorem fields_makeDay {y m d : Int} (h0 : 0 ≤ m) (h1 : m ≤ 11) (hd0 : 1 ≤ d)
    (hd1 : d ≤ daysInMonth y m) :
    getFullYear (makeDay y m d) = y ∧ getMonth (makeDay y m d) = m ∧
      getDate (makeDay y m d) = d := by
  rw [makeDay_of_range _ _ h0 h1]
  have hl := leapDay_range y
  have hb := monthStart_bounds hl.1 h0 h1
  unfold daysInMonth at hd1
  have hy : yearFromDay (dayFromYear y + monthStart (leapDay y) m + d - 1) = y := by
    apply yearFromDay_unique
    · omega
    · rw [dayFromYear_succ]; omega
  have hm : getMonth (dayFromYear y + monthStart (leapDay y) m + d - 1) = m := by
    unfold getMonth dayWithinYear
    rw [hy]
    apply month_tables_inv hl.1 h0 h1 <;> omega
  refine ⟨hy, hm, ?_⟩
  unfold getDate dayWithinYear
  rw [hm, hy]
  omega

theorem monthFromDayInYear_mono {l k1 k2 : Int} (hl : 0 ≤ l) (h : k1 ≤ k2) :
    monthFromDayInYear l k1 ≤ monthFromDayInYear l k2 := by
  rcases monthFromDayInYear_cases l k1 with c | c | c | c | c | c | c | c | c | c | c | c <;>
  rcases monthFromDayInYear_cases l k2 with e | e | e | e | e | e | e | e | e | e | e | e <;>
  omega

/-- The calendar fields grow lexicographically with the day number. -/
theorem fields_mono {a b : Int} (h : a ≤ b) :
    getFullYear a < getFullYear b ∨
      (getFullYear a = getFullYear b ∧
        (getMonth a < getMonth b ∨
          (getMonth a = getMonth b ∧ getDate b - getDate a = b - a))) := by
  have hy := yearFromDay_mono h
  simp only [getFullYear]
  rcases lt_or_eq_of_le hy with hlt | heq
  · left; exact hlt
  · right
    refine ⟨heq, ?_⟩
    have hk : dayWithinYear a ≤ dayWithinYear b := by
      simp only [dayWithinYear, heq]; omega
    have hm := monthFromDayInYear_mono (leapDay_range (yearFromDay b)).1 hk
    simp only [getMonth, heq]
    rcases lt_or_eq_of_le hm with h1 | h1
    · left; exact h1
    · right
      refine ⟨h1, ?_⟩
      simp only [getDate, getMonth, heq, h1]
      simp only [dayWithinYear, heq]
      omega

theorem makeDay_index (y m d : Int) :
    makeDay y m d = makeDay ((12 * y + m) / 12) ((12 * y + m) % 12) d := by
  have e1 : ((12 * y + m) % 12) / 12 = 0 := by omega
  have e2 : ((12 * y + m) % 12) % 12 = m % 12 := by omega
  have e3 : (12 * y + m) / 12 = y + m / 12 := by omega
  simp only [makeDay, e1, e2, e3, add_zero]

theorem makeDay_congr {y1 m1 y2 m2 : Int} (d : Int) (h : 12 * y1 + m1 = 12 * y2 + m2) :
    makeDay y1 m1 d = makeDay y2 m2 d := by
  rw [makeDay_index y1 m1, makeDay_index y2 m2, h]

theorem makeDay_add (y m d k : Int) : makeDay y m (d + k) = makeDay y m d + k := by
  simp only [makeDay]; omega

theorem makeDay_self (n : Int) : makeDay (getFullYear n) (getMonth n) (getDate n) = n := by
  rw [makeDay_fields]; omega

theorem daysInMonth_values (y m : Int) (h0 : 0 ≤ m) (h1 : m ≤ 11) :
    (m = 1 ∧ daysInMonth y m = 28 + leapDay y) ∨
      (m ≠ 1 ∧ ∀ z, daysInMonth z m = daysInMonth y m) := by
  rcases month_cases h0 h1 with h | h | h | h | h | h | h | h | h | h | h | h <;> subst h <;>
    simp [daysInMonth, monthStart_zero, monthStart_one, monthStart_two,
      monthStart_three, monthStart_four, monthStart_five, monthStart_six, monthStart_seven,
      monthStart_eight, monthStart_nine, monthStart_ten, monthStart_eleven, monthStart_twelve]
  omega

/-- First day of a month is the day after the last day of the month before:
the value read by `new Date(y, m, 0).getDate()`. -/
theorem prevMonth_length {y m : Int} (h0 : 0 ≤ m) (h1 : m ≤ 11) :
    makeDay y m 1 = makeDay y (m - 1) 1 + getDate (makeDay y m 0) := by
  have hprev : makeDay y m 0 = makeDay ((12 * y + (m - 1)) / 12) ((12 * y + (m - 1)) % 12)
      (daysInMonth ((12 * y + (m - 1)) / 12) ((12 * y + (m - 1)) % 12)) := by
    rcases month_cases h0 h1 with h | h | h | h | h | h | h | h | h | h | h | h <;> subst h
    · have e1 : (12 * y + (0 - 1)) / 12 = y - 1 := by omega
      have e2 : (12 * y + (0 - 1)) % 12 = 11 := by omega
      rw [e1, e2, makeDay_of_range _ _ (by omega) (by omega),
        makeDay_of_range _ _ (by omega) (by omega)]
      have := dayFromYear_succ (y - 1)
      simp only [Int.sub_add_cancel] at this
      simp only [daysInMonth, Int.reduceAdd, monthStart_zero, monthStart_eleven,
        monthStart_twelve]
      omega
    all_goals
      rw [makeDay_of_range _ _ (by omega) (by omega)]
      first
        | (have e1 : (12 * y + (1 - 1)) / 12 = y := by omega
           have e2 : (12 * y + (1 - 1)) % 12 = 0 := by omega
           rw [e1, e2])
        | (have e1 : (12 * y + (2 - 1)) / 12 = y := by omega
           have e2 : (12 * y + (2 - 1)) % 12 = 1 := by omega
           rw [e1, e2])
        | (have e1 : (12 * y + (3 - 1)) / 12 = y := by omega
           have e2 : (12 * y + (3 - 1)) % 12 = 2 := by omega
           rw [e1, e2])
        | (have e1 : (12 * y + (4 - 1)) / 12 = y := by omega
           have e2 : (12 * y + (4 - 1)) % 12 = 3 := by omega
           rw [e1, e2])
        | (have e1 : (12 * y + (5 - 1)) / 12 = y := by omega
           have e2 : (12 * y + (5 - 1)) % 12 = 4 := by omega
           rw [e1, e2])
        | (have e1 : (12 * y + (6 - 1)) / 12 = y := by omega
           have e2 : (12 * y + (6 - 1)) % 12 = 5 := by omega
           rw [e1, e2])
        | (have e1 : (12 * y + (7 - 1)) / 12 = y := by omega
           have e2 : (12 * y + (7 - 1)) % 12 = 6 := by omega
           rw [e1, e2])
        | (have e1 : (12 * y + (8 - 1)) / 12 = y := by omega
           have e2 : (12 * y + (8 - 1)) % 12 = 7 := by omega
           rw [e1, e2])
        | (have e1 : (12 * y + (9 - 1)) / 12 = y := by omega
           have e2 : (12 * y + (9 - 1)) % 12 = 8 := by omega
           rw [e1, e2])
        | (have e1 : (12 * y + (10 - 1)) / 12 = y := by omega
           have e2 : (12 * y + (10 - 1)) % 12 = 9 := by omega
           rw [e1, e2])
        | (have e1 : (12 * y + (11 - 1)) / 12 = y := by omega
           have e2 : (12 * y + (11 - 1)) % 12 = 10 := by omega
           rw [e1, e2])
      rw [makeDay_of_range _ _ (by omega) (by omega)]
      simp only [daysInMonth, Int.reduceAdd, monthStart_zero, monthStart_one, monthStart_two,
        monthStart_three, monthStart_four, monthStart_five, monthStart_six, monthStart_seven,
        monthStart_eight, monthStart_nine, monthStart_ten, monthStart_eleven, monthStart_twelve]
      omega
  have hT : 12 * ((12 * y + (m - 1)) / 12) + (12 * y + (m - 1)) % 12 = 12 * y + (m - 1) := by
    omega
  have hr0 : 0 ≤ (12 * y + (m - 1)) % 12 := by omega
  have hr1 : (12 * y + (m - 1)) % 12 ≤ 11 := by omega
  have hl := leapDay_range ((12 * y + (m - 1)) / 12)
  have hb := monthStart_bounds hl.1 hr0 hr1
  have hf := fields_makeDay (y := (12 * y + (m - 1)) / 12) hr0 hr1
    (d := daysInMonth ((12 * y + (m - 1)) / 12) ((12 * y + (m - 1)) % 12))
    (by simp only [daysInMonth]; omega) (le_refl _)
  rw [hprev, hf.2.2, makeDay_congr 1 hT.symm]
  rw [← makeDay_add, add_comm 1 _, makeDay_add, ← hprev, ← makeDay_add, zero_add]

theorem leapDay_century {y : Int} (h0 : 1 ≤ y) (h1 : y ≤ 99) : leapDay (1900 + y) = leapDay y := by
  simp only [leapDay, inLeapYear]
  have e1 : (1900 + y) % 4 = y % 4 := by omega
  have e2 : (1900 + y) % 100 ≠ 0 := by omega
  have e3 : y % 100 ≠ 0 := by omega
  simp [e1, e2, e3]

theorem prevMonth_value {y m : Int} (h0 : 0 ≤ m) (h1 : m ≤ 11) :
    getDate (makeDay y m 0) = if m = 0 then 31 else daysInMonth y (m - 1) := by
  have h := prevMonth_length (y := y) h0 h1
  split
  · rename_i hm
    subst hm
    have e : makeDay y (0 - 1) 1 = makeDay (y - 1) 11 1 := makeDay_congr 1 (by omega)
    rw [e, makeDay_of_range _ _ (by omega) (by omega),
      makeDay_of_range _ _ (by omega) (by omega)] at h
    have := dayFromYear_succ (y - 1)
    simp only [Int.sub_add_cancel] at this
    simp only [monthStart_zero, monthStart_eleven] at h
    omega
  · rw [makeDay_of_range _ _ h0 h1, makeDay_of_range _ _ (by omega) (by omega)] at h
    simp only [daysInMonth, Int.sub_add_cancel]
    omega

/-- The length of the previous month read through `new Date(y, m, 0)` is the
true one, except for March of the year 0 (read as March 1900). -/
theorem newDateYMD_prev {y m : Int} (hy : ¬ (y = 0 ∧ m = 2)) (h0 : 0 ≤ m) (h1 : m ≤ 11) :
    getDate (newDateYMD y m 0) = getDate (makeDay y m 0) := by
  unfold newDateYMD
  split
  · rename_i hc
    rw [prevMonth_value h0 h1, prevMonth_value h0 h1]
    by_cases hy0 : y = 0
    · subst hy0
      have hm2 : m ≠ 2 := fun h => hy ⟨rfl, h⟩
      split
      · rfl
      · rcases daysInMonth_values 0 (m - 1) (by omega) (by omega) with ⟨h2, _⟩ | ⟨_, h3⟩
        · omega
        · exact h3 _
    · simp only [daysInMonth, leapDay_century (show 1 ≤ y by omega) hc.2]
  · rfl

/-- Re-adding the age to the birth date gives back the reference date, unless
the birth date is a 29 February carried into a common year, or the reference
date is a March day of the year 0 reached with a borrowed month. -/
theorem readd_age {b t : Int} (hbt : b ≤ t)
    (hfeb : getMonth b = 1 → getDate b = 29 →
      inLeapYear (getFullYear b + (calculateAgeAtDate (some b) (some t)).years) = true)
    (hyear : ¬ (getFullYear t = 0 ∧ getMonth t = 2 ∧ getDate t < getDate b)) :
    (calculateAgeAtDate (some b) (some t)).totalMonths =
        (calculateAgeAtDate (some b) (some t)).years * 12 +
          (calculateAgeAtDate (some b) (some t)).months ∧
      reAdd b (calculateAgeAtDate (some b) (some t)) = t := by
  refine ⟨rfl, ?_⟩
  have hMb := getMonth_range b
  have hMt := getMonth_range t
  have hDb := getDate_range b
  have hDt := getDate_range t
  have hP := prevMonth_length (y := getFullYear t) hMt.1 hMt.2
  have hmono := fields_mono hbt
  simp only [calculateAgeAtDate] at hfeb
  simp only [reAdd, calculateAgeAtDate, addTimeToDate]
  generalize hys : (if (if getDate t - getDate b < 0 then getMonth t - getMonth b - 1
      else getMonth t - getMonth b) < 0 then getFullYear t - getFullYear b - 1
      else getFullYear t - getFullYear b) = ys at hfeb ⊢
  generalize hms : (if (if getDate t - getDate b < 0 then getMonth t - getMonth b - 1
      else getMonth t - getMonth b) < 0
      then (if getDate t - getDate b < 0 then getMonth t - getMonth b - 1
        else getMonth t - getMonth b) + 12
      else (if getDate t - getDate b < 0 then getMonth t - getMonth b - 1
        else getMonth t - getMonth b)) = ms
  generalize hds : (if getDate t - getDate b < 0 then
      getDate t - getDate b + getDate (newDateYMD (getFullYear t) (getMonth t) 0)
      else getDate t - getDate b) = ds
  -- the birth day of month exists in the year reached by the year step
  have hD : getDate b ≤ daysInMonth (getFullYear b + ys) (getMonth b) := by
    rcases daysInMonth_values (getFullYear b) (getMonth b) hMb.1 hMb.2 with ⟨h1, h2⟩ | ⟨_, h2⟩
    · rcases daysInMonth_values (getFullYear b + ys) (getMonth b) hMb.1 hMb.2 with
        ⟨_, h4⟩ | ⟨h3, _⟩
      · have hl1 := leapDay_range (getFullYear b + ys)
        have hl2 := leapDay_range (getFullYear b)
        by_cases h29 : getDate b = 29
        · have hleap := hfeb h1 h29
          have : leapDay (getFullYear b + ys) = 1 := by simp [leapDay, hleap]
          omega
        · omega
      · exact absurd h1 h3
    · rw [h2 _]; exact hDb.2
  have hf1 := fields_makeDay (y := getFullYear b + ys) hMb.1 hMb.2 hDb.1 hD
  have e1 : setFullYear b (getFullYear b + ys) =
      makeDay (getFullYear b + ys) (getMonth b) (getDate b) := rfl
  rw [e1]
  have e2 : setMonth (makeDay (getFullYear b + ys) (getMonth b) (getDate b))
      (getMonth (makeDay (getFullYear b + ys) (getMonth b) (getDate b)) + ms) =
      makeDay (getFullYear b + ys) (getMonth b + ms) (getDate b) := by
    simp only [setMonth, hf1.1, hf1.2.1, hf1.2.2]
  rw [e2, setDate_add]
  by_cases hborrow : getDate t - getDate b < 0
  · simp only [hborrow, if_true] at hys hms hds
    have hL := newDateYMD_prev (y := getFullYear t) (m := getMonth t)
      (fun h => hyear ⟨h.1, h.2, by omega⟩) hMt.1 hMt.2
    have hidx : 12 * (getFullYear b + ys) + (getMonth b + ms) =
        12 * getFullYear t + (getMonth t - 1) := by
      by_cases hm : getMonth t - getMonth b - 1 < 0
      · simp only [hm, if_true] at hys hms; omega
      · simp only [hm, if_false] at hys hms; omega
    rw [makeDay_congr _ hidx]
    have e3 := makeDay_add (getFullYear t) (getMonth t - 1) 1 (getDate b - 1)
    have e4 := makeDay_add (getFullYear t) (getMonth t) 1 (getDate t - 1)
    have e5 := makeDay_self t
    have e6 : (1 : Int) + (getDate b - 1) = getDate b := by omega
    have e7 : (1 : Int) + (getDate t - 1) = getDate t := by omega
    rw [e6] at e3
    rw [e7] at e4
    omega
  · simp only [hborrow, if_false] at hys hms hds
    have hidx : 12 * (getFullYear b + ys) + (getMonth b + ms) =
        12 * getFullYear t + getMonth t := by
      by_cases hm : getMonth t - getMonth b < 0
      · simp only [hm, if_true] at hys hms; omega
      · simp only [hm, if_false] at hys hms; omega
    rw [makeDay_congr _ hidx, ← makeDay_add, ← hds]
    have e5 := makeDay_self t
    have e6 : getDate b + (getDate t - getDate b) = getDate t := by omega
    rw [e6, e5]

/-! ## Age computation -/

/-- On a non-empty string that parses to a date not after today, `calculateAge`
returns the snapshot that `calculateAgeAtDate` computes for today. -/
theorem calculateAge_snapshot {parse : String → Option Int} {today b : Int} {s : String}
    (hs : s ≠ "") (hp : parse s = some b) (hb : b ≤ today) :
    calculateAge parse today s =
      some (AgeObject.snapshot (calculateAgeAtDate (some b) (some today))) := by
  have hgt : ¬ b > today := by omega
  simp only [calculateAge, hs, hp, hgt, if_false, calculateAgeAtDate]

/-- C1, as stated, fails: for a birth date 2020-02-29 and the reference date
2021-04-10 the age is 1 year, 1 month, 12 days, and adding these back to the
birth date with `addTimeToDate` gives 2021-04-13.  It also fails in the year 0:
birth 0000-01-31 and reference 0000-03-01 give back 0000-02-29. -/
theorem readd_age_leap_day_counterexample :
    makeDay 2020 1 29 ≤ makeDay 2021 3 10 ∧
      calculateAge (fun _ => some (makeDay 2020 1 29)) (makeDay 2021 3 10) "2020-02-29" =
        some (AgeObject.snapshot
          (calculateAgeAtDate (some (makeDay 2020 1 29)) (some (makeDay 2021 3 10)))) ∧
      reAdd (makeDay 2020 1 29)
        (calculateAgeAtDate (some (makeDay 2020 1 29)) (some (makeDay 2021 3 10))) =
          makeDay 2021 3 13 ∧
      reAdd (makeDay 2020 1 29)
        (calculateAgeAtDate (some (makeDay 2020 1 29)) (some (makeDay 2021 3 10))) ≠
          makeDay 2021 3 10 ∧
      makeDay 0 0 31 ≤ makeDay 0 2 1 ∧
      reAdd (makeDay 0 0 31)
        (calculateAgeAtDate (some (makeDay 0 0 31)) (some (makeDay 0 2 1))) ≠ makeDay 0 2 1 := by
  decide

/-- C1, amended: for a birth date `b` and a reference date `t` with `b ≤ t`,
the snapshot of `calculateAge` (clock at `t`) and of `calculateAgeAtDate b t`
satisfies `totalMonths = years * 12 + months`, and adding `years` years, then
`months` months, then `days` days to `b` with `addTimeToDate` yields exactly
`t`, provided that (i) `b` is not a 29 February, or the year `b.year + years`
is a leap year, and (ii) `t` is not a March day of the year 0 with a day of
month smaller than that of `b`. -/
theorem readd_age_roundtrip (parse : String → Option Int) (s : String) (b t : Int)
    (hs : s ≠ "") (hp : parse s = some b) (hbt : b ≤ t)
    (hfeb : getMonth b = 1 → getDate b = 29 →
      inLeapYear (getFullYear b + (calculateAgeAtDate (some b) (some t)).years) = true)
    (hyear : ¬ (getFullYear t = 0 ∧ getMonth t = 2 ∧ getDate t < getDate b)) :
    calculateAge parse t s = some (AgeObject.snapshot (calculateAgeAtDate (some b) (some t))) ∧
      (calculateAgeAtDate (some b) (some t)).totalMonths =
        (calculateAgeAtDate (some b) (some t)).years * 12 +
          (calculateAgeAtDate (some b) (some t)).months ∧
      reAdd b (calculateAgeAtDate (some b) (some t)) = t :=
  ⟨calculateAge_snapshot hs hp hbt, (readd_age hbt hfeb hyear).1, (readd_age hbt hfeb hyear).2⟩

/-- Witness of the amended C1 at birth date 2023-01-31 and reference date
2023-03-01 (an age with a negative day count). -/
theorem readd_age_roundtrip_witness :
    calculateAge (fun _ => some (makeDay 2023 0 31)) (makeDay 2023 2 1) "2023-01-31" =
        some (AgeObject.snapshot
          (calculateAgeAtDate (some (makeDay 2023 0 31)) (some (makeDay 2023 2 1)))) ∧
      (calculateAgeAtDate (some (makeDay 2023 0 31)) (some (makeDay 2023 2 1))).totalMonths =
        (calculateAgeAtDate (some (makeDay 2023 0 31)) (some (makeDay 2023 2 1))).years * 12 +
          (calculateAgeAtDate (some (makeDay 2023 0 31)) (some (makeDay 2023 2 1))).months ∧
      reAdd (makeDay 2023 0 31)
        (calculateAgeAtDate (some (makeDay 2023 0 31)) (some (makeDay 2023 2 1))) =
          makeDay 2023 2 1 :=
  readd_age_roundtrip (fun _ => some (makeDay 2023 0 31)) "2023-01-31" (makeDay 2023 0 31)
    (makeDay 2023 2 1) (by decide) rfl (by decide) (by decide) (by decide)

/-- C2, evaluated at the failing input: for the birth date 2023-01-31 and the
reference date 2023-03-01 (birth before reference) both `calculateAge` and
`calculateAgeAtDate` return 0 years, 1 month and -2 days. -/
theorem age_days_negative_at_month_end :
    makeDay 2023 0 31 ≤ makeDay 2023 2 1 ∧
      calculateAgeAtDate (some (makeDay 2023 0 31)) (some (makeDay 2023 2 1)) =
        { years := 0, months := 1, days := -2, totalMonths := 1, totalWeeks := 4,
          birthDate := some (makeDay 2023 0 31) } ∧
      calculateAge (fun _ => some (makeDay 2023 0 31)) (makeDay 2023 2 1) "2023-01-31" =
        some (AgeObject.snapshot
          { years := 0, months := 1, days := -2, totalMonths := 1, totalWeeks := 4,
            birthDate := some (makeDay 2023 0 31) }) := by
  decide

/-- C3, as stated, fails: for a non-empty string that does not parse (an
Invalid Date) `calculateAge` does not return `null` but an object whose
numeric fields are NaN. -/
theorem calculateAge_unparsable_counterexample :
    (fun _ => none : String → Option Int) "abc" = none ∧
      calculateAge (fun _ => none) (makeDay 2024 0 1) "abc" = some AgeObject.allNaN := by
  decide

/-- C3, amended: `calculateAge` returns `null` if and only if the birth-date
string is empty or it parses to a date strictly after today; a non-empty string
that does not parse yields an object with NaN fields, and a string that parses
to a date not after today yields an age snapshot. -/
theorem calculateAge_null_iff (parse : String → Option Int) (today : Int) (s : String) :
    (calculateAge parse today s = none ↔ (s = "" ∨ ∃ b, parse s = some b ∧ today < b)) ∧
      ((s ≠ "" ∧ parse s = none) → calculateAge parse today s = some AgeObject.allNaN) ∧
      (∀ b, (s ≠ "" ∧ parse s = some b ∧ b ≤ today) →
        ∃ a, calculateAge parse today s = some (AgeObject.snapshot a)) := by
  refine ⟨?_, ?_, ?_⟩
  · by_cases hs : s = ""
    · simp [calculateAge, hs]
    · cases hp : parse s with
      | none => simp [calculateAge, hs, hp]
      | some b =>
        by_cases hb : b > today
        · simp [calculateAge, hs, hp, hb]
        · simp [calculateAge, hs, hp, hb]
  · rintro ⟨hs, hp⟩
    simp [calculateAge, hs, hp]
  · rintro b ⟨hs, hp, hb⟩
    exact ⟨_, calculateAge_snapshot hs hp hb⟩

/-- C4, as stated, fails: for the birth date 2020-06-15 and the earlier date
2020-06-10, `calculateAgeAtDate` does not fail but returns a snapshot with
-1 years, 11 months and 26 days. -/
theorem calculateAgeAtDate_before_birth_counterexample :
    makeDay 2020 5 10 < makeDay 2020 5 15 ∧
      calculateAgeAtDate (some (makeDay 2020 5 15)) (some (makeDay 2020 5 10)) =
        { years := -1, months := 11, days := 26, totalMonths := -1, totalWeeks := -1,
          birthDate := some (makeDay 2020 5 15) } := by
  decide

/-- C4, amended: `calculateAgeAtDate` never fails; when `atDate` is strictly
before `birthDate` it returns a snapshot whose `years`, `totalMonths` and
`totalWeeks` are negative (and whose `months` lies in 0..11), so a dose dated
before birth is turned into a negative age. -/
theorem calculateAgeAtDate_before_birth (birthDate atDate : Int) (h : atDate < birthDate) :
    (calculateAgeAtDate (some birthDate) (some atDate)).years < 0 ∧
      (calculateAgeAtDate (some birthDate) (some atDate)).totalMonths < 0 ∧
      (calculateAgeAtDate (some birthDate) (some atDate)).totalWeeks < 0 ∧
      0 ≤ (calculateAgeAtDate (some birthDate) (some atDate)).months ∧
      (calculateAgeAtDate (some birthDate) (some atDate)).months ≤ 11 ∧
      (calculateAgeAtDate (some birthDate) (some atDate)).birthDate = some birthDate := by
  have hmono := fields_mono (show atDate ≤ birthDate by omega)
  have hMb := getMonth_range birthDate
  have hMa := getMonth_range atDate
  simp only [calculateAgeAtDate]
  by_cases hd : getDate atDate - getDate birthDate < 0
  · simp only [hd, if_true]
    by_cases hm : getMonth atDate - getMonth birthDate - 1 < 0
    · simp only [hm, if_true]
      refine ⟨by omega, by omega, by omega, by omega, by omega, trivial⟩
    · simp only [hm, if_false]
      refine ⟨by omega, by omega, by omega, by omega, by omega, trivial⟩
  · simp only [hd, if_false]
    by_cases hm : getMonth atDate - getMonth birthDate < 0
    · simp only [hm, if_true]
      refine ⟨by omega, by omega, by omega, by omega, by omega, trivial⟩
    · simp only [hm, if_false]
      refine ⟨by omega, by omega, by omega, by omega, by omega, trivial⟩

/-- Witness of the amended C4 at birth date 2020-06-15 and dose date 2020-06-10. -/
theorem calculateAgeAtDate_before_birth_witness :
    (calculateAgeAtDate (some (makeDay 2020 5 15)) (some (makeDay 2020 5 10))).years < 0 ∧
      (calculateAgeAtDate (some (makeDay 2020 5 15)) (some (makeDay 2020 5 10))).totalMonths < 0 ∧
      (calculateAgeAtDate (some (makeDay 2020 5 15)) (some (makeDay 2020 5 10))).totalWeeks < 0 ∧
      0 ≤ (calculateAgeAtDate (some (makeDay 2020 5 15)) (some (makeDay 2020 5 10))).months ∧
      (calculateAgeAtDate (some (makeDay 2020 5 15)) (some (makeDay 2020 5 10))).months ≤ 11 ∧
      (calculateAgeAtDate (some (makeDay 2020 5 15)) (some (makeDay 2020 5 10))).birthDate =
        some (makeDay 2020 5 15) :=
  calculateAgeAtDate_before_birth (makeDay 2020 5 15) (makeDay 2020 5 10) (by decide)

/-! ## Whole months between two dates -/

/-- Closed form of `diffInMonths` on two dates. -/
theorem diffInMonths_eq (e l : Int) :
    diffInMonths (some e) (some l) =
      max 0 (12 * (getFullYear l - getFullYear e) + (getMonth l - getMonth e) -
        (if getDate l < getDate e then 1 else 0)) := by
  simp only [diffInMonths]
  by_cases hd : getDate l < getDate e
  · simp only [hd, if_true]
    split <;> omega
  · simp only [hd, if_false]
    split <;> omega

/-- C5: `diffInMonths` is monotonic non-decreasing in its second argument. -/
theorem diffInMonths_mono (e l1 l2 : Int) (h : l1 ≤ l2) :
    diffInMonths (some e) (some l1) ≤ diffInMonths (some e) (some l2) := by
  have hmono := fields_mono h
  have hM1 := getMonth_range l1
  have hM2 := getMonth_range l2
  rw [diffInMonths_eq, diffInMonths_eq]
  by_cases h1 : getDate l1 < getDate e <;> by_cases h2 : getDate l2 < getDate e <;>
    simp only [h1, h2, if_true, if_false] <;> omega

/-- Witness of C5: earlier date 2024-01-15, later dates 2024-03-14 and 2024-03-15. -/
theorem diffInMonths_mono_witness :
    diffInMonths (some (makeDay 2024 0 15)) (some (makeDay 2024 2 14)) ≤
      diffInMonths (some (makeDay 2024 0 15)) (some (makeDay 2024 2 15)) :=
  diffInMonths_mono (makeDay 2024 0 15) (makeDay 2024 2 14) (makeDay 2024 2 15) (by decide)

/-- C6: `diffInMonths e l` is the calendar month difference, less one when the
day of month of `l` is smaller than that of `e`, floored at 0; it is never
negative and `diffInMonths d d = 0`. -/
theorem diffInMonths_formula (e l : Int) :
    diffInMonths (some e) (some l) =
        max 0 (12 * (getFullYear l - getFullYear e) + (getMonth l - getMonth e) -
          (if getDate l < getDate e then 1 else 0)) ∧
      0 ≤ diffInMonths (some e) (some l) ∧
      diffInMonths (some e) (some e) = 0 := by
  refine ⟨diffInMonths_eq e l, ?_, ?_⟩
  · rw [diffInMonths_eq]; exact le_max_left _ _
  · rw [diffInMonths_eq]; simp

/-! ## Month overflow of `addTimeToDate` -/

/-- C7, as stated, fails: one month after 2023-01-31 is 2023-03-03, not the
last day of February (2023-02-28). -/
theorem addMonth_jan31_counterexample :
    addTimeToDate (makeDay 2023 0 31) .months 1 = makeDay 2023 2 3 ∧
      addTimeToDate (makeDay 2023 0 31) .months 1 ≠ makeDay 2023 1 28 := by
  decide

/-- C7, amended: `addTimeToDate(d, 'months', 1)` applied to January 31 of any
year `y` yields March 3 of that year, or March 2 in a leap year (the day count
31 overflows February by the platform's normalisation). -/
theorem addMonth_jan31 (y : Int) :
    getFullYear (addTimeToDate (makeDay y 0 31) .months 1) = y ∧
      getMonth (addTimeToDate (makeDay y 0 31) .months 1) = 2 ∧
      getDate (addTimeToDate (makeDay y 0 31) .months 1) = (if inLeapYear y then 2 else 3) := by
  have hjan := fields_makeDay (y := y) (m := 0) (d := 31) (by omega) (by omega) (by omega)
    (by simp [daysInMonth, monthStart_zero, monthStart_one])
  have hl := leapDay_range y
  have e : addTimeToDate (makeDay y 0 31) .months 1 = makeDay y 2 (3 - leapDay y) := by
    simp only [addTimeToDate, setMonth, hjan.1, hjan.2.1, hjan.2.2]
    rw [makeDay_of_range _ _ (by omega) (by omega), makeDay_of_range _ _ (by omega) (by omega)]
    simp only [Int.reduceAdd, monthStart_one, monthStart_two]
    omega
  have hmar := fields_makeDay (y := y) (m := 2) (d := 3 - leapDay y) (by omega) (by omega)
    (by omega) (by simp [daysInMonth, monthStart_two, monthStart_three]; omega)
  rw [e]
  refine ⟨hmar.1, hmar.2.1, ?_⟩
  rw [hmar.2.2]
  simp only [leapDay]
  split <;> rfl

/-! ## Schedule generator: one row per regimen -/

theorem todayFloor_ge (today x : Int) : today ≤ todayFloor today x := by
  unfold todayFloor; split <;> omega

theorem hpvAdjust_ge (vaccine : Vaccine) (type : Policy) (today : Int) (ruleAction : RuleAction)
    (numAdministered : Nat) (base : Option Int) (ic : Option IntervalConfig) (x : Int)
    (hx : today ≤ x) :
    today ≤ hpvAdjust vaccine type today ruleAction numAdministered base ic x := by
  have h1 : today ≤
      (match ic, base with
       | some c, some base =>
         if vaccine.id = .hpv ∧ numAdministered = 1 ∧ c.months = some 6 ∧ c.minMonths = some 5 ∧
             type = .minimum then
           todayFloor today (addTimeToDate base .months (c.minMonths.getD 0))
         else x
       | _, _ => x) := by
    split
    · split
      · exact todayFloor_ge _ _
      · exact hx
    · exact hx
  unfold hpvAdjust
  simp only
  split
  · split
    · exact todayFloor_ge _ _
    · exact h1
  · exact h1

/-- Every path of the callback pushes exactly one row, the row `regimenRow`. -/
theorem scheduleStep_push (ageInfo : AgeInfo) (all : AllHistories) (type : Policy) (today : Int)
    (schedule : List ScheduleRow) (vaccine : Vaccine) :
    scheduleStep ageInfo all type today schedule vaccine =
      schedule ++ [regimenRow ageInfo all type today vaccine] := by
  unfold regimenRow scheduleStep
  simp only
  split
  · rfl
  · split
    · rfl
    · rfl

theorem foldl_scheduleStep (ageInfo : AgeInfo) (all : AllHistories) (type : Policy) (today : Int)
    (l : List Vaccine) (acc : List ScheduleRow) :
    l.foldl (scheduleStep ageInfo all type today) acc =
      acc ++ l.map (regimenRow ageInfo all type today) := by
  induction l generalizing acc with
  | nil => simp
  | cons v rest ih =>
    simp only [List.foldl_cons, List.map_cons, ih, scheduleStep_push]
    simp

theorem generateSchedule_eq_map (ageInfo : AgeInfo) (all : AllHistories) (type : Policy)
    (today : Int) :
    generateSchedule ageInfo all type today =
      VACCINE_DATA.map (regimenRow ageInfo all type today) := by
  unfold generateSchedule
  rw [foldl_scheduleStep]; simp

theorem regimenRow_name (ageInfo : AgeInfo) (all : AllHistories) (type : Policy) (today : Int)
    (vaccine : Vaccine) :
    (regimenRow ageInfo all type today vaccine).vaccineName = vaccine.name := by
  unfold regimenRow scheduleStep
  simp only
  split
  · rfl
  · split
    · rfl
    · rfl

/-- C8: for every age snapshot, every set of histories and either policy,
`generateSchedule` returns exactly one row per regimen of `VACCINE_DATA`, in
catalog order, the i-th row carrying the i-th regimen's display name. -/
theorem generateSchedule_one_row_per_regimen (ageInfo : AgeInfo) (all : AllHistories)
    (type : Policy) (today : Int) :
    (generateSchedule ageInfo all type today).length = VACCINE_DATA.length ∧
      (generateSchedule ageInfo all type today).map ScheduleRow.vaccineName =
        VACCINE_DATA.map Vaccine.name := by
  rw [generateSchedule_eq_map]
  refine ⟨by simp, ?_⟩
  simp only [List.map_map]
  apply List.map_congr_left
  intro v _
  exact regimenRow_name ageInfo all type today v

/-! ## Shape of the rule outcomes -/

theorem string_append_eq_empty (a b : String) : a ++ b = "" ↔ a = "" ∧ b = "" := by
  constructor
  · intro h
    have hd := congrArg String.data h
    simp only [String.data_append] at hd
    have hd2 : a.data = [] ∧ b.data = [] := List.append_eq_nil.mp hd
    exact ⟨String.ext hd2.1, String.ext hd2.2⟩
  · rintro ⟨rfl, rfl⟩; rfl

theorem shape_ite {id : VaccineId} {doses count : Nat} {c : Prop} [Decidable c]
    {x y : RuleAction} (hx : c → OutcomeShape id doses count x)
    (hy : ¬ c → OutcomeShape id doses count y) :
    OutcomeShape id doses count (if c then x else y) := by
  split
  · exact hx ‹_›
  · exact hy ‹_›

theorem bcgRules_shape (a : AgeInfo) (h : History) (all : AllHistories) (t : Int) :
    OutcomeShape VaccineId.bcg 1 (countDoses h) (bcgRules a h all t) := by
  unfold bcgRules
  repeat' (first | (apply shape_ite <;> intro _) | split)
  all_goals simp [OutcomeShape, isTerminal, string_append_eq_empty]

theorem hepBRules_shape (a : AgeInfo) (h : History) (all : AllHistories) (t : Int) :
    OutcomeShape VaccineId.hepB 3 (countDoses h) (hepBRules a h all t) := by
  unfold hepBRules
  simp only
  repeat' (first | (apply shape_ite <;> intro _) | split)
  all_goals simp [OutcomeShape, isTerminal, string_append_eq_empty]

theorem dtapRules_shape (a : AgeInfo) (h : History) (all : AllHistories) (t : Int) :
    OutcomeShape VaccineId.dtap 5 (countDoses h) (dtapRules a h all t) := by
  unfold dtapRules
  simp only
  repeat' (first | (apply shape_ite <;> intro _) | split)
  all_goals simp [OutcomeShape, isTerminal, string_append_eq_empty]

theorem tdapRules_shape (a : AgeInfo) (h : History) (all : AllHistories) (t : Int) :
    OutcomeShape VaccineId.tdap 1 (countDoses h) (tdapRules a h all t) := by
  unfold tdapRules
  simp only
  repeat' (first | (apply shape_ite <;> intro _) | split)
  all_goals simp [OutcomeShape, isTerminal, string_append_eq_empty]
  omega

theorem tdRules_shape (a : AgeInfo) (h : History) (all : AllHistories) (t : Int) :
    OutcomeShape VaccineId.td 1 (countDoses h) (tdRules a h all t) := by
  unfold tdRules
  simp only
  repeat' (first | (apply shape_ite <;> intro _) | split)
  all_goals simp [OutcomeShape, isTerminal, string_append_eq_empty]

theorem ipvRules_shape (a : AgeInfo) (h : History) (all : AllHistories) (t : Int) :
    OutcomeShape VaccineId.ipv 4 (countDoses h) (ipvRules a h all t) := by
  unfold ipvRules
  simp only
  repeat' (first | (apply shape_ite <;> intro _) | split)
  all_goals simp [OutcomeShape, isTerminal, string_append_eq_empty]

theorem hibRules_shape (a : AgeInfo) (h : History) (all : AllHistories) (t : Int) :
    OutcomeShape VaccineId.hib 4 (countDoses h) (hibRules a h all t) := by
  unfold hibRules
  simp only
  repeat' (first | (apply shape_ite <;> intro _) | split)
  all_goals simp [OutcomeShape, isTerminal, string_append_eq_empty]

theorem pcvRules_shape (a : AgeInfo) (h : History) (all : AllHistories) (t : Int) :
    OutcomeShape VaccineId.pcv 4 (countDoses h) (pcvRules a h all t) := by
  unfold pcvRules
  simp only
  repeat' (first | (apply shape_ite <;> intro _) | split)
  all_goals simp [OutcomeShape, isTerminal, string_append_eq_empty]

theorem ppsv23Rules_shape (a : AgeInfo) (h : History) (all : AllHistories) (t : Int) :
    OutcomeShape VaccineId.ppsv23 1 (countDoses h) (ppsv23Rules a h all t) := by
  unfold ppsv23Rules
  simp only
  repeat' (first | (apply shape_ite <;> intro _) | split)
  all_goals simp [OutcomeShape, isTerminal, string_append_eq_empty]

theorem rvRules_shape (a : AgeInfo) (h : History) (all : AllHistories) (t : Int) :
    OutcomeShape VaccineId.rv 3 (countDoses h) (rvRules a h all t) := by
  unfold rvRules
  simp only
  repeat' (first | (apply shape_ite <;> intro _) | split)
  all_goals simp [OutcomeShape, isTerminal, string_append_eq_empty]

theorem mmrRules_shape (a : AgeInfo) (h : History) (all : AllHistories) (t : Int) :
    OutcomeShape VaccineId.mmr 2 (countDoses h) (mmrRules a h all t) := by
  unfold mmrRules
  simp only
  repeat' (first | (apply shape_ite <;> intro _) | split)
  all_goals simp [OutcomeShape, isTerminal, string_append_eq_empty]

theorem varRules_shape (a : AgeInfo) (h : History) (all : AllHistories) (t : Int) :
    OutcomeShape VaccineId.var 1 (countDoses h) (varRules a h all t) := by
  unfold varRules
  simp only
  repeat' (first | (apply shape_ite <;> intro _) | split)
  all_goals simp [OutcomeShape, isTerminal, string_append_eq_empty]

theorem hepARules_shape (a : AgeInfo) (h : History) (all : AllHistories) (t : Int) :
    OutcomeShape VaccineId.hepA 2 (countDoses h) (hepARules a h all t) := by
  unfold hepARules
  simp only
  repeat' (first | (apply shape_ite <;> intro _) | split)
  all_goals simp [OutcomeShape, isTerminal, string_append_eq_empty]

theorem ijevRules_shape (a : AgeInfo) (h : History) (all : AllHistories) (t : Int) :
    OutcomeShape VaccineId.ijev 5 (countDoses h) (ijevRules a h all t) := by
  unfold ijevRules
  simp only
  repeat' (apply shape_ite <;> intro _)
  all_goals simp [OutcomeShape, isTerminal, string_append_eq_empty]

theorem lievRules_shape (a : AgeInfo) (h : History) (all : AllHistories) (t : Int) :
    OutcomeShape VaccineId.liev 2 (countDoses h) (lievRules a h all t) := by
  unfold lievRules
  simp only
  repeat' (first | (apply shape_ite <;> intro _) | split)
  all_goals simp [OutcomeShape, isTerminal, string_append_eq_empty]

theorem hpvRules_shape (a : AgeInfo) (h : History) (all : AllHistories) (t : Int) :
    OutcomeShape VaccineId.hpv 3 (countDoses h) (hpvRules a h all t) := by
  unfold hpvRules
  simp only
  repeat' (first | (apply shape_ite <;> intro _) | split)
  all_goals simp [OutcomeShape, isTerminal, string_append_eq_empty]

theorem iivRules_shape (a : AgeInfo) (h : History) (all : AllHistories) (t : Int) :
    OutcomeShape VaccineId.iiv 1 (countDoses h) (iivRules a h all t) := by
  unfold iivRules
  simp only
  repeat' (first | (apply shape_ite <;> intro _) | split)
  all_goals simp [OutcomeShape, isTerminal, string_append_eq_empty]

theorem ruleActionOf_shape (ageInfo : AgeInfo) (all : AllHistories) (today : Int)
    (v : Vaccine) (hv : v ∈ VACCINE_DATA) :
    OutcomeShape v.id v.doses (countDoses (specificHistoryOf all v))
      (ruleActionOf ageInfo all today v) := by
  simp only [VACCINE_DATA, List.mem_cons, List.mem_singleton, List.not_mem_nil, or_false] at hv
  rcases hv with h | h | h | h | h | h | h | h | h | h | h | h | h | h | h | h | h <;> subst h
  · exact bcgRules_shape ageInfo _ all today
  · exact hepBRules_shape ageInfo _ all today
  · exact dtapRules_shape ageInfo _ all today
  · exact tdapRules_shape ageInfo _ all today
  · exact tdRules_shape ageInfo _ all today
  · exact ipvRules_shape ageInfo _ all today
  · exact hibRules_shape ageInfo _ all today
  · exact pcvRules_shape ageInfo _ all today
  · exact ppsv23Rules_shape ageInfo _ all today
  · exact rvRules_shape ageInfo _ all today
  · exact mmrRules_shape ageInfo _ all today
  · exact varRules_shape ageInfo _ all today
  · exact hepARules_shape ageInfo _ all today
  · exact ijevRules_shape ageInfo _ all today
  · exact lievRules_shape ageInfo _ all today
  · exact hpvRules_shape ageInfo _ all today
  · exact iivRules_shape ageInfo _ all today

theorem generateSchedule_getElem? (ageInfo : AgeInfo) (all : AllHistories) (type : Policy)
    (today : Int) (i : Nat) (v : Vaccine) (hv : VACCINE_DATA[i]? = some v) :
    (generateSchedule ageInfo all type today)[i]? =
      some (regimenRow ageInfo all type today v) := by
  rw [generateSchedule_eq_map, List.getElem?_map, hv]
  rfl

/-- Row of a regimen whose outcome is terminal. -/
theorem regimenRow_terminal (ageInfo : AgeInfo) (all : AllHistories) (type : Policy)
    (today : Int) (v : Vaccine)
    (hterm : isTerminal (ruleActionOf ageInfo all today v).action = true) :
    regimenRow ageInfo all type today v =
      { vaccineName := v.name,
        nextDoseNumber :=
          (match (ruleActionOf ageInfo all today v).nextDoseNumber with
           | some n => if n = 0 then DoseCell.dash else DoseCell.number n
           | none => DoseCell.dash),
        recommendedDate := DateCell.dash,
        remarks := orString (ruleActionOf ageInfo all today v).message
          (ruleActionOf ageInfo all today v).action.name } := by
  unfold regimenRow scheduleStep
  simp only [hterm, if_true]
  rfl

/-- A dated row only arises from an outcome that is neither terminal nor sent
to the all-doses-done row. -/
theorem regimenRow_dated (ageInfo : AgeInfo) (all : AllHistories) (type : Policy)
    (today : Int) (v : Vaccine) (d : Int)
    (hd : (regimenRow ageInfo all type today v).recommendedDate = DateCell.formatted d) :
    isTerminal (ruleActionOf ageInfo all today v).action = false ∧
      ¬ (orNat (ruleActionOf ageInfo all today v).nextDoseNumber
            (countDoses (specificHistoryOf all v) + 1) > v.doses ∧
          ¬ (v.id = VaccineId.td ∨ v.id = VaccineId.iiv) ∧
          (v.id == VaccineId.hpv &&
            (match (ruleActionOf ageInfo all today v).messageOverride with
             | some m => m != "" && includes m "2회 접종"
             | none => false)) = false) := by
  unfold regimenRow scheduleStep at hd
  simp only at hd
  split at hd
  · simp at hd
  · rename_i hnt
    split at hd
    · simp at hd
    · rename_i hc
      exact ⟨by simpa using hnt, hc⟩

/-- C9: for every regimen of the catalog and either policy, if the decision
function returns completed, skip, wait, consult or error, the row has the
placeholder `'-'` as date, the outcome's dose number if present and otherwise
`'-'`, and the outcome's message as remarks; and a row with a concrete date
only arises from a recommendNext outcome. -/
theorem terminal_outcome_row (ageInfo : AgeInfo) (all : AllHistories) (type : Policy)
    (today : Int) (i : Nat) (v : Vaccine) (hv : VACCINE_DATA[i]? = some v) :
    (isTerminal (ruleActionOf ageInfo all today v).action = true →
        ∃ m, (ruleActionOf ageInfo all today v).message = some m ∧
          (generateSchedule ageInfo all type today)[i]? =
            some { vaccineName := v.name,
                   nextDoseNumber :=
                     (match (ruleActionOf ageInfo all today v).nextDoseNumber with
                      | some n => DoseCell.number n
                      | none => DoseCell.dash),
                   recommendedDate := DateCell.dash,
                   remarks := m }) ∧
      (∀ row d, (generateSchedule ageInfo all type today)[i]? = some row →
        row.recommendedDate = DateCell.formatted d →
        (ruleActionOf ageInfo all today v).action = Action.recommendNext) := by
  have hmem : v ∈ VACCINE_DATA := List.getElem?_mem hv
  have hshape := ruleActionOf_shape ageInfo all today v hmem
  have hrow := generateSchedule_getElem? ageInfo all type today i v hv
  constructor
  · intro hterm
    obtain ⟨⟨m, hm, hne⟩, hnone⟩ := hshape.1 hterm
    refine ⟨m, hm, ?_⟩
    rw [hrow, regimenRow_terminal ageInfo all type today v hterm, hm, hnone]
    simp [orString, hne]
  · intro row d hr hd
    rw [hrow] at hr
    have hr2 : regimenRow ageInfo all type today v = row := Option.some.inj hr
    rw [← hr2] at hd
    obtain ⟨hnt, hc⟩ := regimenRow_dated ageInfo all type today v d hd
    cases hact : (ruleActionOf ageInfo all today v).action with
    | recommendNext => rfl
    | checkTd =>
      exfalso
      obtain ⟨hid, hnone, hlt⟩ := hshape.2 hact
      apply hc
      refine ⟨?_, ?_, ?_⟩
      · rw [hnone]; simp only [orNat]; omega
      · rw [hid]; decide
      · rw [hid]; rfl
    | completed => rw [hact] at hnt; simp [isTerminal] at hnt
    | skip => rw [hact] at hnt; simp [isTerminal] at hnt
    | wait => rw [hact] at hnt; simp [isTerminal] at hnt
    | consult => rw [hact] at hnt; simp [isTerminal] at hnt
    | error => rw [hact] at hnt; simp [isTerminal] at hnt

/-- Witness of C9: a two-month-old with empty histories; the BCG outcome is
consult and the first row is the dateless BCG row with the guidance text. -/
theorem terminal_outcome_row_witness :
    ∃ m,
      (ruleActionOf (calculateAgeAtDate (some (makeDay 2024 0 15)) (some (makeDay 2024 2 15)))
        (fun _ => none) (makeDay 2024 2 15) bcg).message = some m ∧
      (generateSchedule (calculateAgeAtDate (some (makeDay 2024 0 15)) (some (makeDay 2024 2 15)))
        (fun _ => none) Policy.standard (makeDay 2024 2 15))[0]? =
        some { vaccineName := bcg.name,
               nextDoseNumber :=
                 (match (ruleActionOf
                     (calculateAgeAtDate (some (makeDay 2024 0 15)) (some (makeDay 2024 2 15)))
                     (fun _ => none) (makeDay 2024 2 15) bcg).nextDoseNumber with
                  | some n => DoseCell.number n
                  | none => DoseCell.dash),
               recommendedDate := DateCell.dash,
               remarks := m } :=
  (terminal_outcome_row
    (calculateAgeAtDate (some (makeDay 2024 0 15)) (some (makeDay 2024 2 15)))
    (fun _ => none) Policy.standard (makeDay 2024 2 15) 0 bcg rfl).1 (by decide)

/-! ## Today floor -/

/-- A dated row carries a date not before today. -/
theorem regimenRow_date_ge (ageInfo : AgeInfo) (all : AllHistories) (type : Policy) (today : Int)
    (vaccine : Vaccine) (d : Int)
    (h : (regimenRow ageInfo all type today vaccine).recommendedDate = DateCell.formatted d) :
    today ≤ d := by
  unfold regimenRow scheduleStep at h
  simp only at h
  split at h
  · simp at h
  · split at h
    · simp at h
    · simp only [List.nil_append, List.headD_cons, DateCell.formatted.injEq] at h
      rw [← h]
      exact hpvAdjust_ge _ _ _ _ _ _ _ _ (todayFloor_ge _ _)

/-- C10: every row of `generateSchedule` that carries a concrete date has a
date that is not before today. -/
theorem generateSchedule_date_not_before_today (ageInfo : AgeInfo) (all : AllHistories)
    (type : Policy) (today : Int) (row : ScheduleRow) (d : Int)
    (hrow : row ∈ generateSchedule ageInfo all type today)
    (hd : row.recommendedDate = DateCell.formatted d) : today ≤ d := by
  rw [generateSchedule_eq_map] at hrow
  obtain ⟨v, _, rfl⟩ := List.mem_map.mp hrow
  exact regimenRow_date_ge ageInfo all type today v d hd

/-- Witness of C10: birth 2024-01-15, today 2024-03-15, first HepB dose recorded
on 2024-03-08; the minimum-policy HepB row recommends dose 2 on 2024-04-05. -/
theorem generateSchedule_date_not_before_today_witness :
    makeDay 2024 2 15 ≤ makeDay 2024 3 5 :=
  generateSchedule_date_not_before_today
    (calculateAgeAtDate (some (makeDay 2024 0 15)) (some (makeDay 2024 2 15)))
    (fun id => if id = VaccineId.hepB then some [some (makeDay 2024 2 8), none, none] else none)
    Policy.minimum (makeDay 2024 2 15)
    { vaccineName := "B형 간염 (HepB)", nextDoseNumber := DoseCell.number 2,
      recommendedDate := DateCell.formatted (makeDay 2024 3 5), remarks := "" }
    (makeDay 2024 3 5) (by decide) rfl

/-! ## Rows, floors and regimen rules -/

/-! ## Dated rows -/

/-- Row of a regimen whose outcome is not terminal and whose dose number does
not send it to the all-doses-done row: the projected, floored date. -/
theorem regimenRow_projected (ageInfo : AgeInfo) (all : AllHistories) (type : Policy)
    (today : Int) (v : Vaccine)
    (hnt : isTerminal (ruleActionOf ageInfo all today v).action = false)
    (hc : ¬ (orNat (ruleActionOf ageInfo all today v).nextDoseNumber
            (countDoses (specificHistoryOf all v) + 1) > v.doses ∧
          ¬ (v.id = VaccineId.td ∨ v.id = VaccineId.iiv) ∧
          (v.id == VaccineId.hpv &&
            (match (ruleActionOf ageInfo all today v).messageOverride with
             | some m => m != "" && includes m "2회 접종"
             | none => false)) = false)) :
    regimenRow ageInfo all type today v =
      { vaccineName := v.name,
        nextDoseNumber := DoseCell.number
          (orNat (ruleActionOf ageInfo all today v).nextDoseNumber
            ((lastRecorded (specificHistoryOf all v)).2 + 1)),
        recommendedDate := DateCell.formatted
          (hpvAdjust v type today (ruleActionOf ageInfo all today v)
            (lastRecorded (specificHistoryOf all v)).2
            (baseSelection v ageInfo type today (ruleActionOf ageInfo all today v)
              (lastRecorded (specificHistoryOf all v)).1
              (lastRecorded (specificHistoryOf all v)).2).2.1
            (baseSelection v ageInfo type today (ruleActionOf ageInfo all today v)
              (lastRecorded (specificHistoryOf all v)).1
              (lastRecorded (specificHistoryOf all v)).2).2.2
            (todayFloor today
              (minAgeFloor (ruleActionOf ageInfo all today v)
                (ageFloor v ageInfo type (lastRecorded (specificHistoryOf all v)).2
                  (baseSelection v ageInfo type today (ruleActionOf ageInfo all today v)
                    (lastRecorded (specificHistoryOf all v)).1
                    (lastRecorded (specificHistoryOf all v)).2).1)))),
        remarks :=
          orString (ruleActionOf ageInfo all today v).messageOverride
            (if v.id = VaccineId.td then "10년마다"
             else if v.id = VaccineId.iiv ∧
                 orNat (ruleActionOf ageInfo all today v).nextDoseNumber
                   ((lastRecorded (specificHistoryOf all v)).2 + 1) = 1 then "매년"
             else "") } := by
  unfold regimenRow scheduleStep
  simp only [hnt, Bool.false_eq_true, if_false]
  split
  · rename_i h
    exact absurd h hc
  · rfl

/-- Row of a regimen sent to the all-doses-done row. -/
theorem regimenRow_done (ageInfo : AgeInfo) (all : AllHistories) (type : Policy)
    (today : Int) (v : Vaccine)
    (hnt : isTerminal (ruleActionOf ageInfo all today v).action = false)
    (hc : orNat (ruleActionOf ageInfo all today v).nextDoseNumber
            (countDoses (specificHistoryOf all v) + 1) > v.doses ∧
          ¬ (v.id = VaccineId.td ∨ v.id = VaccineId.iiv) ∧
          (v.id == VaccineId.hpv &&
            (match (ruleActionOf ageInfo all today v).messageOverride with
             | some m => m != "" && includes m "2회 접종"
             | none => false)) = false) :
    regimenRow ageInfo all type today v =
      { vaccineName := v.name, nextDoseNumber := DoseCell.dash,
        recommendedDate := DateCell.dash, remarks := "모든 차수 완료 또는 확인 필요" } := by
  unfold regimenRow scheduleStep
  simp only [hnt, Bool.false_eq_true, if_false]
  split
  · rfl
  · rename_i h
    exact absurd hc h

theorem todayFloor_eq_max (today x : Int) : todayFloor today x = max x today := by
  unfold todayFloor
  split
  · rw [max_eq_right (by omega)]
  · rw [max_eq_left (by omega)]

theorem addWeeks_eq (d k : Int) : addTimeToDate d TimeUnit.weeks k = d + k * 7 := by
  simp only [addTimeToDate, setDate_add]

/-- Variant of `regimenRow_projected` with the dose-count test in the form met
for every regimen other than HPV. -/
theorem regimenRow_projected_of_le (ageInfo : AgeInfo) (all : AllHistories) (type : Policy)
    (today : Int) (v : Vaccine)
    (hnt : isTerminal (ruleActionOf ageInfo all today v).action = false)
    (hle : orNat (ruleActionOf ageInfo all today v).nextDoseNumber
            (countDoses (specificHistoryOf all v) + 1) ≤ v.doses ∨
          v.id = VaccineId.td ∨ v.id = VaccineId.iiv) :
    regimenRow ageInfo all type today v =
      { vaccineName := v.name,
        nextDoseNumber := DoseCell.number
          (orNat (ruleActionOf ageInfo all today v).nextDoseNumber
            ((lastRecorded (specificHistoryOf all v)).2 + 1)),
        recommendedDate := DateCell.formatted
          (hpvAdjust v type today (ruleActionOf ageInfo all today v)
            (lastRecorded (specificHistoryOf all v)).2
            (baseSelection v ageInfo type today (ruleActionOf ageInfo all today v)
              (lastRecorded (specificHistoryOf all v)).1
              (lastRecorded (specificHistoryOf all v)).2).2.1
            (baseSelection v ageInfo type today (ruleActionOf ageInfo all today v)
              (lastRecorded (specificHistoryOf all v)).1
              (lastRecorded (specificHistoryOf all v)).2).2.2
            (todayFloor today
              (minAgeFloor (ruleActionOf ageInfo all today v)
                (ageFloor v ageInfo type (lastRecorded (specificHistoryOf all v)).2
                  (baseSelection v ageInfo type today (ruleActionOf ageInfo all today v)
                    (lastRecorded (specificHistoryOf all v)).1
                    (lastRecorded (specificHistoryOf all v)).2).1)))),
        remarks :=
          orString (ruleActionOf ageInfo all today v).messageOverride
            (if v.id = VaccineId.td then "10년마다"
             else if v.id = VaccineId.iiv ∧
                 orNat (ruleActionOf ageInfo all today v).nextDoseNumber
                   ((lastRecorded (specificHistoryOf all v)).2 + 1) = 1 then "매년"
             else "") } := by
  apply regimenRow_projected ageInfo all type today v hnt
  rintro ⟨h1, h2, _⟩
  rcases hle with h | h
  · omega
  · exact h2 h

/-! ## Whole years of age and year addition -/

theorem monthStart_mono {l a b : Int} (hl : 0 ≤ l) (ha : 0 ≤ a) (hab : a ≤ b) (hb : b ≤ 11) :
    monthStart l a ≤ monthStart l b := by
  rcases month_cases ha (by omega) with h | h | h | h | h | h | h | h | h | h | h | h <;>
    subst h <;>
    rcases month_cases (show 0 ≤ b by omega) hb with
      e | e | e | e | e | e | e | e | e | e | e | e <;>
    subst e <;>
    simp only [monthStart_zero, monthStart_one, monthStart_two,
      monthStart_three, monthStart_four, monthStart_five, monthStart_six, monthStart_seven,
      monthStart_eight, monthStart_nine, monthStart_ten, monthStart_eleven] <;>
    omega

/-- A subject who has reached `k` whole years of age is past the date obtained
by adding `k` years to the birth date. -/
theorem plusYears_le_of_years_ge {b t k : Int}
    (h : k ≤ (calculateAgeAtDate (some b) (some t)).years) : plusYears b k ≤ t := by
  have hMb := getMonth_range b
  have hMt := getMonth_range t
  have hDb := getDate_range b
  have hDt := getDate_range t
  have hl := leapDay_range (getFullYear b + k)
  have hlb := leapDay_range (getFullYear b)
  have ht : t = dayFromYear (getFullYear t) + monthStart (leapDay (getFullYear t)) (getMonth t) +
      getDate t - 1 := by
    have := makeDay_self t
    rw [makeDay_of_range _ _ hMt.1 hMt.2] at this
    omega
  have hp : plusYears b k = dayFromYear (getFullYear b + k) +
      monthStart (leapDay (getFullYear b + k)) (getMonth b) + getDate b - 1 := by
    simp only [plusYears, setFullYear]
    rw [makeDay_of_range _ _ hMb.1 hMb.2]
  have hdim : getDate b ≤ daysInMonth (getFullYear b + k) (getMonth b) + 1 := by
    rcases daysInMonth_values (getFullYear b) (getMonth b) hMb.1 hMb.2 with ⟨h1, h2⟩ | ⟨_, h2⟩
    · rcases daysInMonth_values (getFullYear b + k) (getMonth b) hMb.1 hMb.2 with
        ⟨_, h4⟩ | ⟨h3, _⟩
      · omega
      · exact absurd h1 h3
    · rw [h2 _]; omega
  have hbnd := monthStart_bounds hl.1 hMb.1 hMb.2
  simp only [daysInMonth] at hdim
  -- the reference date is lexicographically past (birth year + k, birth month, birth day)
  have hlex : getFullYear b + k < getFullYear t ∨
      (getFullYear t = getFullYear b + k ∧
        (getMonth b < getMonth t ∨ (getMonth t = getMonth b ∧ getDate b ≤ getDate t))) := by
    simp only [calculateAgeAtDate] at h
    by_cases hd : getDate t - getDate b < 0
    · simp only [hd, if_true] at h
      by_cases hm : getMonth t - getMonth b - 1 < 0
      · simp only [hm, if_true] at h; omega
      · simp only [hm, if_false] at h; omega
    · simp only [hd, if_false] at h
      by_cases hm : getMonth t - getMonth b < 0
      · simp only [hm, if_true] at h; omega
      · simp only [hm, if_false] at h; omega
  rcases hlex with hy | ⟨hy, hm | ⟨hm, hd⟩⟩
  · have h1 : dayFromYear (getFullYear b + k + 1) ≤ dayFromYear (getFullYear t) :=
      dayFromYear_mono (by omega)
    rw [dayFromYear_succ] at h1
    have hlt := leapDay_range (getFullYear t)
    have h2 := (monthStart_bounds hlt.1 hMt.1 hMt.2).1
    omega
  · rw [hy] at ht
    have h3 := monthStart_mono hl.1 (show 0 ≤ getMonth b + 1 by omega)
      (show getMonth b + 1 ≤ getMonth t by omega) hMt.2
    omega
  · rw [hy, hm] at ht
    omega

/-! ## Overrides of the rule outcomes -/

theorem override_ite {id : VaccineId} {c : Prop} [Decidable c] {x y : RuleAction}
    (hx : c → OverrideShape id x) (hy : ¬ c → OverrideShape id y) :
    OverrideShape id (if c then x else y) := by
  split
  · exact hx ‹_›
  · exact hy ‹_›

theorem bcgRules_overrides (a : AgeInfo) (h : History) (all : AllHistories) (t : Int) :
    OverrideShape VaccineId.bcg (bcgRules a h all t) := by
  unfold bcgRules
  repeat' (first | (apply override_ite <;> intro _) | split)
  all_goals simp [OverrideShape]

theorem hepBRules_overrides (a : AgeInfo) (h : History) (all : AllHistories) (t : Int) :
    OverrideShape VaccineId.hepB (hepBRules a h all t) := by
  unfold hepBRules
  simp only
  repeat' (first | (apply override_ite <;> intro _) | split)
  all_goals simp [OverrideShape]

theorem dtapRules_overrides (a : AgeInfo) (h : History) (all : AllHistories) (t : Int) :
    OverrideShape VaccineId.dtap (dtapRules a h all t) := by
  unfold dtapRules
  simp only
  repeat' (first | (apply override_ite <;> intro _) | split)
  all_goals simp [OverrideShape]

theorem tdapRules_overrides (a : AgeInfo) (h : History) (all : AllHistories) (t : Int) :
    OverrideShape VaccineId.tdap (tdapRules a h all t) := by
  unfold tdapRules
  simp only
  repeat' (first | (apply override_ite <;> intro _) | split)
  all_goals simp [OverrideShape]

theorem tdRules_overrides (a : AgeInfo) (h : History) (all : AllHistories) (t : Int) :
    OverrideShape VaccineId.td (tdRules a h all t) := by
  unfold tdRules
  simp only
  repeat' (first | (apply override_ite <;> intro _) | split)
  all_goals simp [OverrideShape]

theorem ipvRules_overrides (a : AgeInfo) (h : History) (all : AllHistories) (t : Int) :
    OverrideShape VaccineId.ipv (ipvRules a h all t) := by
  unfold ipvRules
  simp only
  repeat' (first | (apply override_ite <;> intro _) | split)
  all_goals simp [OverrideShape]

theorem hibRules_overrides (a : AgeInfo) (h : History) (all : AllHistories) (t : Int) :
    OverrideShape VaccineId.hib (hibRules a h all t) := by
  unfold hibRules
  simp only
  repeat' (first | (apply override_ite <;> intro _) | split)
  all_goals simp [OverrideShape]

theorem pcvRules_overrides (a : AgeInfo) (h : History) (all : AllHistories) (t : Int) :
    OverrideShape VaccineId.pcv (pcvRules a h all t) := by
  unfold pcvRules
  simp only
  repeat' (first | (apply override_ite <;> intro _) | split)
  all_goals simp [OverrideShape]

theorem ppsv23Rules_overrides (a : AgeInfo) (h : History) (all : AllHistories) (t : Int) :
    OverrideShape VaccineId.ppsv23 (ppsv23Rules a h all t) := by
  unfold ppsv23Rules
  simp only
  repeat' (first | (apply override_ite <;> intro _) | split)
  all_goals simp [OverrideShape]

theorem rvRules_overrides (a : AgeInfo) (h : History) (all : AllHistories) (t : Int) :
    OverrideShape VaccineId.rv (rvRules a h all t) := by
  unfold rvRules
  simp only
  repeat' (first | (apply override_ite <;> intro _) | split)
  all_goals simp [OverrideShape]

theorem mmrRules_overrides (a : AgeInfo) (h : History) (all : AllHistories) (t : Int) :
    OverrideShape VaccineId.mmr (mmrRules a h all t) := by
  unfold mmrRules
  simp only
  repeat' (first | (apply override_ite <;> intro _) | split)
  all_goals simp [OverrideShape]

theorem varRules_overrides (a : AgeInfo) (h : History) (all : AllHistories) (t : Int) :
    OverrideShape VaccineId.var (varRules a h all t) := by
  unfold varRules
  simp only
  repeat' (first | (apply override_ite <;> intro _) | split)
  all_goals simp [OverrideShape]

theorem hepARules_overrides (a : AgeInfo) (h : History) (all : AllHistories) (t : Int) :
    OverrideShape VaccineId.hepA (hepARules a h all t) := by
  unfold hepARules
  simp only
  repeat' (first | (apply override_ite <;> intro _) | split)
  all_goals simp [OverrideShape]

theorem ijevRules_overrides (a : AgeInfo) (h : History) (all : AllHistories) (t : Int) :
    OverrideShape VaccineId.ijev (ijevRules a h all t) := by
  unfold ijevRules
  simp only
  repeat' (apply override_ite <;> intro _)
  all_goals simp [OverrideShape]

theorem lievRules_overrides (a : AgeInfo) (h : History) (all : AllHistories) (t : Int) :
    OverrideShape VaccineId.liev (lievRules a h all t) := by
  unfold lievRules
  simp only
  repeat' (first | (apply override_ite <;> intro _) | split)
  all_goals simp [OverrideShape]

theorem hpvRules_overrides (a : AgeInfo) (h : History) (all : AllHistories) (t : Int) :
    OverrideShape VaccineId.hpv (hpvRules a h all t) := by
  unfold hpvRules
  simp only
  repeat' (first | (apply override_ite <;> intro _) | split)
  all_goals simp [OverrideShape]

theorem iivRules_overrides (a : AgeInfo) (h : History) (all : AllHistories) (t : Int) :
    OverrideShape VaccineId.iiv (iivRules a h all t) := by
  unfold iivRules
  simp only
  repeat' (first | (apply override_ite <;> intro _) | split)
  all_goals simp [OverrideShape]

theorem ruleActionOf_overrides (ageInfo : AgeInfo) (all : AllHistories) (today : Int)
    (v : Vaccine) (hv : v ∈ VACCINE_DATA) :
    OverrideShape v.id (ruleActionOf ageInfo all today v) := by
  simp only [VACCINE_DATA, List.mem_cons, List.mem_singleton, List.not_mem_nil, or_false] at hv
  rcases hv with h | h | h | h | h | h | h | h | h | h | h | h | h | h | h | h | h <;> subst h
  · exact bcgRules_overrides ageInfo _ all today
  · exact hepBRules_overrides ageInfo _ all today
  · exact dtapRules_overrides ageInfo _ all today
  · exact tdapRules_overrides ageInfo _ all today
  · exact tdRules_overrides ageInfo _ all today
  · exact ipvRules_overrides ageInfo _ all today
  · exact hibRules_overrides ageInfo _ all today
  · exact pcvRules_overrides ageInfo _ all today
  · exact ppsv23Rules_overrides ageInfo _ all today
  · exact rvRules_overrides ageInfo _ all today
  · exact mmrRules_overrides ageInfo _ all today
  · exact varRules_overrides ageInfo _ all today
  · exact hepARules_overrides ageInfo _ all today
  · exact ijevRules_overrides ageInfo _ all today
  · exact lievRules_overrides ageInfo _ all today
  · exact hpvRules_overrides ageInfo _ all today
  · exact iivRules_overrides ageInfo _ all today

/-! ## Floors of a dated row -/

theorem todayFloor_ge_arg (today x : Int) : x ≤ todayFloor today x := by
  unfold todayFloor; split <;> omega

theorem minAgeFloor_ge_arg (ra : RuleAction) (x : Int) : x ≤ minAgeFloor ra x := by
  unfold minAgeFloor; split
  · split <;> omega
  · exact le_refl _

theorem minAgeFloor_ge_override (ra : RuleAction) (x m : Int) (h : ra.minAgeOverride = some m) :
    m ≤ minAgeFloor ra x := by
  unfold minAgeFloor; rw [h]; simp only; split <;> omega

/-- The HPV adjustments only raise the date, except for the replacement made
for HPV after exactly one dose when an interval descriptor is in force. -/
theorem hpvAdjust_ge_arg (v : Vaccine) (type : Policy) (today : Int) (ra : RuleAction)
    (n : Nat) (base : Option Int) (ic : Option IntervalConfig) (x : Int)
    (h : ic = none ∨ v.id ≠ VaccineId.hpv ∨ n ≠ 1) :
    x ≤ hpvAdjust v type today ra n base ic x := by
  unfold hpvAdjust
  cases ic with
  | none =>
    simp only
    cases ra.minDateOverride with
    | none => exact le_refl _
    | some m => simp only [todayFloor]; split_ifs <;> omega
  | some c =>
    have hcond : ¬ (v.id = VaccineId.hpv ∧ n = 1 ∧ c.months = some 6 ∧ c.minMonths = some 5 ∧
        type = Policy.minimum) := by
      rintro ⟨h1, h2, _⟩
      rcases h with h | h | h
      · simp at h
      · exact h h1
      · exact h h2
    cases base with
    | none =>
      simp only
      cases ra.minDateOverride with
      | none => exact le_refl _
      | some m => simp only [todayFloor]; split_ifs <;> omega
    | some b =>
      simp only [hcond, if_false]
      cases ra.minDateOverride with
      | none => exact le_refl _
      | some m => simp only [todayFloor]; split_ifs <;> omega

theorem arrayGet_mem {α : Type} {l : List α} {i : Int} {c : α} (h : arrayGet l i = some c) :
    c ∈ l := by
  unfold arrayGet at h
  split at h
  · simp at h
  · exact List.get?_mem h

/-- The age floor only raises the date when no timing entry combines a month
offset with a recommended upper age. -/
theorem ageFloor_ge_arg (v : Vaccine) (ageInfo : AgeInfo) (type : Policy) (n : Nat) (x : Int)
    (hv : ∀ c ∈ v.standardIntervals, ¬ (truthy c.months = true ∧
      truthy c.recommendedAgeMonths = true)) :
    x ≤ ageFloor v ageInfo type n x := by
  unfold ageFloor
  split
  · rename_i c hc
    have hcm := hv c (arrayGet_mem hc)
    split
    · simp only; split <;> omega
    · split
      · simp only; split <;> omega
      · split
        · rename_i h3
          have hr : ¬ truthy c.recommendedAgeMonths = true := fun h => hcm ⟨h3.1, h⟩
          simp only [hr, Bool.false_eq_true, if_false]
          split <;> omega
        · exact le_refl _
  · exact le_refl _

/-- The age floor is at least the absolute age declared for the entry. -/
theorem ageFloor_ge_age (v : Vaccine) (ageInfo : AgeInfo) (type : Policy) (n : Nat) (x : Int)
    (c : IntervalConfig) (hc : arrayGet v.standardIntervals n = some c) :
    (truthy c.ageYears = true →
        plusYears (newDate ageInfo.birthDate) (c.ageYears.getD 0) ≤
          ageFloor v ageInfo type n x) ∧
      (truthy c.ageYears = false → truthy c.ageMonths = true →
        plusMonths (newDate ageInfo.birthDate) (c.ageMonths.getD 0) ≤
          ageFloor v ageInfo type n x) := by
  unfold ageFloor
  rw [hc]
  simp only [plusYears, plusMonths]
  constructor
  · intro h
    simp only [h, if_true]
    split <;> omega
  · intro h1 h2
    simp only [h1, h2, Bool.false_eq_true, if_false, if_true]
    split <;> omega

theorem catalog_no_upper_age (v : Vaccine) (hv : v ∈ VACCINE_DATA) :
    ∀ c ∈ v.standardIntervals, ¬ (truthy c.months = true ∧
      truthy c.recommendedAgeMonths = true) := by
  simp only [VACCINE_DATA, List.mem_cons, List.mem_singleton, List.not_mem_nil, or_false] at hv
  rcases hv with h | h | h | h | h | h | h | h | h | h | h | h | h | h | h | h | h <;> subst h <;>
    decide

theorem baseSelection_interval (v : Vaccine) (ageInfo : AgeInfo) (type : Policy) (today : Int)
    (ra : RuleAction) (last : Option Int) (n : Nat)
    (h : ra.recommendedDateOverride ≠ none ∨ ra.minDateOverride ≠ none) :
    (baseSelection v ageInfo type today ra last n).2.2 = none := by
  unfold baseSelection
  cases h1 : ra.recommendedDateOverride with
  | some r => rfl
  | none =>
    cases h2 : ra.minDateOverride with
    | some r => rfl
    | none =>
      rcases h with h | h
      · exact absurd h1 h
      · exact absurd h2 h

theorem baseSelection_minDate (v : Vaccine) (ageInfo : AgeInfo) (type : Policy) (today : Int)
    (ra : RuleAction) (last : Option Int) (n : Nat) (m : Int)
    (h1 : ra.recommendedDateOverride = none) (h2 : ra.minDateOverride = some m) :
    (baseSelection v ageInfo type today ra last n).1 = m := by
  unfold baseSelection
  rw [h1, h2]

/-! ## HepB -/

/-- C12: for HepB with doses 1 and 2 recorded on `d1` and `d2` and dose 3 empty,
the decision function returns recommendNext for dose 3 with `minDateOverride`
the maximum of birth + 24 weeks, `d1` + 16 weeks and `d2` + 8 weeks, and the
HepB row under either policy is dose 3 dated the later of that override and
today. -/
theorem hepB_third_dose (ageInfo : AgeInfo) (all : AllHistories) (type : Policy)
    (today b d1 d2 : Int) (hb : ageInfo.birthDate = some b)
    (hh : all VaccineId.hepB = some [some d1, some d2, none]) :
    ruleActionOf ageInfo all today hepB =
        { action := Action.recommendNext, nextDoseNumber := some 3,
          minDateOverride := some (max (b + 24 * 7) (max (d1 + 16 * 7) (d2 + 8 * 7))) } ∧
      (generateSchedule ageInfo all type today)[1]? =
        some { vaccineName := "B형 간염 (HepB)", nextDoseNumber := DoseCell.number 3,
               recommendedDate := DateCell.formatted
                 (max (max (b + 24 * 7) (max (d1 + 16 * 7) (d2 + 8 * 7))) today),
               remarks := "" } := by
  have hra : ruleActionOf ageInfo all today hepB =
      { action := Action.recommendNext, nextDoseNumber := some 3,
        minDateOverride := some (max (b + 24 * 7) (max (d1 + 16 * 7) (d2 + 8 * 7))) } := by
    simp [ruleActionOf, hepB, specificHistoryOf, hh, hepBRules, countDoses, slot, hb, newDate,
      plusDays_eq]
  have hsh : specificHistoryOf all hepB = [some d1, some d2, none] := by
    simp [specificHistoryOf, hepB, hh]
  refine ⟨hra, ?_⟩
  rw [generateSchedule_getElem? ageInfo all type today 1 hepB rfl,
    regimenRow_projected_of_le ageInfo all type today hepB (by rw [hra]; rfl)
      (by left; rw [hra]; simp [orNat, hepB])]
  simp only [hra, hsh]
  simp [hepB, lastRecorded, scanLast, orNat, baseSelection,
    ageFloor, arrayGet, truthy, minAgeFloor, hpvAdjust, todayFloor_eq_max, orString]

/-- Witness of C12: birth 2024-01-01, doses on 2024-02-01 and 2024-03-01, today
2024-04-01; the third dose is due on 2024-06-17 (birth + 24 weeks). -/
theorem hepB_third_dose_witness :
    ruleActionOf (calculateAgeAtDate (some (makeDay 2024 0 1)) (some (makeDay 2024 3 1)))
        (fun id => if id = VaccineId.hepB then
          some [some (makeDay 2024 1 1), some (makeDay 2024 2 1), none] else none)
        (makeDay 2024 3 1) hepB =
        { action := Action.recommendNext, nextDoseNumber := some 3,
          minDateOverride := some (max (makeDay 2024 0 1 + 24 * 7)
            (max (makeDay 2024 1 1 + 16 * 7) (makeDay 2024 2 1 + 8 * 7))) } ∧
      (generateSchedule (calculateAgeAtDate (some (makeDay 2024 0 1)) (some (makeDay 2024 3 1)))
        (fun id => if id = VaccineId.hepB then
          some [some (makeDay 2024 1 1), some (makeDay 2024 2 1), none] else none)
        Policy.standard (makeDay 2024 3 1))[1]? =
        some { vaccineName := "B형 간염 (HepB)", nextDoseNumber := DoseCell.number 3,
               recommendedDate := DateCell.formatted
                 (max (max (makeDay 2024 0 1 + 24 * 7)
                   (max (makeDay 2024 1 1 + 16 * 7) (makeDay 2024 2 1 + 8 * 7)))
                   (makeDay 2024 3 1)),
               remarks := "" } :=
  hepB_third_dose (calculateAgeAtDate (some (makeDay 2024 0 1)) (some (makeDay 2024 3 1)))
    (fun id => if id = VaccineId.hepB then
      some [some (makeDay 2024 1 1), some (makeDay 2024 2 1), none] else none)
    Policy.standard (makeDay 2024 3 1) (makeDay 2024 0 1) (makeDay 2024 1 1) (makeDay 2024 2 1)
    rfl rfl

/-- C13: for HepB with only dose 1 recorded on `d1`, the minimum-policy row
recommends dose 2 on the later of `d1` + 4 weeks and today; when `d1` is
exactly 4 weeks before today the recommended date is today. -/
theorem hepB_second_dose_minimum (ageInfo : AgeInfo) (all : AllHistories) (today d1 : Int)
    (hh : all VaccineId.hepB = some [some d1, none, none]) :
    (generateSchedule ageInfo all Policy.minimum today)[1]? =
        some { vaccineName := "B형 간염 (HepB)", nextDoseNumber := DoseCell.number 2,
               recommendedDate := DateCell.formatted (max (d1 + 4 * 7) today),
               remarks := "" } ∧
      (d1 + 4 * 7 = today →
        (generateSchedule ageInfo all Policy.minimum today)[1]? =
          some { vaccineName := "B형 간염 (HepB)", nextDoseNumber := DoseCell.number 2,
                 recommendedDate := DateCell.formatted today, remarks := "" }) := by
  have hsh : specificHistoryOf all hepB = [some d1, none, none] := by
    simp [specificHistoryOf, hepB, hh]
  have hra : ruleActionOf ageInfo all today hepB =
      { action := Action.recommendNext, nextDoseNumber := some 2 } := by
    show hepBRules ageInfo (specificHistoryOf all hepB) all today = _
    rw [hsh]
    simp [hepBRules, countDoses]
  have hrow : (generateSchedule ageInfo all Policy.minimum today)[1]? =
      some { vaccineName := "B형 간염 (HepB)", nextDoseNumber := DoseCell.number 2,
             recommendedDate := DateCell.formatted (max (d1 + 4 * 7) today),
             remarks := "" } := by
    rw [generateSchedule_getElem? ageInfo all Policy.minimum today 1 hepB rfl,
      regimenRow_projected_of_le ageInfo all Policy.minimum today hepB (by rw [hra]; rfl)
        (by left; rw [hra]; simp [orNat, hepB])]
    simp only [hra, hsh]
    simp [hepB, lastRecorded, scanLast, orNat, baseSelection, chooseInterval, applyInterval,
      addWeeks_eq, ageFloor, arrayGet, truthy, minAgeFloor, hpvAdjust, todayFloor_eq_max,
      orString]
  refine ⟨hrow, ?_⟩
  intro he
  rw [hrow, he, max_self]

/-- Witness of C13: dose 1 on 2024-03-04, today 2024-04-01 (exactly 4 weeks
later); the minimum-policy row recommends dose 2 today. -/
theorem hepB_second_dose_minimum_witness :
    (generateSchedule (calculateAgeAtDate (some (makeDay 2024 0 1)) (some (makeDay 2024 3 1)))
      (fun id => if id = VaccineId.hepB then some [some (makeDay 2024 2 4), none, none] else none)
      Policy.minimum (makeDay 2024 3 1))[1]? =
      some { vaccineName := "B형 간염 (HepB)", nextDoseNumber := DoseCell.number 2,
             recommendedDate := DateCell.formatted (makeDay 2024 3 1), remarks := "" } :=
  (hepB_second_dose_minimum
    (calculateAgeAtDate (some (makeDay 2024 0 1)) (some (makeDay 2024 3 1)))
    (fun id => if id = VaccineId.hepB then some [some (makeDay 2024 2 4), none, none] else none)
    (makeDay 2024 3 1) (makeDay 2024 2 4) rfl).2 (by decide)

/-! ## Decision functions of Hib, DTaP and IPV -/

/-- C14: for Hib with the subject under 5 years old and dose 1 recorded on
`d1`, the required dose count `R` is 3 if the age at dose 1 is in [7, 12) total
months, 2 if in [12, 15), 1 if in [15, 60) and 4 otherwise; the outcome is
completed if and only if the number of recorded doses is at least `R`, and
otherwise it is recommendNext for dose (recorded count + 1). -/
theorem hib_required_doses (ageInfo : AgeInfo) (history : History) (all : AllHistories)
    (today d1 : Int) (R : Nat) (hy : ageInfo.years < 5) (h1 : slot history 0 = some d1)
    (hR : R =
      if 7 ≤ (calculateAgeAtDate ageInfo.birthDate (some d1)).totalMonths ∧
          (calculateAgeAtDate ageInfo.birthDate (some d1)).totalMonths < 12 then 3
      else if 12 ≤ (calculateAgeAtDate ageInfo.birthDate (some d1)).totalMonths ∧
          (calculateAgeAtDate ageInfo.birthDate (some d1)).totalMonths < 15 then 2
      else if 15 ≤ (calculateAgeAtDate ageInfo.birthDate (some d1)).totalMonths ∧
          (calculateAgeAtDate ageInfo.birthDate (some d1)).totalMonths < 60 then 1
      else 4) :
    ((hibRules ageInfo history all today).action = Action.completed ↔ R ≤ countDoses history) ∧
      (countDoses history < R →
        (hibRules ageInfo history all today).action = Action.recommendNext ∧
          (hibRules ageInfo history all today).nextDoseNumber =
            some (countDoses history + 1)) := by
  have hR2 : hibRequiredDoses (calculateAgeAtDate ageInfo.birthDate (some d1)).totalMonths = R := by
    rw [hR]; simp only [hibRequiredDoses, ge_iff_le]
  have hny : ¬ ageInfo.years ≥ 5 := by omega
  unfold hibRules
  simp only [hny, if_false, h1, hR2]
  by_cases hc : countDoses history ≥ R
  · simp only [hc, if_true]
    exact ⟨by simp, fun h => by omega⟩
  · simp only [hc, if_false]
    by_cases h3 : countDoses history = 3 ∧ R = 4
    · simp only [h3, and_self, if_true]
      exact ⟨by simp, fun _ => by simp [h3.1]⟩
    · simp only [h3, if_false]
      exact ⟨by simp, fun _ => by simp⟩

/-- Witness of C14: birth 2023-01-01, only dose 1 recorded on 2023-09-01 (age
8 months, so 3 doses are required), today 2024-01-01. -/
theorem hib_required_doses_witness :
    ((hibRules (calculateAgeAtDate (some (makeDay 2023 0 1)) (some (makeDay 2024 0 1)))
        [some (makeDay 2023 8 1), none, none, none] (fun _ => none) (makeDay 2024 0 1)).action =
        Action.completed ↔ 3 ≤ countDoses [some (makeDay 2023 8 1), none, none, none]) ∧
      (countDoses [some (makeDay 2023 8 1), none, none, none] < 3 →
        (hibRules (calculateAgeAtDate (some (makeDay 2023 0 1)) (some (makeDay 2024 0 1)))
          [some (makeDay 2023 8 1), none, none, none] (fun _ => none)
          (makeDay 2024 0 1)).action = Action.recommendNext ∧
        (hibRules (calculateAgeAtDate (some (makeDay 2023 0 1)) (some (makeDay 2024 0 1)))
          [some (makeDay 2023 8 1), none, none, none] (fun _ => none)
          (makeDay 2024 0 1)).nextDoseNumber =
          some (countDoses [some (makeDay 2023 8 1), none, none, none] + 1)) :=
  hib_required_doses (calculateAgeAtDate (some (makeDay 2023 0 1)) (some (makeDay 2024 0 1)))
    [some (makeDay 2023 8 1), none, none, none] (fun _ => none) (makeDay 2024 0 1)
    (makeDay 2023 8 1) 3 (by decide) rfl (by decide)

/-- C16: for DTaP with doses 1 to 4 recorded and dose 5 empty, the outcome is
completed (dose 5 waived) if and only if the age in whole years at the date of
dose 4 is at least 4; otherwise it is recommendNext for dose 5. -/
theorem dtap_fifth_dose_waiver (ageInfo : AgeInfo) (all : AllHistories)
    (today d1 d2 d3 d4 : Int) :
    ((dtapRules ageInfo [some d1, some d2, some d3, some d4, none] all today).action =
        Action.completed ↔ 4 ≤ (calculateAgeAtDate ageInfo.birthDate (some d4)).years) ∧
      (¬ 4 ≤ (calculateAgeAtDate ageInfo.birthDate (some d4)).years →
        (dtapRules ageInfo [some d1, some d2, some d3, some d4, none] all today).action =
          Action.recommendNext ∧
        (dtapRules ageInfo [some d1, some d2, some d3, some d4, none] all today).nextDoseNumber =
          some 5) := by
  by_cases h : 4 ≤ (calculateAgeAtDate ageInfo.birthDate (some d4)).years
  · simp [dtapRules, countDoses, slot, h]
  · simp [dtapRules, countDoses, slot, h]

/-- C17: for IPV with doses 1 to 3 recorded and dose 4 empty, the outcome is
completed if and only if the age in whole years at dose 3 is at least 4 and
`diffInMonths(dose 2, dose 3)` is at least 6; otherwise it is recommendNext
for dose 4. -/
theorem ipv_third_dose_completion (ageInfo : AgeInfo) (all : AllHistories)
    (today d1 d2 d3 : Int) :
    ((ipvRules ageInfo [some d1, some d2, some d3, none] all today).action =
        Action.completed ↔
        (4 ≤ (calculateAgeAtDate ageInfo.birthDate (some d3)).years ∧
          6 ≤ diffInMonths (some d2) (some d3))) ∧
      (¬ (4 ≤ (calculateAgeAtDate ageInfo.birthDate (some d3)).years ∧
          6 ≤ diffInMonths (some d2) (some d3)) →
        (ipvRules ageInfo [some d1, some d2, some d3, none] all today).action =
          Action.recommendNext ∧
        (ipvRules ageInfo [some d1, some d2, some d3, none] all today).nextDoseNumber =
          some 4) := by
  by_cases h : 4 ≤ (calculateAgeAtDate ageInfo.birthDate (some d3)).years ∧
      6 ≤ diffInMonths (some d2) (some d3)
  · simp [ipvRules, countDoses, slot, h]
  · simp only [not_and] at h
    by_cases h4 : 4 ≤ (calculateAgeAtDate ageInfo.birthDate (some d3)).years
    · have := h h4
      simp [ipvRules, countDoses, slot, h4, this]
    · simp [ipvRules, countDoses, slot, h4]

/-- Witness of C16: birth 2018-01-01, fourth DTaP dose on 2022-03-01, at the age
of 4 years: the outcome is completed. -/
theorem dtap_fifth_dose_waiver_witness :
    (dtapRules (calculateAgeAtDate (some (makeDay 2018 0 1)) (some (makeDay 2022 5 1)))
      [some (makeDay 2018 2 1), some (makeDay 2018 4 1), some (makeDay 2018 6 1),
        some (makeDay 2022 2 1), none] (fun _ => none) (makeDay 2022 5 1)).action =
      Action.completed :=
  (dtap_fifth_dose_waiver
    (calculateAgeAtDate (some (makeDay 2018 0 1)) (some (makeDay 2022 5 1))) (fun _ => none)
    (makeDay 2022 5 1) (makeDay 2018 2 1) (makeDay 2018 4 1) (makeDay 2018 6 1)
    (makeDay 2022 2 1)).1.mpr (by decide)

/-- Witness of C17: birth 2018-01-01, IPV doses on 2018-03-01, 2018-05-01 and
2019-01-01 (third dose at the age of 1 year): the outcome is recommendNext for
dose 4. -/
theorem ipv_third_dose_completion_witness :
    (ipvRules (calculateAgeAtDate (some (makeDay 2018 0 1)) (some (makeDay 2019 5 1)))
      [some (makeDay 2018 2 1), some (makeDay 2018 4 1), some (makeDay 2019 0 1), none]
      (fun _ => none) (makeDay 2019 5 1)).action = Action.recommendNext ∧
    (ipvRules (calculateAgeAtDate (some (makeDay 2018 0 1)) (some (makeDay 2019 5 1)))
      [some (makeDay 2018 2 1), some (makeDay 2018 4 1), some (makeDay 2019 0 1), none]
      (fun _ => none) (makeDay 2019 5 1)).nextDoseNumber = some 4 :=
  (ipv_third_dose_completion
    (calculateAgeAtDate (some (makeDay 2018 0 1)) (some (makeDay 2019 5 1))) (fun _ => none)
    (makeDay 2019 5 1) (makeDay 2018 2 1) (makeDay 2018 4 1) (makeDay 2019 0 1)).2 (by decide)

/-! ## IJEV: age-anchored doses 4 and 5 -/

theorem ijev_outcome_dose4 (ageInfo : AgeInfo) (all : AllHistories) (today b d1 d2 d3 : Int)
    (hb : ageInfo.birthDate = some b)
    (h1 : (calculateAgeAtDate (some b) (some d1)).years < 11)
    (h3 : (calculateAgeAtDate (some b) (some d3)).years < 10) :
    ijevRules ageInfo [some d1, some d2, some d3, none, none] all today =
      { action := Action.recommendNext, nextDoseNumber := some 4,
        recommendedDateOverride := some (plusYears b 6) } := by
  have hn1 : ¬ 11 ≤ (calculateAgeAtDate (some b) (some d1)).years := by omega
  have hn3 : ¬ 10 ≤ (calculateAgeAtDate (some b) (some d3)).years := by omega
  simp [ijevRules, countDoses, slot, firstDose, hb, newDate, hn1, hn3]

theorem ijev_outcome_dose5 (ageInfo : AgeInfo) (all : AllHistories) (today b d1 d2 d3 d4 : Int)
    (hb : ageInfo.birthDate = some b)
    (h1 : (calculateAgeAtDate (some b) (some d1)).years < 11)
    (h3 : (calculateAgeAtDate (some b) (some d3)).years < 10)
    (h4 : (calculateAgeAtDate (some b) (some d4)).years < 10) :
    ijevRules ageInfo [some d1, some d2, some d3, some d4, none] all today =
      { action := Action.recommendNext, nextDoseNumber := some 5,
        recommendedDateOverride := some (plusYears b 12) } := by
  have hn1 : ¬ 11 ≤ (calculateAgeAtDate (some b) (some d1)).years := by omega
  have hn3 : ¬ 10 ≤ (calculateAgeAtDate (some b) (some d3)).years := by omega
  have hn4 : ¬ 10 ≤ (calculateAgeAtDate (some b) (some d4)).years := by omega
  simp [ijevRules, countDoses, slot, firstDose, hb, newDate, hn1, hn3, hn4]

/-- C18: IJEV doses 4 and 5 are age-anchored.  With the first dose given before
age 11, doses 1 to 3 recorded (dose 3 before age 10) and dose 4 empty, the row
under either policy recommends dose 4 on the later of birth + 6 years and
today; with doses 1 to 4 recorded (doses 3 and 4 before age 10) and dose 5
empty it recommends dose 5 on the later of birth + 12 years and today.  The
dates of the previous doses do not occur in the result. -/
theorem ijev_age_anchored_doses (ageInfo : AgeInfo) (all : AllHistories) (type : Policy)
    (today b d1 d2 d3 : Int) (hb : ageInfo.birthDate = some b)
    (h1 : (calculateAgeAtDate (some b) (some d1)).years < 11)
    (h3 : (calculateAgeAtDate (some b) (some d3)).years < 10) :
    (all VaccineId.ijev = some [some d1, some d2, some d3, none, none] →
        (generateSchedule ageInfo all type today)[13]? =
          some { vaccineName := "일본뇌염 불활성화 (IJEV)", nextDoseNumber := DoseCell.number 4,
                 recommendedDate := DateCell.formatted (max (plusYears b 6) today),
                 remarks := "" }) ∧
      (∀ d4, (calculateAgeAtDate (some b) (some d4)).years < 10 →
        all VaccineId.ijev = some [some d1, some d2, some d3, some d4, none] →
        (generateSchedule ageInfo all type today)[13]? =
          some { vaccineName := "일본뇌염 불활성화 (IJEV)", nextDoseNumber := DoseCell.number 5,
                 recommendedDate := DateCell.formatted (max (plusYears b 12) today),
                 remarks := "" }) := by
  constructor
  · intro hh
    have hsh : specificHistoryOf all ijev = [some d1, some d2, some d3, none, none] := by
      simp [specificHistoryOf, ijev, hh]
    have hra : ruleActionOf ageInfo all today ijev =
        { action := Action.recommendNext, nextDoseNumber := some 4,
          recommendedDateOverride := some (plusYears b 6) } := by
      show ijevRules ageInfo (specificHistoryOf all ijev) all today = _
      rw [hsh]
      exact ijev_outcome_dose4 ageInfo all today b d1 d2 d3 hb h1 h3
    rw [generateSchedule_getElem? ageInfo all type today 13 ijev rfl,
      regimenRow_projected_of_le ageInfo all type today ijev (by rw [hra]; rfl)
        (by left; rw [hra]; simp [orNat, ijev])]
    simp only [hra, hsh]
    simp [ijev, lastRecorded, scanLast, orNat, baseSelection, ageFloor, arrayGet, truthy,
      minAgeFloor, hpvAdjust, todayFloor_eq_max, orString, hb, newDate, plusYears]
  · intro d4 h4 hh
    have hsh : specificHistoryOf all ijev = [some d1, some d2, some d3, some d4, none] := by
      simp [specificHistoryOf, ijev, hh]
    have hra : ruleActionOf ageInfo all today ijev =
        { action := Action.recommendNext, nextDoseNumber := some 5,
          recommendedDateOverride := some (plusYears b 12) } := by
      show ijevRules ageInfo (specificHistoryOf all ijev) all today = _
      rw [hsh]
      exact ijev_outcome_dose5 ageInfo all today b d1 d2 d3 d4 hb h1 h3 h4
    rw [generateSchedule_getElem? ageInfo all type today 13 ijev rfl,
      regimenRow_projected_of_le ageInfo all type today ijev (by rw [hra]; rfl)
        (by left; rw [hra]; simp [orNat, ijev])]
    simp only [hra, hsh]
    simp [ijev, lastRecorded, scanLast, orNat, baseSelection, ageFloor, arrayGet, truthy,
      minAgeFloor, hpvAdjust, todayFloor_eq_max, orString, hb, newDate, plusYears]

/-- Witness of C18: birth 2015-01-01, IJEV doses on 2016-01-10, 2016-02-10 and
2017-01-10; on 2019-06-01 the row recommends dose 4 on the sixth birthday. -/
theorem ijev_age_anchored_doses_witness :
    (generateSchedule (calculateAgeAtDate (some (makeDay 2015 0 1)) (some (makeDay 2019 5 1)))
      (fun id => if id = VaccineId.ijev then
        some [some (makeDay 2016 0 10), some (makeDay 2016 1 10), some (makeDay 2017 0 10),
          none, none]
        else none)
      Policy.standard (makeDay 2019 5 1))[13]? =
      some { vaccineName := "일본뇌염 불활성화 (IJEV)", nextDoseNumber := DoseCell.number 4,
             recommendedDate :=
               DateCell.formatted (max (plusYears (makeDay 2015 0 1) 6) (makeDay 2019 5 1)),
             remarks := "" } :=
  (ijev_age_anchored_doses
    (calculateAgeAtDate (some (makeDay 2015 0 1)) (some (makeDay 2019 5 1)))
    (fun id => if id = VaccineId.ijev then
      some [some (makeDay 2016 0 10), some (makeDay 2016 1 10), some (makeDay 2017 0 10),
        none, none]
      else none)
    Policy.standard (makeDay 2019 5 1) (makeDay 2015 0 1) (makeDay 2016 0 10)
    (makeDay 2016 1 10) (makeDay 2017 0 10) rfl (by decide) (by decide)).1 rfl

/-! ## Tdap and Td -/

theorem lastDose_eq_none_iff (h : History) : lastDose h = none ↔ countDoses h = 0 := by
  unfold lastDose countDoses
  rw [List.getLast?_eq_none_iff, List.length_eq_zero]
  induction h with
  | nil => simp
  | cons x rest ih =>
    cases x with
    | none => simp [ih]
    | some d => simp

/-- C19: for Tdap with no Tdap dose recorded and the age snapshot taken today:
the outcome is wait if the subject is younger than 11 whole years; it is wait
if the subject is at least 11, some DTaP dose is recorded and today is before
the date in the last filled DTaP slot plus 5 years; in every other case the
outcome is recommendNext for dose 1 and the row under either policy is dated
today. -/
theorem tdap_first_dose (ageInfo : AgeInfo) (all : AllHistories) (today b : Int)
    (hA : ageInfo = calculateAgeAtDate (some b) (some today))
    (hh : specificHistoryOf all tdap = [none]) :
    (ageInfo.years < 11 → (ruleActionOf ageInfo all today tdap).action = Action.wait) ∧
      (∀ L, 11 ≤ ageInfo.years → lastDose (specificHistoryOf all dtap) = some L →
        today < plusYears L 5 → (ruleActionOf ageInfo all today tdap).action = Action.wait) ∧
      (11 ≤ ageInfo.years →
        (lastDose (specificHistoryOf all dtap) = none ∨
          ∃ L, lastDose (specificHistoryOf all dtap) = some L ∧ plusYears L 5 ≤ today) →
        (ruleActionOf ageInfo all today tdap).action = Action.recommendNext ∧
          (ruleActionOf ageInfo all today tdap).nextDoseNumber = some 1 ∧
          ∀ type, (generateSchedule ageInfo all type today)[3]? =
            some { vaccineName := "파상풍·디프테리아·백일해 (Tdap)",
                   nextDoseNumber := DoseCell.number 1,
                   recommendedDate := DateCell.formatted today, remarks := "" }) := by
  have hdt : (all VaccineId.dtap).getD [none, none, none, none, none] =
      specificHistoryOf all dtap := rfl
  have hrule : ruleActionOf ageInfo all today tdap = tdapRules ageInfo [none] all today := by
    show tdapRules ageInfo (specificHistoryOf all tdap) all today = _
    rw [hh]
  refine ⟨?_, ?_, ?_⟩
  · intro hy
    have hn : ¬ 11 ≤ ageInfo.years := by omega
    rw [hrule]
    simp [tdapRules, countDoses, hn]
  · intro L hy hL hlt
    rw [hrule]
    simp [tdapRules, countDoses, hy, hdt, hL, hlt]
  · intro hy hcase
    have hra : ruleActionOf ageInfo all today tdap =
        { action := Action.recommendNext, nextDoseNumber := some 1 } := by
      rw [hrule]
      rcases hcase with hnone | ⟨L, hL, hle⟩
      · simp [tdapRules, countDoses, hy, hdt, hnone]
      · have hnl : ¬ today < plusYears L 5 := by omega
        simp [tdapRules, countDoses, hy, hdt, hL, hnl]
    refine ⟨by rw [hra], by rw [hra], ?_⟩
    intro type
    have hbirth : ageInfo.birthDate = some b := by rw [hA]; rfl
    have hfloor : plusYears b 11 ≤ today := by
      apply plusYears_le_of_years_ge
      rw [← hA]; exact hy
    simp only [plusYears] at hfloor
    rw [generateSchedule_getElem? ageInfo all type today 3 tdap rfl,
      regimenRow_projected_of_le ageInfo all type today tdap (by rw [hra]; rfl)
        (by left; rw [hra]; simp [orNat, tdap])]
    simp only [hra, hh]
    cases type <;>
      simp [tdap, lastRecorded, scanLast, orNat, baseSelection, firstDoseDate, ageFloor,
        arrayGet, truthy, minAgeFloor, hpvAdjust, todayFloor, orString, hbirth, newDate] <;>
      omega

theorem ageFloor_td (ageInfo : AgeInfo) (type : Policy) (n : Nat) (x : Int) :
    ageFloor td ageInfo type n x = x := by
  cases n with
  | zero => simp [ageFloor, td, arrayGet, truthy]
  | succ k =>
    have : arrayGet td.standardIntervals ((k + 1 : Nat) : Int) = none := by
      simp only [arrayGet, td]
      have h0 : ¬ (((k + 1 : Nat) : Int) < 0) := by omega
      simp [h0]
    simp only [ageFloor, this]

/-- C20: for Td the outcome is consult if and only if neither a Td nor a Tdap
dose is recorded; otherwise, with `L` the last recorded Td date if any and else
the last recorded Tdap date, the outcome is wait if and only if today is before
`L` + 10 years, and otherwise the row under either policy recommends dose
(recorded Td count + 1), whatever the nominal dose count, dated today with the
remark `10년마다`. -/
theorem td_booster (ageInfo : AgeInfo) (all : AllHistories) (today : Int) :
    ((ruleActionOf ageInfo all today td).action = Action.consult ↔
        (countDoses (specificHistoryOf all td) = 0 ∧
          countDoses (specificHistoryOf all tdap) = 0)) ∧
      (∀ L, (lastDose (specificHistoryOf all td)).or (lastDose (specificHistoryOf all tdap)) =
          some L →
        ((ruleActionOf ageInfo all today td).action = Action.wait ↔ today < plusYears L 10) ∧
          (¬ today < plusYears L 10 →
            ∀ type, (generateSchedule ageInfo all type today)[4]? =
              some { vaccineName := "파상풍·디프테리아 (Td)",
                     nextDoseNumber :=
                       DoseCell.number (countDoses (specificHistoryOf all td) + 1),
                     recommendedDate := DateCell.formatted today,
                     remarks := "10년마다" })) := by
  have htdap : (all VaccineId.tdap).getD [none] = specificHistoryOf all tdap := rfl
  have hrule : ruleActionOf ageInfo all today td =
      tdRules ageInfo (specificHistoryOf all td) all today := rfl
  constructor
  · rw [hrule, ← lastDose_eq_none_iff, ← lastDose_eq_none_iff]
    simp only [tdRules, htdap]
    cases h1 : lastDose (specificHistoryOf all td) with
    | some d => simp only; split <;> simp
    | none =>
      cases h2 : lastDose (specificHistoryOf all tdap) with
      | some d => simp only; split <;> simp
      | none => simp
  · intro L hL
    have hra : ruleActionOf ageInfo all today td =
        if today ≥ plusYears L 10 then
          { action := Action.recommendNext,
            nextDoseNumber := some (countDoses (specificHistoryOf all td) + 1),
            recommendedDateOverride := some (plusYears L 10) }
        else
          { action := Action.wait,
            message := some ("다음 Td 권장일: " ++ formatDate (plusYears L 10)) } := by
      rw [hrule]
      simp only [tdRules, htdap]
      cases h1 : lastDose (specificHistoryOf all td) with
      | some d =>
        rw [h1] at hL
        simp only [Option.or] at hL
        cases hL
        rfl
      | none =>
        rw [h1] at hL
        simp only [Option.or] at hL
        rw [hL]
    constructor
    · rw [hra]
      by_cases hge : today ≥ plusYears L 10
      · simp only [hge, if_true]
        constructor
        · intro h; simp at h
        · intro h; omega
      · simp only [hge, if_false]
        constructor
        · intro _; omega
        · intro _; trivial
    · intro hnlt type
      have hge : today ≥ plusYears L 10 := by omega
      simp only [hge, if_true] at hra
      rw [generateSchedule_getElem? ageInfo all type today 4 td rfl,
        regimenRow_projected_of_le ageInfo all type today td (by rw [hra]; rfl)
          (by right; left; rfl)]
      simp only [hra, ageFloor_td]
      have hid : td.id = VaccineId.td := rfl
      have hname : td.name = "파상풍·디프테리아 (Td)" := rfl
      simp [hid, hname, orNat, baseSelection, minAgeFloor, hpvAdjust, todayFloor, orString]
      omega

/-- Witness of C19: birth 2010-01-01, no dose recorded; on 2024-06-01, at the age
of 14 years, the Tdap row recommends dose 1 today. -/
theorem tdap_first_dose_witness :
    (generateSchedule (calculateAgeAtDate (some (makeDay 2010 0 1)) (some (makeDay 2024 5 1)))
      (fun _ => none) Policy.minimum (makeDay 2024 5 1))[3]? =
      some { vaccineName := "파상풍·디프테리아·백일해 (Tdap)",
             nextDoseNumber := DoseCell.number 1,
             recommendedDate := DateCell.formatted (makeDay 2024 5 1), remarks := "" } :=
  ((tdap_first_dose
    (calculateAgeAtDate (some (makeDay 2010 0 1)) (some (makeDay 2024 5 1)))
    (fun _ => none) (makeDay 2024 5 1) (makeDay 2010 0 1) rfl rfl).2.2 (by decide)
    (Or.inl (by decide))).2.2 Policy.minimum

/-- Witness of C20: no Td dose and a Tdap dose on 2012-03-01; on 2024-06-01, more
than 10 years later, the Td row recommends dose 1 today. -/
theorem td_booster_witness :
    (generateSchedule (calculateAgeAtDate (some (makeDay 2000 0 1)) (some (makeDay 2024 5 1)))
      (fun id => if id = VaccineId.tdap then some [some (makeDay 2012 2 1)] else none)
      Policy.standard (makeDay 2024 5 1))[4]? =
      some { vaccineName := "파상풍·디프테리아 (Td)",
             nextDoseNumber :=
               DoseCell.number
                 (countDoses (specificHistoryOf
                   (fun id => if id = VaccineId.tdap then some [some (makeDay 2012 2 1)]
                     else none) td) + 1),
             recommendedDate := DateCell.formatted (makeDay 2024 5 1),
             remarks := "10년마다" } :=
  ((td_booster
    (calculateAgeAtDate (some (makeDay 2000 0 1)) (some (makeDay 2024 5 1)))
    (fun id => if id = VaccineId.tdap then some [some (makeDay 2012 2 1)] else none)
    (makeDay 2024 5 1)).2 (makeDay 2012 2 1) (by decide)).2 (by decide) Policy.standard

theorem catalog_hpv_second (v : Vaccine) (hv : v ∈ VACCINE_DATA) (hid : v.id = VaccineId.hpv) :
    arrayGet v.standardIntervals ((1 : Nat) : Int) = none := by
  simp only [VACCINE_DATA, List.mem_cons, List.mem_singleton, List.not_mem_nil, or_false] at hv
  rcases hv with h | h | h | h | h | h | h | h | h | h | h | h | h | h | h | h | h <;> subst h <;>
    revert hid <;> decide

/-- C11, as stated, fails: with birth 2023-01-01, only the second MMR slot
filled (2024-02-01) and today 2024-02-10, the MMR row recommends dose 2 on
2024-02-29, although the entry declared for dose 2 is the age of 4 years
(2027-01-01). -/
theorem age_floor_gap_counterexample :
    (generateSchedule (calculateAgeAtDate (some (makeDay 2023 0 1)) (some (makeDay 2024 1 10)))
        (fun id => if id = VaccineId.mmr then some [none, some (makeDay 2024 1 1)] else none)
        Policy.standard (makeDay 2024 1 10))[10]? =
        some { vaccineName := "홍역·유행성이하선염·풍진 (MMR)", nextDoseNumber := DoseCell.number 2,
               recommendedDate := DateCell.formatted (makeDay 2024 1 29), remarks := "" } ∧
      arrayGet mmr.standardIntervals ((2 : Int) - 1) = some { ageYears := some 4 } ∧
      makeDay 2024 1 29 < plusYears (makeDay 2023 0 1) 4 := by
  decide

/-- C11 (amended): for every regimen of the catalog, policy and histories, a row
with a concrete date `d` for dose number `n` satisfies: (i) when `n` is one more
than the position of the last filled slot, `d` is not before birth plus the
absolute age (`ageYears`, or `ageMonths` when no `ageYears` is declared) of the
`standardIntervals` entry of dose `n`; (ii) `d` is not before the outcome's
`minAgeOverride` when supplied; (iii) `d` is not before the outcome's
`minDateOverride` when supplied. -/
theorem dated_row_floors (ageInfo : AgeInfo) (all : AllHistories) (type : Policy) (today : Int)
    (i : Nat) (v : Vaccine) (row : ScheduleRow) (d : Int)
    (hv : VACCINE_DATA[i]? = some v)
    (hrow : (generateSchedule ageInfo all type today)[i]? = some row)
    (hd : row.recommendedDate = DateCell.formatted d) :
    (∀ n c, row.nextDoseNumber = DoseCell.number n →
        n = (lastRecorded (specificHistoryOf all v)).2 + 1 →
        arrayGet v.standardIntervals ((n : Int) - 1) = some c →
        (truthy c.ageYears = true →
          plusYears (newDate ageInfo.birthDate) (c.ageYears.getD 0) ≤ d) ∧
        (truthy c.ageYears = false → truthy c.ageMonths = true →
          plusMonths (newDate ageInfo.birthDate) (c.ageMonths.getD 0) ≤ d)) ∧
      (∀ m, (ruleActionOf ageInfo all today v).minAgeOverride = some m → m ≤ d) ∧
      (∀ m, (ruleActionOf ageInfo all today v).minDateOverride = some m → m ≤ d) := by
  have hmem : v ∈ VACCINE_DATA := List.getElem?_mem hv
  have hov := ruleActionOf_overrides ageInfo all today v hmem
  have hup := catalog_no_upper_age v hmem
  rw [generateSchedule_getElem? ageInfo all type today i v hv] at hrow
  have hr : regimenRow ageInfo all type today v = row := Option.some.inj hrow
  rw [← hr] at hd
  obtain ⟨hnt, hc⟩ := regimenRow_dated ageInfo all type today v d hd
  rw [regimenRow_projected ageInfo all type today v hnt hc] at hd
  simp only [DateCell.formatted.injEq] at hd
  -- the chain of floors
  generalize hx0 : (baseSelection v ageInfo type today (ruleActionOf ageInfo all today v)
      (lastRecorded (specificHistoryOf all v)).1 (lastRecorded (specificHistoryOf all v)).2).1
      = x0 at hd
  have h01 := ageFloor_ge_arg v ageInfo type (lastRecorded (specificHistoryOf all v)).2 x0 hup
  have h12 := minAgeFloor_ge_arg (ruleActionOf ageInfo all today v)
    (ageFloor v ageInfo type (lastRecorded (specificHistoryOf all v)).2 x0)
  have h23 := todayFloor_ge_arg today (minAgeFloor (ruleActionOf ageInfo all today v)
    (ageFloor v ageInfo type (lastRecorded (specificHistoryOf all v)).2 x0))
  have hadj := hpvAdjust_ge_arg v type today (ruleActionOf ageInfo all today v)
    (lastRecorded (specificHistoryOf all v)).2
    (baseSelection v ageInfo type today (ruleActionOf ageInfo all today v)
      (lastRecorded (specificHistoryOf all v)).1 (lastRecorded (specificHistoryOf all v)).2).2.1
    (baseSelection v ageInfo type today (ruleActionOf ageInfo all today v)
      (lastRecorded (specificHistoryOf all v)).1 (lastRecorded (specificHistoryOf all v)).2).2.2
    (todayFloor today (minAgeFloor (ruleActionOf ageInfo all today v)
      (ageFloor v ageInfo type (lastRecorded (specificHistoryOf all v)).2 x0)))
  rw [hd] at hadj
  refine ⟨?_, ?_, ?_⟩
  · intro n c _ hnk hc2
    have hidx : ((n : Int) - 1) = (((lastRecorded (specificHistoryOf all v)).2 : Nat) : Int) := by
      rw [hnk]; push_cast; omega
    rw [hidx] at hc2
    have hage := ageFloor_ge_age v ageInfo type (lastRecorded (specificHistoryOf all v)).2 x0 c hc2
    have hno : v.id ≠ VaccineId.hpv ∨ (lastRecorded (specificHistoryOf all v)).2 ≠ 1 := by
      by_cases hid : v.id = VaccineId.hpv
      · right
        intro h1
        rw [h1, catalog_hpv_second v hmem hid] at hc2
        simp at hc2
      · left; exact hid
    have hfin := hadj (Or.inr hno)
    constructor
    · intro h1
      have := hage.1 h1
      omega
    · intro h1 h2
      have := hage.2 h1 h2
      omega
  · intro m hm
    have hno : v.id ≠ VaccineId.hpv := by
      intro hid
      have := hov.2 hid
      rw [hm] at this
      simp at this
    have hfin := hadj (Or.inr (Or.inl hno))
    have := minAgeFloor_ge_override (ruleActionOf ageInfo all today v)
      (ageFloor v ageInfo type (lastRecorded (specificHistoryOf all v)).2 x0) m hm
    omega
  · intro m hm
    have hrd := hov.1 (by rw [hm]; simp)
    have hic := baseSelection_interval v ageInfo type today (ruleActionOf ageInfo all today v)
      (lastRecorded (specificHistoryOf all v)).1 (lastRecorded (specificHistoryOf all v)).2
      (Or.inr (by rw [hm]; simp))
    have hfin := hadj (Or.inl hic)
    have hbase := baseSelection_minDate v ageInfo type today (ruleActionOf ageInfo all today v)
      (lastRecorded (specificHistoryOf all v)).1 (lastRecorded (specificHistoryOf all v)).2 m
      hrd hm
    rw [hx0] at hbase
    omega

/-- Witness of C11: a child born 2020-01-01 with four DTaP doses recorded, the
fourth on 2021-04-01; on 2022-01-01 the standard-policy DTaP row recommends
dose 5 on 2024-01-01, the age of 4 years declared for dose 5. -/
theorem dated_row_floors_witness :
    plusYears (makeDay 2020 0 1) 4 ≤ makeDay 2024 0 1 :=
  ((dated_row_floors
    (calculateAgeAtDate (some (makeDay 2020 0 1)) (some (makeDay 2022 0 1)))
    (fun id => if id = VaccineId.dtap then
      some [some (makeDay 2020 2 1), some (makeDay 2020 4 1), some (makeDay 2020 6 1),
        some (makeDay 2021 3 1), none]
      else none)
    Policy.standard (makeDay 2022 0 1) 2 dtap
    { vaccineName := "디프테리아·파상풍·백일해 (DTaP)", nextDoseNumber := DoseCell.number 5,
      recommendedDate := DateCell.formatted (makeDay 2024 0 1), remarks := "" }
    (makeDay 2024 0 1) rfl (by decide) rfl).1 5 { ageYears := some 4 } rfl (by decide)
    (by decide)).1 (by decide)

theorem countDoses_le_length (h : History) : countDoses h ≤ h.length :=
  List.length_filter_le _ _

theorem history_singleton (h : History) (hl : h.length = 1) (hc : 1 ≤ countDoses h) :
    ∃ d, h = [some d] := by
  match h, hl with
  | [x], _ =>
    cases x with
    | none => simp [countDoses] at hc
    | some d => exact ⟨d, rfl⟩

theorem regimenRow_dateless (ageInfo : AgeInfo) (all : AllHistories) (type : Policy)
    (today : Int) (v : Vaccine) (htd : v.id ≠ VaccineId.td) (hiiv : v.id ≠ VaccineId.iiv)
    (h : Dateless v.doses (countDoses (specificHistoryOf all v))
      (ruleActionOf ageInfo all today v)) :
    (regimenRow ageInfo all type today v).vaccineName = v.name ∧
      (regimenRow ageInfo all type today v).nextDoseNumber = DoseCell.dash ∧
      (regimenRow ageInfo all type today v).recommendedDate = DateCell.dash := by
  rcases h with ⟨ht, hn⟩ | ⟨ht, hn, hm⟩
  · rw [regimenRow_terminal ageInfo all type today v ht, hn]
    exact ⟨rfl, rfl, rfl⟩
  · rw [regimenRow_done ageInfo all type today v ht ⟨hn, by tauto, by rw [hm]; simp⟩]
    exact ⟨rfl, rfl, rfl⟩

theorem bcg_full (a : AgeInfo) (h : History) (all : AllHistories) (t : Int)
    (hl : h.length = 1) (hc : 1 ≤ countDoses h) :
    Dateless 1 (countDoses h) (bcgRules a h all t) ∧
      (bcgRules a h all t).action = Action.completed := by
  obtain ⟨d, rfl⟩ := history_singleton h hl hc
  simp [bcgRules, slot, Dateless, isTerminal]

theorem hepB_full (a : AgeInfo) (h : History) (all : AllHistories) (t : Int)
    (hc : countDoses h = 3) :
    Dateless 3 (countDoses h) (hepBRules a h all t) ∧
      (hepBRules a h all t).action = Action.completed := by
  simp [hepBRules, hc, Dateless, isTerminal]

theorem dtap_full (a : AgeInfo) (h : History) (all : AllHistories) (t : Int)
    (hc : countDoses h = 5) :
    Dateless 5 (countDoses h) (dtapRules a h all t) ∧
      (dtapRules a h all t).action = Action.completed := by
  simp [dtapRules, hc, Dateless, isTerminal]

theorem tdap_full (a : AgeInfo) (h : History) (all : AllHistories) (t : Int)
    (hc : 1 ≤ countDoses h) :
    Dateless 1 (countDoses h) (tdapRules a h all t) ∧
      (tdapRules a h all t).action = Action.checkTd := by
  have h1 : countDoses h ≥ 1 := hc
  have e : tdapRules a h all t =
      { action := Action.checkTd, message := some "Tdap 완료. Td 접종 고려." } := by
    simp only [tdapRules, h1, if_true]
  rw [e]
  exact ⟨Or.inr ⟨rfl, by simp only [orNat]; omega, rfl⟩, rfl⟩

theorem ipv_full (a : AgeInfo) (h : History) (all : AllHistories) (t : Int)
    (hc : countDoses h = 4) :
    Dateless 4 (countDoses h) (ipvRules a h all t) ∧
      (ipvRules a h all t).action = Action.completed := by
  simp [ipvRules, hc, Dateless, isTerminal]

theorem mmr_full (a : AgeInfo) (h : History) (all : AllHistories) (t : Int)
    (hc : countDoses h = 2) :
    Dateless 2 (countDoses h) (mmrRules a h all t) ∧
      (mmrRules a h all t).action = Action.completed := by
  simp [mmrRules, hc, Dateless, isTerminal]

theorem hepA_full (a : AgeInfo) (h : History) (all : AllHistories) (t : Int)
    (hc : countDoses h = 2) :
    Dateless 2 (countDoses h) (hepARules a h all t) ∧
      (hepARules a h all t).action = Action.completed := by
  simp [hepARules, hc, Dateless, isTerminal]

theorem liev_full (a : AgeInfo) (h : History) (all : AllHistories) (t : Int)
    (hc : countDoses h = 2) :
    Dateless 2 (countDoses h) (lievRules a h all t) ∧
      (lievRules a h all t).action = Action.completed := by
  simp [lievRules, hc, Dateless, isTerminal]

theorem rv_full (a : AgeInfo) (h : History) (all : AllHistories) (t : Int)
    (hc : countDoses h = 3) :
    Dateless 3 (countDoses h) (rvRules a h all t) ∧
      (rvRules a h all t).action = Action.completed := by
  simp only [rvRules, hc, false_and, if_false, if_true]
  split_ifs <;> first | exact ⟨Or.inl ⟨rfl, rfl⟩, rfl⟩ | (exfalso; omega) | (exfalso; tauto)

theorem ijev_full (a : AgeInfo) (h : History) (all : AllHistories) (t : Int)
    (hc : countDoses h = 5) :
    Dateless 5 (countDoses h) (ijevRules a h all t) ∧
      (ijevRules a h all t).action = Action.completed := by
  unfold ijevRules
  simp only [hc]
  by_cases c1 : (slot h 2).isSome ∧ (calculateAgeAtDate a.birthDate (slot h 2)).years ≥ 10
  · rw [if_pos c1]
    exact ⟨Or.inl ⟨rfl, rfl⟩, rfl⟩
  · rw [if_neg c1]
    by_cases c2 : (slot h 3).isSome ∧ (calculateAgeAtDate a.birthDate (slot h 3)).years ≥ 10
    · rw [if_pos c2]
      exact ⟨Or.inl ⟨rfl, rfl⟩, rfl⟩
    · rw [if_neg c2, if_pos trivial]
      exact ⟨Or.inl ⟨rfl, rfl⟩, rfl⟩

theorem hib_full (a : AgeInfo) (h : History) (all : AllHistories) (t : Int)
    (hc : effectiveRequiredDoses hib a h ≤ countDoses h) :
    Dateless 4 (countDoses h) (hibRules a h all t) ∧
      ((hibRules a h all t).action = Action.completed ↔ ¬ 5 ≤ a.years) := by
  unfold hibRules
  by_cases c : a.years ≥ 5
  · rw [if_pos c]
    exact ⟨Or.inl ⟨rfl, rfl⟩, by simp [c]⟩
  · rw [if_neg c]
    simp only []
    cases h0 : slot h 0 with
    | none =>
      have hc2 : countDoses h ≥ hibRequiredDoses a.totalMonths := by
        simpa [effectiveRequiredDoses, hib, h0] using hc
      simp only []
      rw [if_pos hc2]
      exact ⟨Or.inl ⟨rfl, rfl⟩, by simp [c]⟩
    | some d =>
      have hc2 : countDoses h ≥
          hibRequiredDoses (calculateAgeAtDate a.birthDate (some d)).totalMonths := by
        simpa [effectiveRequiredDoses, hib, h0] using hc
      simp only []
      rw [if_pos hc2]
      exact ⟨Or.inl ⟨rfl, rfl⟩, by simp [c]⟩

theorem pcv_full (a : AgeInfo) (h : History) (all : AllHistories) (t : Int)
    (hc : effectiveRequiredDoses pcv a h ≤ countDoses h) :
    Dateless 4 (countDoses h) (pcvRules a h all t) ∧
      ((pcvRules a h all t).action = Action.completed ↔ ¬ 5 ≤ a.years) := by
  unfold pcvRules
  by_cases c : a.years ≥ 5
  · rw [if_pos c]
    exact ⟨Or.inl ⟨rfl, rfl⟩, by simp [c]⟩
  · rw [if_neg c]
    simp only []
    cases h0 : slot h 0 with
    | none =>
      have hc2 : countDoses h ≥ pcvRequiredDoses a.totalMonths := by
        simpa [effectiveRequiredDoses, pcv, h0] using hc
      simp only []
      rw [if_pos hc2]
      exact ⟨Or.inl ⟨rfl, rfl⟩, by simp [c]⟩
    | some d =>
      have hc2 : countDoses h ≥
          pcvRequiredDoses (calculateAgeAtDate a.birthDate (some d)).totalMonths := by
        simpa [effectiveRequiredDoses, pcv, h0] using hc
      simp only []
      rw [if_pos hc2]
      exact ⟨Or.inl ⟨rfl, rfl⟩, by simp [c]⟩

theorem ppsv23_full (a : AgeInfo) (h : History) (all : AllHistories) (t : Int)
    (hc : 1 ≤ countDoses h) :
    Dateless 1 (countDoses h) (ppsv23Rules a h all t) ∧
      ((ppsv23Rules a h all t).action = Action.completed ↔ ¬ a.years < 2) := by
  unfold ppsv23Rules
  by_cases c : a.years ≥ 2
  · have c2 : countDoses h ≥ 1 ∧ a.years ≥ 2 := ⟨hc, c⟩
    simp only []
    rw [if_pos c2]
    exact ⟨Or.inl ⟨rfl, rfl⟩, by simp; omega⟩
  · have c2 : ¬ (countDoses h ≥ 1 ∧ a.years ≥ 2) := fun x => c x.2
    have c3 : a.years < 2 := by omega
    simp only []
    rw [if_neg c2, if_pos c3]
    exact ⟨Or.inl ⟨rfl, rfl⟩, by simp [c3]⟩

theorem var_full (a : AgeInfo) (h : History) (all : AllHistories) (t : Int)
    (hl : h.length = 1) (hc : 1 ≤ countDoses h) :
    Dateless 1 (countDoses h) (varRules a h all t) ∧
      ((varRules a h all t).action = Action.completed ↔ ¬ 13 ≤ a.years) := by
  obtain ⟨d, rfl⟩ := history_singleton h hl hc
  unfold varRules
  by_cases c : a.years < 13
  · simp only [c, if_true, countDoses, List.filter, Option.isSome, List.length]
    exact ⟨Or.inl ⟨rfl, rfl⟩, by simp; omega⟩
  · simp [c, countDoses, slot, Dateless, isTerminal, orNat]

theorem hpv_full (a : AgeInfo) (h : History) (all : AllHistories) (t : Int)
    (hc : effectiveRequiredDoses hpv a h ≤ countDoses h) :
    Dateless 3 (countDoses h) (hpvRules a h all t) ∧
      ((hpvRules a h all t).action = Action.completed ↔ ¬ (slot h 0 = none ∧ a.years < 9)) := by
  unfold hpvRules
  simp only []
  cases h0 : slot h 0 with
  | none =>
    by_cases c : a.years < 9
    · simp only [Option.isNone_none, c, and_self, if_true]
      exact ⟨Or.inl ⟨rfl, rfl⟩, by simp⟩
    · have hc2 : (if a.years ≥ 9 ∧ a.years ≤ 14 then 2 else 3) ≤ countDoses h := by
        simpa [effectiveRequiredDoses, hpv, h0] using hc
      simp only [Option.isNone_none, c, and_false, if_false]
      by_cases c2 : a.years ≥ 9 ∧ a.years ≤ 14
      · rw [if_pos c2] at hc2
        simp only [c2, and_self, decide_True, if_true]
        rw [if_pos hc2]
        exact ⟨Or.inl ⟨rfl, rfl⟩, by simp⟩
      · rw [if_neg c2] at hc2
        simp only [c2, decide_False, Bool.false_eq_true, if_false]
        rw [if_pos hc2]
        exact ⟨Or.inl ⟨rfl, rfl⟩, by simp⟩
  | some d =>
    have hc2 : (if (calculateAgeAtDate a.birthDate (some d)).years ≥ 9 ∧
        (calculateAgeAtDate a.birthDate (some d)).years ≤ 14 then 2 else 3) ≤ countDoses h := by
      simpa [effectiveRequiredDoses, hpv, h0] using hc
    simp only [Option.isNone_some, Bool.false_eq_true, false_and, if_false]
    by_cases c2 : (calculateAgeAtDate a.birthDate (some d)).years ≥ 9 ∧
        (calculateAgeAtDate a.birthDate (some d)).years ≤ 14
    · rw [if_pos c2] at hc2
      simp only [c2, and_self, decide_True, if_true]
      rw [if_pos hc2]
      exact ⟨Or.inl ⟨rfl, rfl⟩, by simp⟩
    · rw [if_neg c2] at hc2
      simp only [c2, decide_False, Bool.false_eq_true, if_false]
      rw [if_pos hc2]
      exact ⟨Or.inl ⟨rfl, rfl⟩, by simp⟩

/-- Outcome of a catalog regimen whose recorded dose count has reached the
effective required count, on a history of the nominal length. -/
theorem ruleActionOf_full (ageInfo : AgeInfo) (all : AllHistories) (today : Int)
    (v : Vaccine) (hv : v ∈ VACCINE_DATA)
    (htd : v.id ≠ VaccineId.td) (hiiv : v.id ≠ VaccineId.iiv)
    (hlen : (specificHistoryOf all v).length = v.doses)
    (hreq : effectiveRequiredDoses v ageInfo (specificHistoryOf all v) ≤
      countDoses (specificHistoryOf all v)) :
    Dateless v.doses (countDoses (specificHistoryOf all v)) (ruleActionOf ageInfo all today v) ∧
      ((ruleActionOf ageInfo all today v).action = Action.completed ↔
        ¬ (v.id = VaccineId.tdap ∨
          ((v.id = VaccineId.hib ∨ v.id = VaccineId.pcv) ∧ 5 ≤ ageInfo.years) ∨
          (v.id = VaccineId.ppsv23 ∧ ageInfo.years < 2) ∨
          (v.id = VaccineId.var ∧ 13 ≤ ageInfo.years) ∨
          (v.id = VaccineId.hpv ∧ slot (specificHistoryOf all v) 0 = none ∧
            ageInfo.years < 9))) := by
  have hle := countDoses_le_length (specificHistoryOf all v)
  simp only [VACCINE_DATA, List.mem_cons, List.mem_singleton, List.not_mem_nil, or_false] at hv
  rcases hv with h | h | h | h | h | h | h | h | h | h | h | h | h | h | h | h | h <;> subst h
  · have h1 : 1 ≤ countDoses (specificHistoryOf all bcg) := hreq
    have h := bcg_full ageInfo (specificHistoryOf all bcg) all today hlen h1
    exact ⟨h.1, iff_of_true h.2 (by simp [bcg])⟩
  · have h1 : 3 ≤ countDoses (specificHistoryOf all hepB) := hreq
    have h2 : (specificHistoryOf all hepB).length = 3 := hlen
    have h := hepB_full ageInfo (specificHistoryOf all hepB) all today (by omega)
    exact ⟨h.1, iff_of_true h.2 (by simp [hepB])⟩
  · have h1 : 5 ≤ countDoses (specificHistoryOf all dtap) := hreq
    have h2 : (specificHistoryOf all dtap).length = 5 := hlen
    have h := dtap_full ageInfo (specificHistoryOf all dtap) all today (by omega)
    exact ⟨h.1, iff_of_true h.2 (by simp [dtap])⟩
  · have h1 : 1 ≤ countDoses (specificHistoryOf all tdap) := hreq
    have h := tdap_full ageInfo (specificHistoryOf all tdap) all today h1
    refine ⟨h.1, iff_of_false ?_ (by simp [tdap])⟩
    intro hx
    have h2 := h.2
    rw [show (tdapRules ageInfo (specificHistoryOf all tdap) all today).action =
      (ruleActionOf ageInfo all today tdap).action from rfl, hx] at h2
    exact absurd h2 (by decide)
  · exact absurd rfl htd
  · have h1 : 4 ≤ countDoses (specificHistoryOf all ipv) := hreq
    have h2 : (specificHistoryOf all ipv).length = 4 := hlen
    have h := ipv_full ageInfo (specificHistoryOf all ipv) all today (by omega)
    exact ⟨h.1, iff_of_true h.2 (by simp [ipv])⟩
  · have h := hib_full ageInfo (specificHistoryOf all hib) all today hreq
    exact ⟨h.1, h.2.trans (by simp [hib])⟩
  · have h := pcv_full ageInfo (specificHistoryOf all pcv) all today hreq
    exact ⟨h.1, h.2.trans (by simp [pcv])⟩
  · have h1 : 1 ≤ countDoses (specificHistoryOf all ppsv23) := hreq
    have h := ppsv23_full ageInfo (specificHistoryOf all ppsv23) all today h1
    exact ⟨h.1, h.2.trans (by simp [ppsv23])⟩
  · have h1 : 3 ≤ countDoses (specificHistoryOf all rv) := hreq
    have h2 : (specificHistoryOf all rv).length = 3 := hlen
    have h := rv_full ageInfo (specificHistoryOf all rv) all today (by omega)
    exact ⟨h.1, iff_of_true h.2 (by simp [rv])⟩
  · have h1 : 2 ≤ countDoses (specificHistoryOf all mmr) := hreq
    have h2 : (specificHistoryOf all mmr).length = 2 := hlen
    have h := mmr_full ageInfo (specificHistoryOf all mmr) all today (by omega)
    exact ⟨h.1, iff_of_true h.2 (by simp [mmr])⟩
  · have h1 : 1 ≤ countDoses (specificHistoryOf all var) := hreq
    have h := var_full ageInfo (specificHistoryOf all var) all today hlen h1
    exact ⟨h.1, h.2.trans (by simp [var])⟩
  · have h1 : 2 ≤ countDoses (specificHistoryOf all hepA) := hreq
    have h2 : (specificHistoryOf all hepA).length = 2 := hlen
    have h := hepA_full ageInfo (specificHistoryOf all hepA) all today (by omega)
    exact ⟨h.1, iff_of_true h.2 (by simp [hepA])⟩
  · have h1 : 5 ≤ countDoses (specificHistoryOf all ijev) := hreq
    have h2 : (specificHistoryOf all ijev).length = 5 := hlen
    have h := ijev_full ageInfo (specificHistoryOf all ijev) all today (by omega)
    exact ⟨h.1, iff_of_true h.2 (by simp [ijev])⟩
  · have h1 : 2 ≤ countDoses (specificHistoryOf all liev) := hreq
    have h2 : (specificHistoryOf all liev).length = 2 := hlen
    have h := liev_full ageInfo (specificHistoryOf all liev) all today (by omega)
    exact ⟨h.1, iff_of_true h.2 (by simp [liev])⟩
  · have h := hpv_full ageInfo (specificHistoryOf all hpv) all today hreq
    refine ⟨h.1, h.2.trans ?_⟩
    simp only [show hpv.id = VaccineId.hpv from rfl]
    simp
  · exact absurd rfl hiiv

/-- C15, as stated, fails: for a child born 2010-01-01, on 2024-06-01 (aged 14),
with one Tdap dose and four Hib doses recorded, both regimens have reached
their effective required count, yet the outcomes are `checkTd` and `skip`, not
`completed`. -/
theorem required_doses_not_completed_counterexample :
    let ageInfo := calculateAgeAtDate (some (makeDay 2010 0 1)) (some (makeDay 2024 5 1))
    let all : AllHistories := fun id =>
      if id = VaccineId.tdap then some [some (makeDay 2022 2 1)]
      else if id = VaccineId.hib then
        some [some (makeDay 2010 2 1), some (makeDay 2010 4 1), some (makeDay 2010 6 1),
          some (makeDay 2011 0 5)]
      else none
    let today := makeDay 2024 5 1
    (effectiveRequiredDoses tdap ageInfo (specificHistoryOf all tdap) ≤
        countDoses (specificHistoryOf all tdap) ∧
      (ruleActionOf ageInfo all today tdap).action = Action.checkTd) ∧
    (effectiveRequiredDoses hib ageInfo (specificHistoryOf all hib) ≤
        countDoses (specificHistoryOf all hib) ∧
      (ruleActionOf ageInfo all today hib).action = Action.skip) := by
  decide

/-- C15 (amended): for every regimen of the catalog other than Td and IIV (VAR
only under the age of 13 years), every age, policy and history of the
regimen's nominal length, if the number of recorded doses is at least the
effective required dose count, then the regimen's row carries no date and no
dose number; the outcome is `completed` except for Tdap, for Hib and PCV from
the age of 5 years, for PPSV23 under 2 years, and for HPV with an empty first
slot under 9 years. -/
theorem required_doses_row (ageInfo : AgeInfo) (all : AllHistories) (type : Policy)
    (today : Int) (i : Nat) (v : Vaccine) (hv : VACCINE_DATA[i]? = some v)
    (htd : v.id ≠ VaccineId.td) (hiiv : v.id ≠ VaccineId.iiv)
    (hvar : v.id = VaccineId.var → ageInfo.years < 13)
    (hlen : (specificHistoryOf all v).length = v.doses)
    (hreq : effectiveRequiredDoses v ageInfo (specificHistoryOf all v) ≤
      countDoses (specificHistoryOf all v)) :
    (∃ row, (generateSchedule ageInfo all type today)[i]? = some row ∧
        row.vaccineName = v.name ∧ row.nextDoseNumber = DoseCell.dash ∧
        row.recommendedDate = DateCell.dash) ∧
      ((ruleActionOf ageInfo all today v).action = Action.completed ↔
        ¬ (v.id = VaccineId.tdap ∨
          ((v.id = VaccineId.hib ∨ v.id = VaccineId.pcv) ∧ 5 ≤ ageInfo.years) ∨
          (v.id = VaccineId.ppsv23 ∧ ageInfo.years < 2) ∨
          (v.id = VaccineId.hpv ∧ slot (specificHistoryOf all v) 0 = none ∧
            ageInfo.years < 9))) := by
  have hmem : v ∈ VACCINE_DATA := List.getElem?_mem hv
  have h := ruleActionOf_full ageInfo all today v hmem htd hiiv hlen hreq
  have hnv : ¬ (v.id = VaccineId.var ∧ 13 ≤ ageInfo.years) := fun hx => by
    have := hvar hx.1
    omega
  refine ⟨⟨regimenRow ageInfo all type today v,
    generateSchedule_getElem? ageInfo all type today i v hv,
    regimenRow_dateless ageInfo all type today v htd hiiv h.1⟩, h.2.trans ⟨?_, ?_⟩⟩
  · intro hx hy
    apply hx
    rcases hy with a | b | c | e
    · exact Or.inl a
    · exact Or.inr (Or.inl b)
    · exact Or.inr (Or.inr (Or.inl c))
    · exact Or.inr (Or.inr (Or.inr (Or.inr e)))
  · intro hx hy
    apply hx
    rcases hy with a | b | c | d | e
    · exact Or.inl a
    · exact Or.inr (Or.inl b)
    · exact Or.inr (Or.inr (Or.inl c))
    · exact absurd d hnv
    · exact Or.inr (Or.inr (Or.inr e))

/-- Witness of C15: a child born 2023-01-01 with the three HepB doses recorded;
on 2024-02-10 the HepB outcome is `completed`. -/
theorem required_doses_row_witness :
    (ruleActionOf (calculateAgeAtDate (some (makeDay 2023 0 1)) (some (makeDay 2024 1 10)))
      (fun id => if id = VaccineId.hepB then
        some [some (makeDay 2023 0 1), some (makeDay 2023 1 1), some (makeDay 2023 6 1)]
        else none)
      (makeDay 2024 1 10) hepB).action = Action.completed :=
  (required_doses_row
    (calculateAgeAtDate (some (makeDay 2023 0 1)) (some (makeDay 2024 1 10)))
    (fun id => if id = VaccineId.hepB then
      some [some (makeDay 2023 0 1), some (makeDay 2023 1 1), some (makeDay 2023 6 1)]
      else none)
    Policy.standard (makeDay 2024 1 10) 1 hepB rfl (by decide) (by decide) (by decide)
    (by decide) (by decide)).2.mpr (by decide)

/-! ## Scenarios of single regimens -/

/-- Adding two months moves a date forward by at least 59 days. -/
theorem plusMonths_two_ge (b : Int) : b + 59 ≤ plusMonths b 2 := by
  have hb := makeDay_self b
  have hm := getMonth_range b
  have hl := leapDay_range (getFullYear b)
  have hl1 := leapDay_range (getFullYear b + 1)
  have hs := dayFromYear_succ (getFullYear b)
  unfold plusMonths setMonth
  generalize getFullYear b = y at *
  generalize getDate b = d at *
  generalize getMonth b = m at *
  rcases month_cases hm.1 hm.2 with h | h | h | h | h | h | h | h | h | h | h | h <;>
    subst h <;> rw [← hb] <;> simp only [makeDay] <;> norm_num [monthStart] <;> omega

/-- C21: for BCG with an empty history, if the age in whole weeks is at most 4
the row under either policy recommends dose 1 today; otherwise the outcome is
consult and the row has no date and carries the guidance text.  A birth date
two months before today falls in the second case. -/
theorem bcg_empty_history (ageInfo : AgeInfo) (all : AllHistories) (today : Int)
    (hh : specificHistoryOf all bcg = [none]) :
    (ageInfo.totalWeeks ≤ 4 →
        ∀ type, (generateSchedule ageInfo all type today)[0]? =
          some { vaccineName := "결핵 (BCG)", nextDoseNumber := DoseCell.number 1,
                 recommendedDate := DateCell.formatted today, remarks := "" }) ∧
      (¬ ageInfo.totalWeeks ≤ 4 →
        (ruleActionOf ageInfo all today bcg).action = Action.consult ∧
          ∀ type, (generateSchedule ageInfo all type today)[0]? =
            some { vaccineName := "결핵 (BCG)", nextDoseNumber := DoseCell.dash,
                   recommendedDate := DateCell.dash,
                   remarks := "4주 이내 접종 권장. 의사 상담 필요." }) ∧
      (∀ b, ageInfo = calculateAgeAtDate (some b) (some today) → today = plusMonths b 2 →
        ¬ ageInfo.totalWeeks ≤ 4) := by
  have hrule : ruleActionOf ageInfo all today bcg = bcgRules ageInfo [none] all today := by
    show bcgRules ageInfo (specificHistoryOf all bcg) all today = _
    rw [hh]
  refine ⟨?_, ?_, ?_⟩
  · intro hw type
    have hra : ruleActionOf ageInfo all today bcg =
        { action := Action.recommendNext, nextDoseNumber := some 1 } := by
      rw [hrule]
      simp [bcgRules, slot, hw]
    rw [generateSchedule_getElem? ageInfo all type today 0 bcg rfl,
      regimenRow_projected_of_le ageInfo all type today bcg (by rw [hra]; rfl)
        (by left; rw [hra]; simp [orNat, bcg])]
    simp only [hra, hh]
    cases type <;>
      simp [bcg, lastRecorded, scanLast, orNat, baseSelection, firstDoseDate, ageFloor,
        arrayGet, truthy, minAgeFloor, hpvAdjust, todayFloor_eq_max, orString]
  · intro hw
    have hra : ruleActionOf ageInfo all today bcg =
        { action := Action.consult, message := some "4주 이내 접종 권장. 의사 상담 필요." } := by
      rw [hrule]
      simp [bcgRules, slot, hw]
    refine ⟨by rw [hra], ?_⟩
    intro type
    rw [generateSchedule_getElem? ageInfo all type today 0 bcg rfl,
      regimenRow_terminal ageInfo all type today bcg (by rw [hra]; rfl)]
    simp only [hra]
    simp [bcg, orString]
  · intro b hA ht
    have h2 := plusMonths_two_ge b
    rw [hA]
    simp only [calculateAgeAtDate]
    omega

/-- Witness of C21: born 2024-01-15, no dose recorded; on 2024-03-15, two months
later, the BCG row is the dateless consult row. -/
theorem bcg_empty_history_witness :
    (generateSchedule (calculateAgeAtDate (some (makeDay 2024 0 15)) (some (makeDay 2024 2 15)))
      (fun _ => none) Policy.standard (makeDay 2024 2 15))[0]? =
      some { vaccineName := "결핵 (BCG)", nextDoseNumber := DoseCell.dash,
             recommendedDate := DateCell.dash,
             remarks := "4주 이내 접종 권장. 의사 상담 필요." } :=
  ((bcg_empty_history
    (calculateAgeAtDate (some (makeDay 2024 0 15)) (some (makeDay 2024 2 15)))
    (fun _ => none) (makeDay 2024 2 15) rfl).2.1 (by decide)).2 Policy.standard

/-- C22: the season target of IIV is October 1, not September 1.  For a child
born 2010-01-01 with no dose recorded, on 2024-01-15 the standard-policy IIV
row recommends dose 1 on 2024-10-01 (`startMonth: 9` read as a 0-based month);
and on 2024-12-15, after the start of the season, the row is dated today: the
target never rolls to the next year. -/
theorem iiv_january_targets_october :
    (generateSchedule (calculateAgeAtDate (some (makeDay 2010 0 1)) (some (makeDay 2024 0 15)))
        (fun _ => none) Policy.standard (makeDay 2024 0 15))[16]? =
        some { vaccineName := "인플루엔자 (IIV)", nextDoseNumber := DoseCell.number 1,
               recommendedDate := DateCell.formatted (makeDay 2024 9 1),
               remarks := "매년 1회 권장" } ∧
      makeDay 2024 8 1 < makeDay 2024 9 1 ∧
      (generateSchedule (calculateAgeAtDate (some (makeDay 2010 0 1)) (some (makeDay 2024 11 15)))
        (fun _ => none) Policy.standard (makeDay 2024 11 15))[16]? =
        some { vaccineName := "인플루엔자 (IIV)", nextDoseNumber := DoseCell.number 1,
               recommendedDate := DateCell.formatted (makeDay 2024 11 15),
               remarks := "매년 1회 권장" } := by
  decide

/-- C24: the minimum-date override of the HPV three-dose series replaces the
12-week projection from dose 2.  Born 2008-01-01, HPV doses on 2024-01-01 and
2024-05-20, today 2024-06-05: under either policy the row recommends dose 3
today, before 2024-08-12 (dose 2 + 12 weeks). -/
theorem hpv_third_dose_ignores_interval :
    (∀ type : Policy,
      (generateSchedule (calculateAgeAtDate (some (makeDay 2008 0 1)) (some (makeDay 2024 5 5)))
        (fun id => if id = VaccineId.hpv then
          some [some (makeDay 2024 0 1), some (makeDay 2024 4 20), none] else none)
        type (makeDay 2024 5 5))[15]? =
        some { vaccineName := "사람유두종바이러스 (HPV)", nextDoseNumber := DoseCell.number 3,
               recommendedDate := DateCell.formatted (makeDay 2024 5 5),
               remarks := "3회 접종 대상" }) ∧
      makeDay 2024 5 5 < makeDay 2024 4 20 + 12 * 7 ∧
      (ruleActionOf (calculateAgeAtDate (some (makeDay 2008 0 1)) (some (makeDay 2024 5 5)))
        (fun id => if id = VaccineId.hpv then
          some [some (makeDay 2024 0 1), some (makeDay 2024 4 20), none] else none)
        (makeDay 2024 5 5) hpv).minIntervalOverride = some { weeks := some 12 } := by
  refine ⟨?_, by decide, by decide⟩
  intro type
  cases type <;> decide

/-- C27: the second VAR dose from 13 years is cut off by the nominal dose count.
Born 2010-01-01, VAR dose 1 on 2024-05-20, today 2024-06-01 (aged 14): the
outcome is recommendNext for dose 2 with a 4-week interval, but the row under
either policy is the all-doses-done row without a date. -/
theorem var_second_dose_cut_off :
    (ruleActionOf (calculateAgeAtDate (some (makeDay 2010 0 1)) (some (makeDay 2024 5 1)))
        (fun id => if id = VaccineId.var then some [some (makeDay 2024 4 20)] else none)
        (makeDay 2024 5 1) var) =
        { action := Action.recommendNext, nextDoseNumber := some 2,
          minIntervalOverride := some { weeks := some 4 } } ∧
      (∀ type : Policy,
        (generateSchedule (calculateAgeAtDate (some (makeDay 2010 0 1)) (some (makeDay 2024 5 1)))
          (fun id => if id = VaccineId.var then some [some (makeDay 2024 4 20)] else none)
          type (makeDay 2024 5 1))[11]? =
          some { vaccineName := "수두 (VAR)", nextDoseNumber := DoseCell.dash,
                 recommendedDate := DateCell.dash,
                 remarks := "모든 차수 완료 또는 확인 필요" }) := by
  refine ⟨by decide, ?_⟩
  intro type
  cases type <;> decide

/-- C30: the branch for a third IJEV dose given at 4 to 9 years is never taken.
Born 2015-01-01, IJEV doses on 2016-01-10, 2016-02-10 and 2019-03-01 (aged 4),
today 2019-06-01: under either policy the row recommends dose 4 on 2021-01-01,
the sixth birthday, with an empty remark, not on 2027-01-01. -/
theorem ijev_late_third_dose_still_age_six :
    (∀ type : Policy,
      (generateSchedule (calculateAgeAtDate (some (makeDay 2015 0 1)) (some (makeDay 2019 5 1)))
        (fun id => if id = VaccineId.ijev then
          some [some (makeDay 2016 0 10), some (makeDay 2016 1 10), some (makeDay 2019 2 1),
            none, none]
          else none)
        type (makeDay 2019 5 1))[13]? =
        some { vaccineName := "일본뇌염 불활성화 (IJEV)", nextDoseNumber := DoseCell.number 4,
               recommendedDate := DateCell.formatted (makeDay 2021 0 1), remarks := "" }) ∧
      (calculateAgeAtDate (some (makeDay 2015 0 1)) (some (makeDay 2019 2 1))).years = 4 ∧
      makeDay 2021 0 1 < plusYears (makeDay 2015 0 1) 12 := by
  refine ⟨?_, by decide, by decide⟩
  intro type
  cases type <;> decide

theorem addMonths_eq (d k : Int) : addTimeToDate d TimeUnit.months k = plusMonths d k := rfl

/-- C23: for HPV with only dose 1 recorded on `d1` at an age of 9 to 14 whole
years, the row recommends dose 2 with the remark `2회 접종 대상`, on the later of
`d1` + 6 months and today under the standard policy and on the later of `d1` +
5 months and today under the minimum policy; with two doses recorded in that
series the outcome is completed. -/
theorem hpv_two_dose_series (ageInfo : AgeInfo) (all : AllHistories) (today d1 : Int)
    (h9 : 9 ≤ (calculateAgeAtDate ageInfo.birthDate (some d1)).years)
    (h14 : (calculateAgeAtDate ageInfo.birthDate (some d1)).years ≤ 14) :
    (all VaccineId.hpv = some [some d1, none, none] →
        (generateSchedule ageInfo all Policy.standard today)[15]? =
          some { vaccineName := "사람유두종바이러스 (HPV)", nextDoseNumber := DoseCell.number 2,
                 recommendedDate := DateCell.formatted (max (plusMonths d1 6) today),
                 remarks := "2회 접종 대상" } ∧
        (generateSchedule ageInfo all Policy.minimum today)[15]? =
          some { vaccineName := "사람유두종바이러스 (HPV)", nextDoseNumber := DoseCell.number 2,
                 recommendedDate := DateCell.formatted (max (plusMonths d1 5) today),
                 remarks := "2회 접종 대상" }) ∧
      (slot (specificHistoryOf all hpv) 0 = some d1 →
        2 ≤ countDoses (specificHistoryOf all hpv) →
        (ruleActionOf ageInfo all today hpv).action = Action.completed) := by
  constructor
  · intro hh
    have hsh : specificHistoryOf all hpv = [some d1, none, none] := by
      simp [specificHistoryOf, hpv, hh]
    have hra : ruleActionOf ageInfo all today hpv =
        { action := Action.recommendNext, nextDoseNumber := some 2,
          minIntervalOverride := some { months := some 6, minMonths := some 5 },
          messageOverride := some "2회 접종 대상" } := by
      show hpvRules ageInfo (specificHistoryOf all hpv) all today = _
      rw [hsh]
      simp [hpvRules, countDoses, slot, h9, h14]
    constructor
    · rw [generateSchedule_getElem? ageInfo all Policy.standard today 15 hpv rfl,
        regimenRow_projected_of_le ageInfo all Policy.standard today hpv (by rw [hra]; rfl)
          (by left; rw [hra]; simp [orNat, hpv])]
      simp only [hra, hsh]
      simp [hpv, lastRecorded, scanLast, orNat, baseSelection, chooseInterval, applyInterval,
        addMonths_eq, ageFloor, arrayGet, truthy, minAgeFloor, hpvAdjust, todayFloor_eq_max,
        orString]
    · rw [generateSchedule_getElem? ageInfo all Policy.minimum today 15 hpv rfl,
        regimenRow_projected_of_le ageInfo all Policy.minimum today hpv (by rw [hra]; rfl)
          (by left; rw [hra]; simp [orNat, hpv])]
      simp only [hra, hsh]
      simp [hpv, lastRecorded, scanLast, orNat, baseSelection, chooseInterval, applyInterval,
        addMonths_eq, ageFloor, arrayGet, truthy, minAgeFloor, hpvAdjust, todayFloor_eq_max,
        orString]
  · intro h0 h2
    show (hpvRules ageInfo (specificHistoryOf all hpv) all today).action = _
    have h2b : countDoses (specificHistoryOf all hpv) ≥ 2 := h2
    simp [hpvRules, h0, h9, h14, h2b]

/-- Witness of C23: born 2012-01-01, HPV dose 1 on 2024-03-01 (aged 12); on
2024-04-01 the minimum-policy row recommends dose 2 on the later of dose 1 + 5
months and today. -/
theorem hpv_two_dose_series_witness :
    (generateSchedule (calculateAgeAtDate (some (makeDay 2012 0 1)) (some (makeDay 2024 3 1)))
      (fun id => if id = VaccineId.hpv then some [some (makeDay 2024 2 1), none, none]
        else none)
      Policy.minimum (makeDay 2024 3 1))[15]? =
      some { vaccineName := "사람유두종바이러스 (HPV)", nextDoseNumber := DoseCell.number 2,
             recommendedDate :=
               DateCell.formatted (max (plusMonths (makeDay 2024 2 1) 5) (makeDay 2024 3 1)),
             remarks := "2회 접종 대상" } :=
  ((hpv_two_dose_series
    (calculateAgeAtDate (some (makeDay 2012 0 1)) (some (makeDay 2024 3 1)))
    (fun id => if id = VaccineId.hpv then some [some (makeDay 2024 2 1), none, none]
      else none)
    (makeDay 2024 3 1) (makeDay 2024 2 1) (by decide) (by decide)).1 rfl).2

/-- C25, as stated, fails: with only the second HepB dose recorded (2024-03-01,
born 2024-01-01, today 2024-03-10) the outcome is recommendNext for dose 2, and
the HepB row is dated. -/
theorem hepB_single_gap_counterexample :
    ruleActionOf (calculateAgeAtDate (some (makeDay 2024 0 1)) (some (makeDay 2024 2 10)))
        (fun id => if id = VaccineId.hepB then some [none, some (makeDay 2024 2 1), none]
          else none)
        (makeDay 2024 2 10) hepB =
        { action := Action.recommendNext, nextDoseNumber := some 2 } ∧
      (generateSchedule (calculateAgeAtDate (some (makeDay 2024 0 1)) (some (makeDay 2024 2 10)))
        (fun id => if id = VaccineId.hepB then some [none, some (makeDay 2024 2 1), none]
          else none)
        Policy.standard (makeDay 2024 2 10))[1]? =
        some { vaccineName := "B형 간염 (HepB)", nextDoseNumber := DoseCell.number 2,
               recommendedDate := DateCell.formatted (makeDay 2024 3 26), remarks := "" } := by
  decide

/-- C25 (amended): the HepB outcome is an error if and only if exactly two doses
are recorded and the slot of dose 1 or of dose 2 is empty; the HepB row is then
the dateless error row under either policy, and the schedule still has one row
for each of the 17 regimens. -/
theorem hepB_gap_error (ageInfo : AgeInfo) (all : AllHistories) (today : Int) :
    ((ruleActionOf ageInfo all today hepB).action = Action.error ↔
        (countDoses (specificHistoryOf all hepB) = 2 ∧
          (slot (specificHistoryOf all hepB) 0 = none ∨
            slot (specificHistoryOf all hepB) 1 = none))) ∧
      ((ruleActionOf ageInfo all today hepB).action = Action.error →
        ∀ type, (generateSchedule ageInfo all type today)[1]? =
            some { vaccineName := "B형 간염 (HepB)", nextDoseNumber := DoseCell.dash,
                   recommendedDate := DateCell.dash, remarks := "이전 기록 오류" } ∧
          (generateSchedule ageInfo all type today).length = 17) := by
  have hrule : ruleActionOf ageInfo all today hepB =
      hepBRules ageInfo (specificHistoryOf all hepB) all today := rfl
  generalize specificHistoryOf all hepB = h at hrule
  have hout : (hepBRules ageInfo h all today).action = Action.error →
      hepBRules ageInfo h all today =
        { action := Action.error, message := some "이전 기록 오류" } := by
    unfold hepBRules
    simp only []
    split_ifs with c3 c2
    · intro hx; exact absurd hx (by decide)
    · cases slot h 0 <;> cases slot h 1 <;> simp
    · intro hx; exact absurd hx (by decide)
  constructor
  · rw [hrule]
    unfold hepBRules
    simp only []
    split_ifs with c3 c2
    · simp; omega
    · cases h0 : slot h 0 <;> cases h1 : slot h 1 <;> simp [c2]
    · simp; omega
  · intro he type
    rw [hrule] at he
    have hra := hout he
    rw [← hrule] at hra
    constructor
    · rw [generateSchedule_getElem? ageInfo all type today 1 hepB rfl,
        regimenRow_terminal ageInfo all type today hepB (by rw [hra]; rfl)]
      simp only [hra]
      simp [hepB, orString]
    · rw [generateSchedule_eq_map]
      simp [VACCINE_DATA]

/-- Witness of C25: HepB doses 1 and 3 recorded without dose 2; the HepB row is
the dateless error row. -/
theorem hepB_gap_error_witness :
    (generateSchedule (calculateAgeAtDate (some (makeDay 2024 0 1)) (some (makeDay 2024 8 1)))
      (fun id => if id = VaccineId.hepB then
        some [some (makeDay 2024 0 2), none, some (makeDay 2024 6 1)] else none)
      Policy.minimum (makeDay 2024 8 1))[1]? =
      some { vaccineName := "B형 간염 (HepB)", nextDoseNumber := DoseCell.dash,
             recommendedDate := DateCell.dash, remarks := "이전 기록 오류" } :=
  ((hepB_gap_error
    (calculateAgeAtDate (some (makeDay 2024 0 1)) (some (makeDay 2024 8 1)))
    (fun id => if id = VaccineId.hepB then
      some [some (makeDay 2024 0 2), none, some (makeDay 2024 6 1)] else none)
    (makeDay 2024 8 1)).2 (by decide) Policy.minimum).1

theorem catalog_id_tdap (v : Vaccine) (hv : v ∈ VACCINE_DATA) (hid : v.id = VaccineId.tdap) :
    v = tdap := by
  simp only [VACCINE_DATA, List.mem_cons, List.mem_singleton, List.not_mem_nil, or_false] at hv
  rcases hv with h | h | h | h | h | h | h | h | h | h | h | h | h | h | h | h | h <;> subst h <;>
    first | rfl | exact absurd hid (by decide)

/-- C26, as stated, fails: for a child born 2010-01-01 with a Tdap dose recorded
on 2022-03-01, on 2024-06-01 the Tdap outcome carries the tag `checkTd`, which
is none of the six variants. -/
theorem tdap_seventh_tag_counterexample :
    (ruleActionOf (calculateAgeAtDate (some (makeDay 2010 0 1)) (some (makeDay 2024 5 1)))
        (fun id => if id = VaccineId.tdap then some [some (makeDay 2022 2 1)] else none)
        (makeDay 2024 5 1) tdap).action = Action.checkTd ∧
      ¬ ((ruleActionOf (calculateAgeAtDate (some (makeDay 2010 0 1)) (some (makeDay 2024 5 1)))
            (fun id => if id = VaccineId.tdap then some [some (makeDay 2022 2 1)] else none)
            (makeDay 2024 5 1) tdap).action ∈
          [Action.completed, Action.skip, Action.wait, Action.consult, Action.error,
            Action.recommendNext]) := by
  decide

/-- C26 (amended): for every regimen of the catalog and every input, the action
tag of the outcome is one of the six variants completed, skip, wait, consult,
error, recommendNext, except for Tdap with at least one dose recorded, whose
outcome carries the seventh tag `checkTd`. -/
theorem action_tag_variants (ageInfo : AgeInfo) (all : AllHistories) (today : Int)
    (i : Nat) (v : Vaccine) (hv : VACCINE_DATA[i]? = some v) :
    ((ruleActionOf ageInfo all today v).action ∈
          [Action.completed, Action.skip, Action.wait, Action.consult, Action.error,
            Action.recommendNext] ↔
        ¬ (v.id = VaccineId.tdap ∧ 1 ≤ countDoses (specificHistoryOf all v))) ∧
      ((ruleActionOf ageInfo all today v).action = Action.checkTd ↔
        (v.id = VaccineId.tdap ∧ 1 ≤ countDoses (specificHistoryOf all v))) := by
  have hmem : v ∈ VACCINE_DATA := List.getElem?_mem hv
  have hs := (ruleActionOf_shape ageInfo all today v hmem).2
  have hck : (ruleActionOf ageInfo all today v).action = Action.checkTd ↔
      (v.id = VaccineId.tdap ∧ 1 ≤ countDoses (specificHistoryOf all v)) := by
    constructor
    · intro hx
      obtain ⟨hid, _, hd⟩ := hs hx
      have hv2 := catalog_id_tdap v hmem hid
      subst hv2
      have : tdap.doses = 1 := rfl
      exact ⟨rfl, by omega⟩
    · rintro ⟨hid, hc⟩
      have hv2 := catalog_id_tdap v hmem hid
      subst hv2
      exact (tdap_full ageInfo (specificHistoryOf all tdap) all today hc).2
  refine ⟨?_, hck⟩
  rw [← hck]
  cases (ruleActionOf ageInfo all today v).action <;> decide

/-- Witness of C26: the BCG outcome of a two-month-old with empty histories is
one of the six variants. -/
theorem action_tag_variants_witness :
    (ruleActionOf (calculateAgeAtDate (some (makeDay 2024 0 15)) (some (makeDay 2024 2 15)))
        (fun _ => none) (makeDay 2024 2 15) bcg).action ∈
      [Action.completed, Action.skip, Action.wait, Action.consult, Action.error,
        Action.recommendNext] :=
  (action_tag_variants
    (calculateAgeAtDate (some (makeDay 2024 0 15)) (some (makeDay 2024 2 15)))
    (fun _ => none) (makeDay 2024 2 15) 0 bcg rfl).1.mpr (by decide)

theorem ageFloor_years (v : Vaccine) (ageInfo : AgeInfo) (type : Policy) (n : Nat) (x b : Int)
    (k : Int) (c : IntervalConfig) (hb : ageInfo.birthDate = some b)
    (hc : arrayGet v.standardIntervals n = some c) (hk : c.ageYears = some k) (hk0 : k ≠ 0) :
    ageFloor v ageInfo type n x = max x (plusYears b k) := by
  unfold ageFloor
  simp only [hc, hk, truthy, hb, newDate, Option.getD_some]
  have : (k != 0) = true := by simp [hk0]
  simp only [this, if_true]
  show (if x < plusYears b k then plusYears b k else x) = _
  split_ifs with h
  · rw [max_eq_right (by omega)]
  · rw [max_eq_left (by omega)]

/-- C28: for MMR with only dose 1 recorded on `d1`, the outcome is wait if and
only if today is before birth + 4 years; otherwise the row under either policy
recommends dose 2 on the later of `d1` + 4 weeks and today, which is neither
before `d1` + 4 weeks nor before the fourth birthday. -/
theorem mmr_second_dose (ageInfo : AgeInfo) (all : AllHistories) (today b d1 : Int)
    (hb : ageInfo.birthDate = some b)
    (hh : all VaccineId.mmr = some [some d1, none]) :
    ((ruleActionOf ageInfo all today mmr).action = Action.wait ↔ today < plusYears b 4) ∧
      (¬ today < plusYears b 4 →
        (∀ type, (generateSchedule ageInfo all type today)[10]? =
          some { vaccineName := "홍역·유행성이하선염·풍진 (MMR)",
                 nextDoseNumber := DoseCell.number 2,
                 recommendedDate := DateCell.formatted (max (d1 + 4 * 7) today),
                 remarks := "" }) ∧
        d1 + 4 * 7 ≤ max (d1 + 4 * 7) today ∧ plusYears b 4 ≤ max (d1 + 4 * 7) today) := by
  have hsh : specificHistoryOf all mmr = [some d1, none] := by
    simp [specificHistoryOf, mmr, hh]
  have hrule : ruleActionOf ageInfo all today mmr = mmrRules ageInfo [some d1, none] all today := by
    show mmrRules ageInfo (specificHistoryOf all mmr) all today = _
    rw [hsh]
  have hfl : ∀ type x, ageFloor mmr ageInfo type 1 x = max x (plusYears b 4) := fun type x =>
    ageFloor_years mmr ageInfo type 1 x b 4 { ageYears := some 4 } hb rfl rfl (by decide)
  have hlr : lastRecorded [some d1, none] = (some d1, 1) := rfl
  by_cases hw : today < plusYears b 4
  · refine ⟨?_, fun h => absurd hw h⟩
    rw [hrule]
    simp [mmrRules, countDoses, slot, hb, newDate, plusDays_eq, hw]
  · have hge : plusYears b 4 ≤ today := by omega
    by_cases hA : ageInfo.years ≥ 4 ∧ today ≥ d1 + 4 * 7
    · have h4 : 4 ≤ ageInfo.years := hA.1
      have h28 : d1 + 28 ≤ today := by have := hA.2; omega
      have hra : ruleActionOf ageInfo all today mmr =
          { action := Action.recommendNext, nextDoseNumber := some 2,
            recommendedDateOverride :=
              some (if today > d1 + 4 * 7 then today else d1 + 4 * 7) } := by
        rw [hrule]
        simp [mmrRules, countDoses, slot, hb, newDate, plusDays_eq, hw, h4, h28]
      refine ⟨by rw [hra]; simp [hw], fun _ => ⟨?_, le_max_left _ _,
        le_trans hge (le_max_right _ _)⟩⟩
      intro type
      rw [generateSchedule_getElem? ageInfo all type today 10 mmr rfl,
        regimenRow_projected_of_le ageInfo all type today mmr (by rw [hra]; rfl)
          (by left; rw [hra]; simp [orNat, mmr])]
      simp only [hra, hsh, hlr, hfl]
      simp [mmr, orNat, baseSelection, minAgeFloor, hpvAdjust, todayFloor_eq_max, orString]
      split_ifs <;> omega
    · have hB : 4 ≤ ageInfo.years → today < d1 + 28 := by
        intro h4
        by_contra hc
        exact hA ⟨h4, by omega⟩
      have hra : ruleActionOf ageInfo all today mmr =
          { action := Action.recommendNext, nextDoseNumber := some 2 } := by
        rw [hrule]
        simp [mmrRules, countDoses, slot, hb, newDate, plusDays_eq, hw]
        exact hB
      refine ⟨by rw [hra]; simp [hw], fun _ => ⟨?_, le_max_left _ _,
        le_trans hge (le_max_right _ _)⟩⟩
      intro type
      rw [generateSchedule_getElem? ageInfo all type today 10 mmr rfl,
        regimenRow_projected_of_le ageInfo all type today mmr (by rw [hra]; rfl)
          (by left; rw [hra]; simp [orNat, mmr])]
      simp only [hra, hsh, hlr, hfl]
      cases type <;>
        simp [mmr, orNat, baseSelection, chooseInterval, applyInterval, addWeeks_eq,
          arrayGet, truthy, minAgeFloor, hpvAdjust, todayFloor_eq_max, orString] <;>
        omega

/-- Witness of C28: born 2019-01-01, MMR dose 1 on 2020-02-01; on 2024-03-01,
after the fourth birthday, the row recommends dose 2 on the later of dose 1 +
4 weeks and today. -/
theorem mmr_second_dose_witness :
    (generateSchedule (calculateAgeAtDate (some (makeDay 2019 0 1)) (some (makeDay 2024 2 1)))
      (fun id => if id = VaccineId.mmr then some [some (makeDay 2020 1 1), none] else none)
      Policy.standard (makeDay 2024 2 1))[10]? =
      some { vaccineName := "홍역·유행성이하선염·풍진 (MMR)",
             nextDoseNumber := DoseCell.number 2,
             recommendedDate :=
               DateCell.formatted (max (makeDay 2020 1 1 + 4 * 7) (makeDay 2024 2 1)),
             remarks := "" } :=
  ((mmr_second_dose
    (calculateAgeAtDate (some (makeDay 2019 0 1)) (some (makeDay 2024 2 1)))
    (fun id => if id = VaccineId.mmr then some [some (makeDay 2020 1 1), none] else none)
    (makeDay 2024 2 1) (makeDay 2019 0 1) (makeDay 2020 1 1) rfl rfl).2 (by decide)).1
    Policy.standard

/-- C29: on the day the child is exactly 14 weeks 6 days old the first RV dose
is refused already.  Born 2024-01-01 with no RV dose recorded: on 2024-04-14,
which is birth + 104 days, the outcome is skip with the message that the
first-dose period (14 weeks 6 days) has passed, and the RV row carries that
message without a date; on 2024-04-13, birth + 103 days, the outcome is
recommendNext for dose 1. -/
theorem rv_last_day_skipped :
    makeDay 2024 3 14 = makeDay 2024 0 1 + 104 ∧
      rvRules (calculateAgeAtDate (some (makeDay 2024 0 1)) (some (makeDay 2024 3 14)))
          [none, none, none] (fun _ => none) (makeDay 2024 3 14) =
        { action := Action.skip, message := some "첫 접종 가능 시기(생후 14주 6일) 지남" } ∧
      (generateSchedule
          (calculateAgeAtDate (some (makeDay 2024 0 1)) (some (makeDay 2024 3 14)))
          (fun _ => none) Policy.standard (makeDay 2024 3 14))[9]? =
        some { vaccineName := "로타바이러스 (RV)", nextDoseNumber := DoseCell.dash,
               recommendedDate := DateCell.dash,
               remarks := "첫 접종 가능 시기(생후 14주 6일) 지남" } ∧
      rvRules (calculateAgeAtDate (some (makeDay 2024 0 1)) (some (makeDay 2024 3 13)))
          [none, none, none] (fun _ => none) (makeDay 2024 3 13) =
        { action := Action.recommendNext, nextDoseNumber := some 1 } := by
  decide

/-! ## Agreement of the age algorithms, dose numbers and policies -/

/-- C31: for every birth date `b` not after today, `calculateAge` returns a
snapshot with the same years, months, days, totalMonths and totalWeeks (and
birth date) as `calculateAgeAtDate(b, today)`. -/
theorem calculateAge_agrees (parse : String → Option Int) (today b : Int) (s : String)
    (hs : s ≠ "") (hp : parse s = some b) (hb : b ≤ today) :
    ∃ a, calculateAge parse today s = some (AgeObject.snapshot a) ∧
      a.years = (calculateAgeAtDate (some b) (some today)).years ∧
      a.months = (calculateAgeAtDate (some b) (some today)).months ∧
      a.days = (calculateAgeAtDate (some b) (some today)).days ∧
      a.totalMonths = (calculateAgeAtDate (some b) (some today)).totalMonths ∧
      a.totalWeeks = (calculateAgeAtDate (some b) (some today)).totalWeeks ∧
      a.birthDate = some b :=
  ⟨calculateAgeAtDate (some b) (some today), calculateAge_snapshot hs hp hb, rfl, rfl, rfl, rfl,
    rfl, rfl⟩

/-- Witness of C31: birth 2023-01-31 read from the string `2023-01-31`, today
2024-03-15. -/
theorem calculateAge_agrees_witness :
    ∃ a, calculateAge (fun _ => some (makeDay 2023 0 31)) (makeDay 2024 2 15) "2023-01-31" =
        some (AgeObject.snapshot a) ∧
      a.years = (calculateAgeAtDate (some (makeDay 2023 0 31)) (some (makeDay 2024 2 15))).years ∧
      a.months =
        (calculateAgeAtDate (some (makeDay 2023 0 31)) (some (makeDay 2024 2 15))).months ∧
      a.days = (calculateAgeAtDate (some (makeDay 2023 0 31)) (some (makeDay 2024 2 15))).days ∧
      a.totalMonths =
        (calculateAgeAtDate (some (makeDay 2023 0 31)) (some (makeDay 2024 2 15))).totalMonths ∧
      a.totalWeeks =
        (calculateAgeAtDate (some (makeDay 2023 0 31)) (some (makeDay 2024 2 15))).totalWeeks ∧
      a.birthDate = some (makeDay 2023 0 31) :=
  calculateAge_agrees (fun _ => some (makeDay 2023 0 31)) (makeDay 2024 2 15)
    (makeDay 2023 0 31) "2023-01-31" (by decide) rfl (by decide)

/-- C34: for VAR with a history of length 1 the outcome is never an error,
whatever the age and whether or not the slot is filled. -/
theorem var_never_error (ageInfo : AgeInfo) (history : History) (all : AllHistories)
    (today : Int) (hl : history.length = 1) :
    (varRules ageInfo history all today).action ≠ Action.error := by
  match history, hl with
  | [x], _ =>
    cases x with
    | none =>
      simp only [varRules, countDoses, List.filter, Option.isSome, List.length]
      split_ifs <;> simp
    | some d =>
      simp only [varRules, countDoses, List.filter, Option.isSome, List.length, slot]
      split_ifs <;> simp at *

/-- Witness of C34: a 14-year-old with the VAR slot filled. -/
theorem var_never_error_witness :
    (varRules (calculateAgeAtDate (some (makeDay 2010 0 1)) (some (makeDay 2024 5 1)))
      [some (makeDay 2024 4 20)] (fun _ => none) (makeDay 2024 5 1)).action ≠ Action.error :=
  var_never_error (calculateAgeAtDate (some (makeDay 2010 0 1)) (some (makeDay 2024 5 1)))
    [some (makeDay 2024 4 20)] (fun _ => none) (makeDay 2024 5 1) rfl

theorem next_ite {id : VaccineId} {count : Nat} {c : Prop} [Decidable c] {x y : RuleAction}
    (hx : c → NextDoseShape id count x) (hy : ¬ c → NextDoseShape id count y) :
    NextDoseShape id count (if c then x else y) := by
  split
  · exact hx ‹_›
  · exact hy ‹_›

theorem bcgRules_next (a : AgeInfo) (h : History) (all : AllHistories) (t : Int)
    (hl : h.length = 1) : NextDoseShape VaccineId.bcg (countDoses h) (bcgRules a h all t) := by
  match h, hl with
  | [x], _ =>
    cases x with
    | none =>
      simp only [bcgRules, slot, countDoses, NextDoseShape]
      split_ifs <;> simp
    | some d => simp [bcgRules, slot, NextDoseShape]

theorem hepBRules_next (a : AgeInfo) (h : History) (all : AllHistories) (t : Int) :
    NextDoseShape VaccineId.hepB (countDoses h) (hepBRules a h all t) := by
  unfold hepBRules
  simp only
  repeat' (first | (apply next_ite <;> intro _) | split)
  all_goals simp_all [NextDoseShape]

theorem dtapRules_next (a : AgeInfo) (h : History) (all : AllHistories) (t : Int) :
    NextDoseShape VaccineId.dtap (countDoses h) (dtapRules a h all t) := by
  unfold dtapRules
  simp only
  repeat' (first | (apply next_ite <;> intro _) | split)
  all_goals simp_all [NextDoseShape]

theorem tdapRules_next (a : AgeInfo) (h : History) (all : AllHistories) (t : Int) :
    NextDoseShape VaccineId.tdap (countDoses h) (tdapRules a h all t) := by
  unfold tdapRules
  simp only
  repeat' (first | (apply next_ite <;> intro _) | split)
  all_goals simp_all [NextDoseShape]

theorem tdRules_next (a : AgeInfo) (h : History) (all : AllHistories) (t : Int) :
    NextDoseShape VaccineId.td (countDoses h) (tdRules a h all t) := by
  unfold tdRules
  simp only
  repeat' (first | (apply next_ite <;> intro _) | split)
  all_goals simp_all [NextDoseShape]

theorem ipvRules_next (a : AgeInfo) (h : History) (all : AllHistories) (t : Int) :
    NextDoseShape VaccineId.ipv (countDoses h) (ipvRules a h all t) := by
  unfold ipvRules
  simp only
  repeat' (first | (apply next_ite <;> intro _) | split)
  all_goals simp_all [NextDoseShape]

theorem hibRules_next (a : AgeInfo) (h : History) (all : AllHistories) (t : Int) :
    NextDoseShape VaccineId.hib (countDoses h) (hibRules a h all t) := by
  unfold hibRules
  simp only
  repeat' (first | (apply next_ite <;> intro _) | split)
  all_goals simp_all [NextDoseShape]

theorem pcvRules_next (a : AgeInfo) (h : History) (all : AllHistories) (t : Int) :
    NextDoseShape VaccineId.pcv (countDoses h) (pcvRules a h all t) := by
  unfold pcvRules
  simp only
  repeat' (first | (apply next_ite <;> intro _) | split)
  all_goals simp_all [NextDoseShape]

theorem ppsv23Rules_next (a : AgeInfo) (h : History) (all : AllHistories) (t : Int) :
    NextDoseShape VaccineId.ppsv23 (countDoses h) (ppsv23Rules a h all t) := by
  unfold ppsv23Rules
  simp only
  repeat' (first | (apply next_ite <;> intro _) | split)
  all_goals simp_all [NextDoseShape]

theorem rvRules_next (a : AgeInfo) (h : History) (all : AllHistories) (t : Int) :
    NextDoseShape VaccineId.rv (countDoses h) (rvRules a h all t) := by
  unfold rvRules
  simp only
  repeat' (first | (apply next_ite <;> intro _) | split)
  all_goals simp_all [NextDoseShape]

theorem mmrRules_next (a : AgeInfo) (h : History) (all : AllHistories) (t : Int) :
    NextDoseShape VaccineId.mmr (countDoses h) (mmrRules a h all t) := by
  unfold mmrRules
  simp only
  repeat' (first | (apply next_ite <;> intro _) | split)
  all_goals simp_all [NextDoseShape]

theorem varRules_next (a : AgeInfo) (h : History) (all : AllHistories) (t : Int) :
    NextDoseShape VaccineId.var (countDoses h) (varRules a h all t) := by
  unfold varRules
  simp only
  repeat' (first | (apply next_ite <;> intro _) | split)
  all_goals simp_all [NextDoseShape]

theorem hepARules_next (a : AgeInfo) (h : History) (all : AllHistories) (t : Int) :
    NextDoseShape VaccineId.hepA (countDoses h) (hepARules a h all t) := by
  unfold hepARules
  simp only
  repeat' (first | (apply next_ite <;> intro _) | split)
  all_goals simp_all [NextDoseShape]

theorem ijevRules_next (a : AgeInfo) (h : History) (all : AllHistories) (t : Int) :
    NextDoseShape VaccineId.ijev (countDoses h) (ijevRules a h all t) := by
  unfold ijevRules
  simp only
  repeat' (apply next_ite <;> intro _)
  all_goals simp_all [NextDoseShape]
  all_goals omega

theorem lievRules_next (a : AgeInfo) (h : History) (all : AllHistories) (t : Int) :
    NextDoseShape VaccineId.liev (countDoses h) (lievRules a h all t) := by
  unfold lievRules
  simp only
  repeat' (first | (apply next_ite <;> intro _) | split)
  all_goals simp_all [NextDoseShape]

theorem hpvRules_next (a : AgeInfo) (h : History) (all : AllHistories) (t : Int) :
    NextDoseShape VaccineId.hpv (countDoses h) (hpvRules a h all t) := by
  unfold hpvRules
  simp only
  repeat' (first | (apply next_ite <;> intro _) | split)
  all_goals simp_all [NextDoseShape]
  all_goals first | omega | (split_ifs at * <;> omega)

theorem iivRules_next (a : AgeInfo) (h : History) (all : AllHistories) (t : Int) :
    NextDoseShape VaccineId.iiv (countDoses h) (iivRules a h all t) := by
  unfold iivRules
  simp only
  repeat' (first | (apply next_ite <;> intro _) | split)
  all_goals simp_all [NextDoseShape]

theorem ruleActionOf_next (ageInfo : AgeInfo) (all : AllHistories) (today : Int)
    (v : Vaccine) (hv : v ∈ VACCINE_DATA)
    (hlen : (specificHistoryOf all v).length = v.doses) :
    NextDoseShape v.id (countDoses (specificHistoryOf all v))
      (ruleActionOf ageInfo all today v) := by
  simp only [VACCINE_DATA, List.mem_cons, List.mem_singleton, List.not_mem_nil, or_false] at hv
  rcases hv with h | h | h | h | h | h | h | h | h | h | h | h | h | h | h | h | h <;> subst h
  · exact bcgRules_next ageInfo _ all today hlen
  · exact hepBRules_next ageInfo _ all today
  · exact dtapRules_next ageInfo _ all today
  · exact tdapRules_next ageInfo _ all today
  · exact tdRules_next ageInfo _ all today
  · exact ipvRules_next ageInfo _ all today
  · exact hibRules_next ageInfo _ all today
  · exact pcvRules_next ageInfo _ all today
  · exact ppsv23Rules_next ageInfo _ all today
  · exact rvRules_next ageInfo _ all today
  · exact mmrRules_next ageInfo _ all today
  · exact varRules_next ageInfo _ all today
  · exact hepARules_next ageInfo _ all today
  · exact ijevRules_next ageInfo _ all today
  · exact lievRules_next ageInfo _ all today
  · exact hpvRules_next ageInfo _ all today
  · exact iivRules_next ageInfo _ all today

theorem catalog_doses (v : Vaccine) (hv : v ∈ VACCINE_DATA) :
    (v.id = VaccineId.hpv → v.doses = 3) ∧ (v.id = VaccineId.iiv → v.doses = 1) := by
  simp only [VACCINE_DATA, List.mem_cons, List.mem_singleton, List.not_mem_nil, or_false] at hv
  rcases hv with h | h | h | h | h | h | h | h | h | h | h | h | h | h | h | h | h <;> subst h <;>
    decide

/-- C35: for histories with one slot per nominal dose, a row that carries a
concrete date has, for every regimen other than Td, a dose number between 1 and
the nominal dose count, and, for every regimen other than IIV, the dose number
equal to the number of filled slots plus one. -/
theorem dated_row_dose_number (ageInfo : AgeInfo) (all : AllHistories) (type : Policy)
    (today : Int) (i : Nat) (v : Vaccine) (row : ScheduleRow) (d : Int)
    (hv : VACCINE_DATA[i]? = some v)
    (hlen : (specificHistoryOf all v).length = v.doses)
    (hrow : (generateSchedule ageInfo all type today)[i]? = some row)
    (hd : row.recommendedDate = DateCell.formatted d) :
    (v.id ≠ VaccineId.td →
        ∃ n, row.nextDoseNumber = DoseCell.number n ∧ 1 ≤ n ∧ n ≤ v.doses) ∧
      (v.id ≠ VaccineId.iiv →
        row.nextDoseNumber = DoseCell.number (countDoses (specificHistoryOf all v) + 1)) := by
  have hmem : v ∈ VACCINE_DATA := List.getElem?_mem hv
  have hshape := (ruleActionOf_shape ageInfo all today v hmem).2
  have hnext := ruleActionOf_next ageInfo all today v hmem hlen
  have hdoses := catalog_doses v hmem
  rw [generateSchedule_getElem? ageInfo all type today i v hv] at hrow
  have hr : regimenRow ageInfo all type today v = row := Option.some.inj hrow
  rw [← hr] at hd
  obtain ⟨hnt, hc⟩ := regimenRow_dated ageInfo all type today v d hd
  rw [← hr, regimenRow_projected ageInfo all type today v hnt hc]
  simp only
  generalize ruleActionOf ageInfo all today v = ra at *
  generalize countDoses (specificHistoryOf all v) = count at *
  have hact : ra.action = Action.recommendNext := by
    cases ha : ra.action with
    | recommendNext => rfl
    | checkTd =>
      exfalso
      obtain ⟨hid, hnd, hlt⟩ := hshape ha
      apply hc
      rw [hnd]
      refine ⟨by simp only [orNat]; omega, by rw [hid]; decide, by rw [hid]; rfl⟩
    | completed => rw [ha] at hnt; exact absurd hnt (by decide)
    | skip => rw [ha] at hnt; exact absurd hnt (by decide)
    | wait => rw [ha] at hnt; exact absurd hnt (by decide)
    | consult => rw [ha] at hnt; exact absurd hnt (by decide)
    | error => rw [ha] at hnt; exact absurd hnt (by decide)
  obtain ⟨h1, h2, h3⟩ := hnext hact
  constructor
  · intro htd
    by_cases hiiv : v.id = VaccineId.iiv
    · rw [h2 hiiv]
      exact ⟨1, by simp [orNat], le_refl 1, by rw [hdoses.2 hiiv]⟩
    · rw [h1 hiiv]
      refine ⟨count + 1, by simp [orNat], by omega, ?_⟩
      by_cases hhpv : v.id = VaccineId.hpv
      · rw [hdoses.1 hhpv]
        exact h3 hhpv
      · by_contra hgt
        apply hc
        rw [h1 hiiv]
        refine ⟨?_, by tauto, by simp [hhpv]⟩
        simp only [orNat, Nat.succ_ne_zero, if_false]
        omega
  · intro hiiv
    rw [h1 hiiv]
    simp [orNat]

/-- Witness of C35: HepB with dose 1 recorded; the dated row has dose number 2. -/
theorem dated_row_dose_number_witness :
    (DoseCell.number 2 =
      DoseCell.number (countDoses (specificHistoryOf
        (fun id => if id = VaccineId.hepB then some [some (makeDay 2024 2 4), none, none]
          else none) hepB) + 1)) :=
  ((dated_row_dose_number
    (calculateAgeAtDate (some (makeDay 2024 0 1)) (some (makeDay 2024 3 1)))
    (fun id => if id = VaccineId.hepB then some [some (makeDay 2024 2 4), none, none] else none)
    Policy.minimum (makeDay 2024 3 1) 1 hepB
    { vaccineName := "B형 간염 (HepB)", nextDoseNumber := DoseCell.number 2,
      recommendedDate := DateCell.formatted (makeDay 2024 3 1), remarks := "" }
    (makeDay 2024 3 1) rfl (by decide) (by decide) rfl).2 (by decide))

/-! ## Comparison of the two policies -/

theorem plusMonths_five_le_six (d : Int) : plusMonths d 5 ≤ plusMonths d 6 := by
  have hm := getMonth_range d
  have hl := leapDay_range (getFullYear d)
  have hl1 := leapDay_range (getFullYear d + 1)
  have hs := dayFromYear_succ (getFullYear d)
  unfold plusMonths setMonth
  generalize getFullYear d = y at *
  generalize getDate d = dd at *
  generalize getMonth d = m at *
  rcases month_cases hm.1 hm.2 with h | h | h | h | h | h | h | h | h | h | h | h <;>
    subst h <;> simp only [makeDay] <;> norm_num [monthStart] <;> omega

theorem scanLast_none (rev : List (Option Int)) (k : Nat) (h : (scanLast rev k).1 = none) :
    (scanLast rev k).2 = 0 := by
  induction rev generalizing k with
  | nil => rfl
  | cons x rest ih =>
    cases x with
    | none => exact ih (k - 1) h
    | some d => simp [scanLast] at h

theorem lastRecorded_none (h : History) (hn : (lastRecorded h).1 = none) :
    (lastRecorded h).2 = 0 :=
  scanLast_none _ _ hn

theorem scanLast_one (rev : List (Option Int)) (h : (scanLast rev rev.length).2 = 1) :
    (∃ d, rev.getLast? = some (some d)) ∧ (rev.filter Option.isSome).length = 1 := by
  induction rev with
  | nil => simp [scanLast] at h
  | cons x rest ih =>
    cases x with
    | some d =>
      simp only [scanLast, List.length_cons] at h
      have hr : rest = [] := List.eq_nil_of_length_eq_zero (by omega)
      subst hr
      exact ⟨⟨d, rfl⟩, rfl⟩
    | none =>
      have h2 : (scanLast rest rest.length).2 = 1 := by
        simpa [scanLast] using h
      obtain ⟨⟨d, hd⟩, hc⟩ := ih h2
      refine ⟨⟨d, ?_⟩, ?_⟩
      · rw [List.getLast?_cons, hd]
        rfl
      · simpa using hc

theorem lastRecorded_one (h : History) (hn : (lastRecorded h).2 = 1) :
    (slot h 0).isSome = true ∧ countDoses h = 1 := by
  have hs : (scanLast h.reverse h.reverse.length).2 = 1 := by
    rw [List.length_reverse]
    exact hn
  obtain ⟨⟨d, hd⟩, hc⟩ := scanLast_one h.reverse hs
  constructor
  · rw [List.getLast?_reverse] at hd
    cases h with
    | nil => simp at hd
    | cons x rest =>
      simp only [List.head?_cons, Option.some.injEq] at hd
      simp [slot, hd]
  · rw [List.filter_reverse, List.length_reverse] at hc
    exact hc

theorem hpvAdjust_of_ne (v : Vaccine) (type : Policy) (today : Int) (ra : RuleAction)
    (n : Nat) (base : Option Int) (ic : Option IntervalConfig) (x : Int)
    (h : v.id ≠ VaccineId.hpv) : hpvAdjust v type today ra n base ic x = x := by
  unfold hpvAdjust
  cases ic <;> cases base <;> cases ra.minDateOverride <;> simp [h]

theorem ageFloor_mono (v : Vaccine) (ageInfo : AgeInfo) (t1 t2 : Policy) (n : Nat)
    (x y : Int)
    (hv : ∀ c ∈ v.standardIntervals, ¬ (truthy c.months = true ∧
      truthy c.recommendedAgeMonths = true)) (hxy : x ≤ y) :
    ageFloor v ageInfo t1 n x ≤ ageFloor v ageInfo t2 n y := by
  unfold ageFloor
  split
  · rename_i c hc
    have hcm := hv c (arrayGet_mem hc)
    split
    · simp only; split_ifs <;> omega
    · split
      · simp only; split_ifs <;> omega
      · split
        · rename_i h3
          have hr : ¬ truthy c.recommendedAgeMonths = true := fun h => hcm ⟨h3.1, h⟩
          simp only [hr, Bool.false_eq_true, if_false]
          split_ifs <;> omega
        · exact hxy
  · exact hxy

theorem floors_le (today : Int) (ra : RuleAction) (a b : Int) (h : a ≤ max b today) :
    todayFloor today (minAgeFloor ra a) ≤ todayFloor today (minAgeFloor ra b) := by
  rw [todayFloor_eq_max, todayFloor_eq_max]
  unfold minAgeFloor
  cases ra.minAgeOverride with
  | none => simp only; omega
  | some m => simp only; split_ifs <;> omega

theorem projectedDate_le (v : Vaccine) (ageInfo : AgeInfo) (t1 t2 : Policy) (today : Int)
    (ra : RuleAction) (last : Option Int) (n : Nat) (hid : v.id ≠ VaccineId.hpv)
    (hv : ∀ c ∈ v.standardIntervals, ¬ (truthy c.months = true ∧
      truthy c.recommendedAgeMonths = true))
    (hI : ∀ d, last = some d → ra.recommendedDateOverride = none → ra.minDateOverride = none →
      applyInterval d (chooseInterval v t1 ra n) ≤ applyInterval d (chooseInterval v t2 ra n))
    (hF : last = none → ra.recommendedDateOverride = none → ra.minDateOverride = none →
      ageFloor v ageInfo t1 n (firstDoseDate v ageInfo t1 today) ≤
        max (ageFloor v ageInfo t2 n (firstDoseDate v ageInfo t2 today)) today) :
    projectedDate v ageInfo t1 today ra last n ≤ projectedDate v ageInfo t2 today ra last n := by
  unfold projectedDate
  rw [hpvAdjust_of_ne _ _ _ _ _ _ _ _ hid, hpvAdjust_of_ne _ _ _ _ _ _ _ _ hid]
  apply floors_le
  cases h1 : ra.recommendedDateOverride with
  | some r =>
    simp only [baseSelection, h1]
    exact le_trans (ageFloor_mono v ageInfo t1 t2 n r r hv (le_refl r)) (le_max_left _ _)
  | none =>
    cases h2 : ra.minDateOverride with
    | some m =>
      simp only [baseSelection, h1, h2]
      exact le_trans (ageFloor_mono v ageInfo t1 t2 n m m hv (le_refl m)) (le_max_left _ _)
    | none =>
      cases h3 : last with
      | some d =>
        simp only [baseSelection, h1, h2]
        exact le_trans (ageFloor_mono v ageInfo t1 t2 n _ _ hv (hI d h3 h1 h2))
          (le_max_left _ _)
      | none =>
        simp only [baseSelection, h1, h2]
        exact hF h3 h1 h2

theorem chooseInterval_override (v : Vaccine) (type : Policy) (ra : RuleAction) (n : Nat)
    (o : IntervalConfig) (h : ra.minIntervalOverride = some o) :
    chooseInterval v type ra n = some o := by
  simp only [chooseInterval, h]

theorem chooseInterval_plain (v : Vaccine) (ra : RuleAction) (n : Nat)
    (hv : ∀ c ∈ v.standardIntervals,
      truthy c.monthsInterval = false ∧ truthy c.weeksInterval = false) :
    chooseInterval v Policy.standard ra n = chooseInterval v Policy.minimum ra n := by
  unfold chooseInterval
  simp only
  cases hc : arrayGet v.standardIntervals (n : Int) with
  | none => rfl
  | some c =>
    have := hv c (arrayGet_mem hc)
    simp only [this.1, this.2, Bool.false_eq_true, if_false]

theorem arrayGet_nat {α : Type} (l : List α) (n : Nat) : arrayGet l (n : Int) = l.get? n := by
  unfold arrayGet
  have h : ¬ ((n : Int) < 0) := by omega
  simp only [h, if_false, Int.toNat_ofNat]

theorem hepA_intervals (ra : RuleAction) (n : Nat) (h : ra.minIntervalOverride = none) :
    chooseInterval hepA Policy.standard ra n = chooseInterval hepA Policy.minimum ra n := by
  simp only [chooseInterval, arrayGet_nat, h]
  rcases n with _ | _ | n <;> simp [arrayGet, hepA, truthy]

theorem liev_intervals (ra : RuleAction) (n : Nat) (h : ra.minIntervalOverride = none) :
    chooseInterval liev Policy.standard ra n = chooseInterval liev Policy.minimum ra n := by
  simp only [chooseInterval, arrayGet_nat, h]
  rcases n with _ | _ | n <;> simp [arrayGet, liev, truthy]

theorem ijev_intervals (ra : RuleAction) (n : Nat) (h : ra.minIntervalOverride = none)
    (hn : n ≠ 1) :
    chooseInterval ijev Policy.standard ra n = chooseInterval ijev Policy.minimum ra n := by
  simp only [chooseInterval, arrayGet_nat, h]
  rcases n with _ | _ | _ | _ | _ | n <;> simp [arrayGet, ijev, truthy] at hn ⊢

theorem ijevRules_second (a : AgeInfo) (h : History) (all : AllHistories) (t : Int)
    (hc : countDoses h = 1) (h0 : (slot h 0).isSome = true) :
    isTerminal (ijevRules a h all t).action = true ∨
      (ijevRules a h all t).minIntervalOverride = some { weeks := some 4 } := by
  unfold ijevRules
  simp only [hc]
  by_cases c1 : (slot h 2).isSome = true ∧ (calculateAgeAtDate a.birthDate (slot h 2)).years ≥ 10
  · rw [if_pos c1]; left; rfl
  · rw [if_neg c1]
    by_cases c2 : (slot h 3).isSome = true ∧
        (calculateAgeAtDate a.birthDate (slot h 3)).years ≥ 10
    · rw [if_pos c2]; left; rfl
    · rw [if_neg c2, if_neg (by decide), if_neg (fun h => absurd h.2.2.2 (by decide)),
        if_neg (fun h => absurd h.1 (by decide)), if_neg (fun h => absurd h.1 (by decide)),
        if_neg (fun h => absurd h.2.2 (by decide)), if_neg (fun h => absurd h.2.2 (by decide))]
      right
      simp [h0]

theorem plusMonths_six_le_twelve (d : Int) : plusMonths d 6 ≤ plusMonths d 12 := by
  have hm := getMonth_range d
  have hl := leapDay_range (getFullYear d)
  have hl1 := leapDay_range (getFullYear d + 1)
  have hs := dayFromYear_succ (getFullYear d)
  unfold plusMonths setMonth
  generalize getFullYear d = y at *
  generalize getDate d = dd at *
  generalize getMonth d = m at *
  rcases month_cases hm.1 hm.2 with h | h | h | h | h | h | h | h | h | h | h | h <;>
    subst h <;> simp only [makeDay] <;> norm_num [monthStart] <;> omega

theorem catalog_firstDose (v : Vaccine) (hv : v ∈ VACCINE_DATA) (hid : v.id ≠ VaccineId.iiv)
    (ageInfo : AgeInfo) (today : Int) :
    max (ageFloor v ageInfo Policy.standard 0 (firstDoseDate v ageInfo Policy.standard today))
        today =
      max (ageFloor v ageInfo Policy.minimum 0 (firstDoseDate v ageInfo Policy.minimum today))
        today := by
  have h6 := plusMonths_six_le_twelve (newDate ageInfo.birthDate)
  unfold plusMonths at h6
  simp only [VACCINE_DATA, List.mem_cons, List.mem_singleton, List.not_mem_nil, or_false] at hv
  rcases hv with h | h | h | h | h | h | h | h | h | h | h | h | h | h | h | h | h <;> subst h
  all_goals first
    | exact absurd rfl hid
    | (simp [firstDoseDate, ageFloor, arrayGet, truthy, addTimeToDate, bcg, hepB, dtap, tdap, td,
        ipv, hib, pcv, ppsv23, rv, mmr, var, hepA, ijev, liev, hpv]
       try (split_ifs <;> omega))

theorem hpvRules_interval (a : AgeInfo) (h : History) (all : AllHistories) (t : Int)
    (c : IntervalConfig) (hc : (hpvRules a h all t).minIntervalOverride = some c) :
    c = { months := some 6, minMonths := some 5 } ∨ c = { weeks := some 12 } ∨
      c = { weeks := some 4 } := by
  revert hc
  unfold hpvRules
  simp only
  repeat' split
  all_goals simp
  all_goals (intro hx; subst hx; simp)

theorem catalog_intervals (v : Vaccine) (hv : v ∈ VACCINE_DATA) (ra : RuleAction) (n : Nat)
    (hij : v.id = VaccineId.ijev → n = 1 → ra.minIntervalOverride ≠ none) :
    chooseInterval v Policy.standard ra n = chooseInterval v Policy.minimum ra n := by
  cases h : ra.minIntervalOverride with
  | some o =>
    rw [chooseInterval_override v Policy.standard ra n o h,
      chooseInterval_override v Policy.minimum ra n o h]
  | none =>
    simp only [VACCINE_DATA, List.mem_cons, List.mem_singleton, List.not_mem_nil, or_false] at hv
    rcases hv with h1 | h1 | h1 | h1 | h1 | h1 | h1 | h1 | h1 | h1 | h1 | h1 | h1 | h1 | h1 | h1 |
      h1 <;> subst h1
    · exact chooseInterval_plain bcg ra n (by decide)
    · exact chooseInterval_plain hepB ra n (by decide)
    · exact chooseInterval_plain dtap ra n (by decide)
    · exact chooseInterval_plain tdap ra n (by decide)
    · exact chooseInterval_plain td ra n (by decide)
    · exact chooseInterval_plain ipv ra n (by decide)
    · exact chooseInterval_plain hib ra n (by decide)
    · exact chooseInterval_plain pcv ra n (by decide)
    · exact chooseInterval_plain ppsv23 ra n (by decide)
    · exact chooseInterval_plain rv ra n (by decide)
    · exact chooseInterval_plain mmr ra n (by decide)
    · exact chooseInterval_plain var ra n (by decide)
    · exact hepA_intervals ra n h
    · exact ijev_intervals ra n h (fun h1 => hij rfl h1 h)
    · exact liev_intervals ra n h
    · exact chooseInterval_plain hpv ra n (by decide)
    · exact chooseInterval_plain iiv ra n (by decide)

theorem ageFloor_policy (v : Vaccine) (ageInfo : AgeInfo) (t1 t2 : Policy) (n : Nat) (x : Int)
    (hv : ∀ c ∈ v.standardIntervals, ¬ (truthy c.months = true ∧
      truthy c.recommendedAgeMonths = true)) :
    ageFloor v ageInfo t1 n x = ageFloor v ageInfo t2 n x :=
  le_antisymm (ageFloor_mono v ageInfo t1 t2 n x x hv (le_refl x))
    (ageFloor_mono v ageInfo t2 t1 n x x hv (le_refl x))

theorem hpv_chooseInterval (type : Policy) (ra : RuleAction) (n : Nat) :
    chooseInterval hpv type ra n = ra.minIntervalOverride := by
  simp only [chooseInterval, arrayGet_nat]
  cases ra.minIntervalOverride with
  | some o => rfl
  | none =>
    cases type
    · rcases n with _ | n <;> simp [arrayGet, hpv, truthy]
    · simp [arrayGet, hpv]

theorem hpv_projected (ageInfo : AgeInfo) (today : Int) (ra : RuleAction) (last : Option Int)
    (n : Nat) (hov : ra.minDateOverride ≠ none → ra.recommendedDateOverride = none)
    (hic : ∀ c, ra.minIntervalOverride = some c →
      c = { months := some 6, minMonths := some 5 } ∨ c = { weeks := some 12 } ∨
        c = { weeks := some 4 })
    (hn : last = none → n = 0) :
    projectedDate hpv ageInfo Policy.minimum today ra last n ≤
        projectedDate hpv ageInfo Policy.standard today ra last n ∧
      (projectedDate hpv ageInfo Policy.minimum today ra last n ≠
          projectedDate hpv ageInfo Policy.standard today ra last n →
        n = 1 ∧ ra.minIntervalOverride = some { months := some 6, minMonths := some 5 }) := by
  have hup := catalog_no_upper_age hpv (by simp [VACCINE_DATA])
  have hAF : ∀ x, ageFloor hpv ageInfo Policy.minimum n x =
      ageFloor hpv ageInfo Policy.standard n x :=
    fun x => ageFloor_policy hpv ageInfo Policy.minimum Policy.standard n x hup
  unfold projectedDate
  cases h1 : ra.recommendedDateOverride with
  | some r =>
    have h2 : ra.minDateOverride = none := by
      by_contra hne
      have := hov hne
      rw [h1] at this
      exact absurd this (by simp)
    simp only [baseSelection, h1, hpvAdjust, h2, hAF]
    exact ⟨le_refl _, fun h => absurd rfl h⟩
  | none =>
    cases h2 : ra.minDateOverride with
    | some m =>
      simp only [baseSelection, h1, h2, hpvAdjust, hAF]
      have ha := ageFloor_ge_arg hpv ageInfo Policy.standard n m hup
      have hb := minAgeFloor_ge_arg ra (ageFloor hpv ageInfo Policy.standard n m)
      have hc := todayFloor_ge_arg today (minAgeFloor ra (ageFloor hpv ageInfo Policy.standard n m))
      have hd := todayFloor_ge today (minAgeFloor ra (ageFloor hpv ageInfo Policy.standard n m))
      generalize todayFloor today (minAgeFloor ra (ageFloor hpv ageInfo Policy.standard n m)) = x
        at *
      have he : todayFloor today (if x < m then m else x) = x := by
        rw [todayFloor_eq_max]
        split_ifs <;> omega
      simp only [he]
      constructor
      · split_ifs <;> exact le_refl _
      · intro h
        exfalso
        apply h
        split_ifs <;> rfl
    | none =>
      cases h3 : last with
      | none =>
        have hn0 := hn h3
        subst hn0
        have hfd := catalog_firstDose hpv (by simp [VACCINE_DATA]) (by decide) ageInfo today
        simp only [baseSelection, h1, h2, hpvAdjust]
        have e : todayFloor today (minAgeFloor ra (ageFloor hpv ageInfo Policy.minimum 0
              (firstDoseDate hpv ageInfo Policy.minimum today))) =
            todayFloor today (minAgeFloor ra (ageFloor hpv ageInfo Policy.standard 0
              (firstDoseDate hpv ageInfo Policy.standard today))) :=
          le_antisymm (floors_le today ra _ _ (by rw [hfd]; exact le_max_left _ _))
            (floors_le today ra _ _ (by rw [← hfd]; exact le_max_left _ _))
        rw [e]
        exact ⟨le_refl _, fun h => absurd rfl h⟩
      | some d =>
        simp only [baseSelection, h1, h2, hpv_chooseInterval, hAF]
        cases h4 : ra.minIntervalOverride with
        | none =>
          simp only [hpvAdjust, h2]
          exact ⟨le_refl _, fun h => absurd rfl h⟩
        | some c =>
          have ha := ageFloor_ge_arg hpv ageInfo Policy.standard n (applyInterval d (some c)) hup
          have hb := minAgeFloor_ge_arg ra
            (ageFloor hpv ageInfo Policy.standard n (applyInterval d (some c)))
          have hc := todayFloor_ge_arg today (minAgeFloor ra
            (ageFloor hpv ageInfo Policy.standard n (applyInterval d (some c))))
          have hd := todayFloor_ge today (minAgeFloor ra
            (ageFloor hpv ageInfo Policy.standard n (applyInterval d (some c))))
          generalize todayFloor today (minAgeFloor ra
            (ageFloor hpv ageInfo Policy.standard n (applyInterval d (some c)))) = x at *
          by_cases hs : n = 1 ∧ c.months = some 6 ∧ c.minMonths = some 5
          · have hcA : c = { months := some 6, minMonths := some 5 } := by
              rcases hic c h4 with h | h | h
              · exact h
              · rw [h] at hs; exact absurd hs.2.1 (by decide)
              · rw [h] at hs; exact absurd hs.2.1 (by decide)
            subst hcA
            have h56 := plusMonths_five_le_six d
            have hI : applyInterval d (some { months := some 6, minMonths := some 5 }) =
                plusMonths d 6 := by
              simp [applyInterval, truthy, addMonths_eq]
            refine ⟨?_, fun _ => ⟨hs.1, rfl⟩⟩
            simp only [hpvAdjust, hs.1, h2]
            simp [todayFloor_eq_max, addMonths_eq, hpv]
            omega
          · have e : hpvAdjust hpv Policy.minimum today ra n (some d) (some c) x = x := by
              simp only [hpvAdjust, h2]
              split_ifs with hcond
              · exact absurd ⟨hcond.2.1, hcond.2.2.1, hcond.2.2.2.1⟩ hs
              · rfl
            have e2 : hpvAdjust hpv Policy.standard today ra n (some d) (some c) x = x := by
              simp [hpvAdjust, h2]
            rw [e, e2]
            exact ⟨le_refl _, fun h => absurd rfl h⟩

theorem catalog_id_hpv (v : Vaccine) (hv : v ∈ VACCINE_DATA) (hid : v.id = VaccineId.hpv) :
    v = hpv := by
  simp only [VACCINE_DATA, List.mem_cons, List.mem_singleton, List.not_mem_nil, or_false] at hv
  rcases hv with h | h | h | h | h | h | h | h | h | h | h | h | h | h | h | h | h <;> subst h <;>
    first | rfl | exact absurd hid (by decide)

theorem catalog_id_ijev (v : Vaccine) (hv : v ∈ VACCINE_DATA) (hid : v.id = VaccineId.ijev) :
    v = ijev := by
  simp only [VACCINE_DATA, List.mem_cons, List.mem_singleton, List.not_mem_nil, or_false] at hv
  rcases hv with h | h | h | h | h | h | h | h | h | h | h | h | h | h | h | h | h <;> subst h <;>
    first | rfl | exact absurd hid (by decide)

theorem catalog_id_iiv (v : Vaccine) (hv : v ∈ VACCINE_DATA) (hid : v.id = VaccineId.iiv) :
    v = iiv := by
  simp only [VACCINE_DATA, List.mem_cons, List.mem_singleton, List.not_mem_nil, or_false] at hv
  rcases hv with h | h | h | h | h | h | h | h | h | h | h | h | h | h | h | h | h <;> subst h <;>
    first | rfl | exact absurd hid (by decide)

theorem iiv_firstDose (ageInfo : AgeInfo) (today : Int) :
    ageFloor iiv ageInfo Policy.minimum 0 (firstDoseDate iiv ageInfo Policy.minimum today) ≤
      max (ageFloor iiv ageInfo Policy.standard 0 (firstDoseDate iiv ageInfo Policy.standard today))
        today := by
  have e : ageFloor iiv ageInfo Policy.minimum 0 (firstDoseDate iiv ageInfo Policy.minimum today) =
      today := by
    simp [firstDoseDate, ageFloor, arrayGet, truthy, iiv]
  rw [e]
  exact le_max_right _ _

theorem scanLast_none_filter (rev : List (Option Int)) (k : Nat)
    (h : (scanLast rev k).1 = none) : rev.filter Option.isSome = [] := by
  induction rev generalizing k with
  | nil => rfl
  | cons x rest ih =>
    cases x with
    | none => simpa using ih (k - 1) h
    | some d => simp [scanLast] at h

theorem lastRecorded_none_count (h : History) (hn : (lastRecorded h).1 = none) :
    countDoses h = 0 := by
  have := scanLast_none_filter h.reverse h.length hn
  rw [List.filter_reverse] at this
  unfold countDoses
  rw [List.reverse_eq_nil_iff.mp this]
  rfl

/-- Comparison of the dates projected under the two policies for a regimen of
the catalog whose outcome is not terminal. -/
theorem catalog_projected (ageInfo : AgeInfo) (all : AllHistories) (today : Int)
    (v : Vaccine) (hv : v ∈ VACCINE_DATA)
    (hnt : isTerminal (ruleActionOf ageInfo all today v).action = false) :
    projectedDate v ageInfo Policy.minimum today (ruleActionOf ageInfo all today v)
        (lastRecorded (specificHistoryOf all v)).1 (lastRecorded (specificHistoryOf all v)).2 ≤
      projectedDate v ageInfo Policy.standard today (ruleActionOf ageInfo all today v)
        (lastRecorded (specificHistoryOf all v)).1 (lastRecorded (specificHistoryOf all v)).2 ∧
    (projectedDate v ageInfo Policy.minimum today (ruleActionOf ageInfo all today v)
        (lastRecorded (specificHistoryOf all v)).1 (lastRecorded (specificHistoryOf all v)).2 ≠
      projectedDate v ageInfo Policy.standard today (ruleActionOf ageInfo all today v)
        (lastRecorded (specificHistoryOf all v)).1 (lastRecorded (specificHistoryOf all v)).2 →
      (v.id = VaccineId.hpv ∧ (lastRecorded (specificHistoryOf all v)).2 = 1 ∧
          (ruleActionOf ageInfo all today v).minIntervalOverride =
            some { months := some 6, minMonths := some 5 }) ∨
        (v.id = VaccineId.iiv ∧ (lastRecorded (specificHistoryOf all v)).1 = none)) := by
  have hlast := lastRecorded_none (specificHistoryOf all v)
  by_cases hhpv : v.id = VaccineId.hpv
  · have hv2 := catalog_id_hpv v hv hhpv
    subst hv2
    have hov := (ruleActionOf_overrides ageInfo all today hpv hv).1
    have hic : ∀ c, (ruleActionOf ageInfo all today hpv).minIntervalOverride = some c →
        c = { months := some 6, minMonths := some 5 } ∨ c = { weeks := some 12 } ∨
          c = { weeks := some 4 } :=
      fun c hc => hpvRules_interval ageInfo (specificHistoryOf all hpv) all today c hc
    have h := hpv_projected ageInfo today (ruleActionOf ageInfo all today hpv)
      (lastRecorded (specificHistoryOf all hpv)).1 (lastRecorded (specificHistoryOf all hpv)).2
      hov hic hlast
    exact ⟨h.1, fun hne => Or.inl ⟨rfl, h.2 hne⟩⟩
  · have hup := catalog_no_upper_age v hv
    have hij : v.id = VaccineId.ijev → (lastRecorded (specificHistoryOf all v)).2 = 1 →
        (ruleActionOf ageInfo all today v).minIntervalOverride ≠ none := by
      intro hid h1
      have hv2 := catalog_id_ijev v hv hid
      subst hv2
      obtain ⟨h0, hc⟩ := lastRecorded_one (specificHistoryOf all ijev) h1
      rcases ijevRules_second ageInfo (specificHistoryOf all ijev) all today hc h0 with ht | ho
      · have ht2 : isTerminal (ruleActionOf ageInfo all today ijev).action = true := ht
        rw [hnt] at ht2
        exact absurd ht2 (by decide)
      · have ho2 : (ruleActionOf ageInfo all today ijev).minIntervalOverride =
            some { weeks := some 4 } := ho
        rw [ho2]
        simp
    have hI := catalog_intervals v hv (ruleActionOf ageInfo all today v)
      (lastRecorded (specificHistoryOf all v)).2 hij
    have hrev : (v.id = VaccineId.iiv → (lastRecorded (specificHistoryOf all v)).1 ≠ none) →
        projectedDate v ageInfo Policy.standard today (ruleActionOf ageInfo all today v)
            (lastRecorded (specificHistoryOf all v)).1
            (lastRecorded (specificHistoryOf all v)).2 ≤
          projectedDate v ageInfo Policy.minimum today (ruleActionOf ageInfo all today v)
            (lastRecorded (specificHistoryOf all v)).1
            (lastRecorded (specificHistoryOf all v)).2 := by
      intro hiiv
      apply projectedDate_le v ageInfo Policy.standard Policy.minimum today _ _ _ hhpv hup
      · intro d _ _ _
        rw [hI]
      · intro hl _ _
        have hid : v.id ≠ VaccineId.iiv := fun h => hiiv h hl
        rw [hlast hl, ← catalog_firstDose v hv hid ageInfo today]
        exact le_max_left _ _
    constructor
    · apply projectedDate_le v ageInfo Policy.minimum Policy.standard today _ _ _ hhpv hup
      · intro d _ _ _
        rw [hI]
      · intro hl _ _
        rw [hlast hl]
        by_cases hid : v.id = VaccineId.iiv
        · have hv2 := catalog_id_iiv v hv hid
          subst hv2
          exact iiv_firstDose ageInfo today
        · rw [catalog_firstDose v hv hid ageInfo today]
          exact le_max_left _ _
    · intro hne
      right
      by_contra hcon
      apply hne
      have hle := hrev (fun hid hl => hcon ⟨hid, hl⟩)
      have hge : projectedDate v ageInfo Policy.minimum today (ruleActionOf ageInfo all today v)
            (lastRecorded (specificHistoryOf all v)).1
            (lastRecorded (specificHistoryOf all v)).2 ≤
          projectedDate v ageInfo Policy.standard today (ruleActionOf ageInfo all today v)
            (lastRecorded (specificHistoryOf all v)).1
            (lastRecorded (specificHistoryOf all v)).2 := by
        apply projectedDate_le v ageInfo Policy.minimum Policy.standard today _ _ _ hhpv hup
        · intro d _ _ _
          rw [hI]
        · intro hl _ _
          rw [hlast hl]
          by_cases hid : v.id = VaccineId.iiv
          · exact absurd ⟨hid, hl⟩ hcon
          · rw [catalog_firstDose v hv hid ageInfo today]
            exact le_max_left _ _
      exact le_antisymm hge hle

/-- The row of a regimen under the two policies: either the outcome leads to a
row without a date, the same under every policy, or the row is dated under
every policy, with the same dose number and remarks and the projected date of
the policy. -/
theorem regimenRow_policy (ageInfo : AgeInfo) (all : AllHistories) (today : Int) (v : Vaccine) :
    ((∀ t1 t2, regimenRow ageInfo all t1 today v = regimenRow ageInfo all t2 today v) ∧
        ∀ t, (regimenRow ageInfo all t today v).recommendedDate = DateCell.dash) ∨
      (isTerminal (ruleActionOf ageInfo all today v).action = false ∧
        ∃ k r, ∀ t, regimenRow ageInfo all t today v =
          { vaccineName := v.name, nextDoseNumber := DoseCell.number k,
            recommendedDate := DateCell.formatted
              (projectedDate v ageInfo t today (ruleActionOf ageInfo all today v)
                (lastRecorded (specificHistoryOf all v)).1
                (lastRecorded (specificHistoryOf all v)).2),
            remarks := r }) := by
  by_cases hnt : isTerminal (ruleActionOf ageInfo all today v).action = true
  · left
    constructor
    · intro t1 t2
      rw [regimenRow_terminal ageInfo all t1 today v hnt,
        regimenRow_terminal ageInfo all t2 today v hnt]
    · intro t
      rw [regimenRow_terminal ageInfo all t today v hnt]
  · have hnt2 : isTerminal (ruleActionOf ageInfo all today v).action = false := by
      simpa using hnt
    by_cases hc : orNat (ruleActionOf ageInfo all today v).nextDoseNumber
            (countDoses (specificHistoryOf all v) + 1) > v.doses ∧
          ¬ (v.id = VaccineId.td ∨ v.id = VaccineId.iiv) ∧
          (v.id == VaccineId.hpv &&
            (match (ruleActionOf ageInfo all today v).messageOverride with
             | some m => m != "" && includes m "2회 접종"
             | none => false)) = false
    · left
      constructor
      · intro t1 t2
        rw [regimenRow_done ageInfo all t1 today v hnt2 hc,
          regimenRow_done ageInfo all t2 today v hnt2 hc]
      · intro t
        rw [regimenRow_done ageInfo all t today v hnt2 hc]
    · right
      refine ⟨hnt2,
        orNat (ruleActionOf ageInfo all today v).nextDoseNumber
          ((lastRecorded (specificHistoryOf all v)).2 + 1),
        orString (ruleActionOf ageInfo all today v).messageOverride
          (if v.id = VaccineId.td then "10년마다"
           else if v.id = VaccineId.iiv ∧
               orNat (ruleActionOf ageInfo all today v).nextDoseNumber
                 ((lastRecorded (specificHistoryOf all v)).2 + 1) = 1 then "매년"
           else ""), fun t => ?_⟩
      rw [regimenRow_projected ageInfo all t today v hnt2 hc]
      rfl

/-- C32: whenever the standard-policy row of a regimen carries a concrete date,
the minimum-policy row of that regimen carries a concrete date for the same
dose number (and the same remarks), and that date is not after the
standard-policy date. -/
theorem minimum_not_after_standard (ageInfo : AgeInfo) (all : AllHistories) (today : Int)
    (i : Nat) (v : Vaccine) (row : ScheduleRow) (d : Int)
    (hv : VACCINE_DATA[i]? = some v)
    (hrow : (generateSchedule ageInfo all Policy.standard today)[i]? = some row)
    (hd : row.recommendedDate = DateCell.formatted d) :
    ∃ m, (generateSchedule ageInfo all Policy.minimum today)[i]? =
        some { vaccineName := row.vaccineName, nextDoseNumber := row.nextDoseNumber,
               recommendedDate := DateCell.formatted m, remarks := row.remarks } ∧
      (∃ k, row.nextDoseNumber = DoseCell.number k) ∧ m ≤ d := by
  have hmem : v ∈ VACCINE_DATA := List.getElem?_mem hv
  rw [generateSchedule_getElem? ageInfo all Policy.standard today i v hv] at hrow
  have hr : regimenRow ageInfo all Policy.standard today v = row := Option.some.inj hrow
  rw [generateSchedule_getElem? ageInfo all Policy.minimum today i v hv]
  rcases regimenRow_policy ageInfo all today v with ⟨_, hdash⟩ | ⟨hnt, k, r, hall⟩
  · have := hdash Policy.standard
    rw [hr, hd] at this
    exact absurd this (by simp)
  · have hs := hall Policy.standard
    rw [hr] at hs
    subst hs
    simp only [DateCell.formatted.injEq] at hd
    subst hd
    exact ⟨_, by rw [hall Policy.minimum], ⟨k, rfl⟩,
      (catalog_projected ageInfo all today v hmem hnt).1⟩

/-- C33: for every regimen other than HPV and IIV the rows produced under the
two policies are identical.  The HPV rows differ only when dose 1 is the only
recorded dose and the outcome carries the 6-month interval with a 5-month
minimum (second dose of the two-dose series); the IIV rows differ only when no
dose is recorded (first dose). -/
theorem policy_rows_agree (ageInfo : AgeInfo) (all : AllHistories) (today : Int)
    (i : Nat) (v : Vaccine) (hv : VACCINE_DATA[i]? = some v) :
    (v.id ≠ VaccineId.hpv → v.id ≠ VaccineId.iiv →
        (generateSchedule ageInfo all Policy.standard today)[i]? =
          (generateSchedule ageInfo all Policy.minimum today)[i]?) ∧
      ((generateSchedule ageInfo all Policy.standard today)[i]? ≠
          (generateSchedule ageInfo all Policy.minimum today)[i]? →
        (v.id = VaccineId.hpv ∧ (slot (specificHistoryOf all v) 0).isSome = true ∧
            countDoses (specificHistoryOf all v) = 1 ∧
            (ruleActionOf ageInfo all today v).nextDoseNumber = some 2 ∧
            (ruleActionOf ageInfo all today v).minIntervalOverride =
              some { months := some 6, minMonths := some 5 }) ∨
          (v.id = VaccineId.iiv ∧ countDoses (specificHistoryOf all v) = 0 ∧
            (ruleActionOf ageInfo all today v).nextDoseNumber = some 1)) := by
  have hmem : v ∈ VACCINE_DATA := List.getElem?_mem hv
  rw [generateSchedule_getElem? ageInfo all Policy.standard today i v hv,
    generateSchedule_getElem? ageInfo all Policy.minimum today i v hv]
  have key : regimenRow ageInfo all Policy.standard today v ≠
        regimenRow ageInfo all Policy.minimum today v →
      (v.id = VaccineId.hpv ∧ (slot (specificHistoryOf all v) 0).isSome = true ∧
          countDoses (specificHistoryOf all v) = 1 ∧
          (ruleActionOf ageInfo all today v).nextDoseNumber = some 2 ∧
          (ruleActionOf ageInfo all today v).minIntervalOverride =
            some { months := some 6, minMonths := some 5 }) ∨
        (v.id = VaccineId.iiv ∧ countDoses (specificHistoryOf all v) = 0 ∧
          (ruleActionOf ageInfo all today v).nextDoseNumber = some 1) := by
    intro hne
    rcases regimenRow_policy ageInfo all today v with ⟨heq, _⟩ | ⟨hnt, k, r, hall⟩
    · exact absurd (heq Policy.standard Policy.minimum) hne
    · have hp := (catalog_projected ageInfo all today v hmem hnt).2
      have hdiff : projectedDate v ageInfo Policy.minimum today (ruleActionOf ageInfo all today v)
            (lastRecorded (specificHistoryOf all v)).1
            (lastRecorded (specificHistoryOf all v)).2 ≠
          projectedDate v ageInfo Policy.standard today (ruleActionOf ageInfo all today v)
            (lastRecorded (specificHistoryOf all v)).1
            (lastRecorded (specificHistoryOf all v)).2 := by
        intro he
        apply hne
        rw [hall Policy.standard, hall Policy.minimum, he]
      have hact : (ruleActionOf ageInfo all today v).action = Action.recommendNext := by
        have hs := (ruleActionOf_shape ageInfo all today v hmem).2
        cases ha : (ruleActionOf ageInfo all today v).action with
        | recommendNext => rfl
        | checkTd =>
          exfalso
          have hid := (hs ha).1
          rcases hp hdiff with h | h
          · rw [hid] at h; exact absurd h.1 (by decide)
          · rw [hid] at h; exact absurd h.1 (by decide)
        | completed => rw [ha] at hnt; exact absurd hnt (by decide)
        | skip => rw [ha] at hnt; exact absurd hnt (by decide)
        | wait => rw [ha] at hnt; exact absurd hnt (by decide)
        | consult => rw [ha] at hnt; exact absurd hnt (by decide)
        | error => rw [ha] at hnt; exact absurd hnt (by decide)
      rcases hp hdiff with ⟨hid, h1, ho⟩ | ⟨hid, hl⟩
      · left
        obtain ⟨h0, hc⟩ := lastRecorded_one (specificHistoryOf all v) h1
        have hv2 := catalog_id_hpv v hmem hid
        subst hv2
        have hn := (hpvRules_next ageInfo (specificHistoryOf all hpv) all today hact).1
          (by decide)
        rw [hc] at hn
        exact ⟨rfl, h0, hc, hn, ho⟩
      · right
        have hv2 := catalog_id_iiv v hmem hid
        subst hv2
        have hn := (iivRules_next ageInfo (specificHistoryOf all iiv) all today hact).2.1 rfl
        exact ⟨rfl, lastRecorded_none_count _ hl, hn⟩
  constructor
  · intro hhpv hiiv
    by_contra hne
    have hne2 : regimenRow ageInfo all Policy.standard today v ≠
        regimenRow ageInfo all Policy.minimum today v := fun h => hne (by rw [h])
    rcases key hne2 with h | h
    · exact hhpv h.1
    · exact hiiv h.1
  · intro hne
    exact key (fun h => hne (by rw [h]))

/-- Witness of C32: born 2010-01-01, no dose recorded, today 2024-01-15; the
standard IIV row is dated 2024-10-01 and the minimum row is not after it. -/
theorem minimum_not_after_standard_witness :
    ∃ m, (generateSchedule (calculateAgeAtDate (some (makeDay 2010 0 1)) (some (makeDay 2024 0 15)))
          (fun _ => none) Policy.minimum (makeDay 2024 0 15))[16]? =
        some { vaccineName := "인플루엔자 (IIV)", nextDoseNumber := DoseCell.number 1,
               recommendedDate := DateCell.formatted m, remarks := "매년 1회 권장" } ∧
      (∃ k, DoseCell.number 1 = DoseCell.number k) ∧ m ≤ makeDay 2024 9 1 :=
  minimum_not_after_standard
    (calculateAgeAtDate (some (makeDay 2010 0 1)) (some (makeDay 2024 0 15)))
    (fun _ => none) (makeDay 2024 0 15) 16 iiv
    { vaccineName := "인플루엔자 (IIV)", nextDoseNumber := DoseCell.number 1,
      recommendedDate := DateCell.formatted (makeDay 2024 9 1), remarks := "매년 1회 권장" }
    (makeDay 2024 9 1) rfl (by decide) rfl

/-- Witness of C33: HepB with dose 1 recorded has the same row under both
policies. -/
theorem policy_rows_agree_witness :
    (generateSchedule (calculateAgeAtDate (some (makeDay 2024 0 1)) (some (makeDay 2024 3 1)))
        (fun id => if id = VaccineId.hepB then some [some (makeDay 2024 2 4), none, none]
          else none)
        Policy.standard (makeDay 2024 3 1))[1]? =
      (generateSchedule (calculateAgeAtDate (some (makeDay 2024 0 1)) (some (makeDay 2024 3 1)))
        (fun id => if id = VaccineId.hepB then some [some (makeDay 2024 2 4), none, none]
          else none)
        Policy.minimum (makeDay 2024 3 1))[1]? :=
  (policy_rows_agree
    (calculateAgeAtDate (some (makeDay 2024 0 1)) (some (makeDay 2024 3 1)))
    (fun id => if id = VaccineId.hepB then some [some (makeDay 2024 2 4), none, none] else none)
    (makeDay 2024 3 1) 1 hepB rfl).1 (by decide) (by decide)

end VaccinationSchedule
